import Mathlib

/-!
Verification of the email notification adapter
(`superset/reports/notifications/email.py`).

The Python module is embedded shallowly:

* pure string manipulation (`textwrap.dedent`, f-string interpolation) is
  translated to executable Lean functions over `String` / `List Char`;
* the third-party HTML sanitizer (`bleach.clean`) is modelled as an
  executable tokenizer / filter / serializer pipeline; the theorems proved
  about it (absence of `<script>` in sanitized output) only depend on the
  filter and serializer, which implement bleach's documented contract of
  escaping every tag that is not in the allow-list;
* collaborators that are not part of the repository slice
  (`make_msgid`, `parseaddr`, `json.loads`, pandas `to_html`,
  `modify_url_query`, the SMTP transport) are modelled explicitly; each
  model carries a doc comment saying what it stands for;
* the one statement in the file that can raise (`parseaddr(...).split("@")[1]`,
  an `IndexError` when the configured from-address has no `@`) is modelled
  by returning `Option`; every other construct in `_get_content` is total.

First part: counting occurrences of a pattern inside a character list, with
the append/boundary lemmas used to track how many `cid:` image references
and `<script>` fragments survive string concatenation and dedenting.
-/

set_option maxRecDepth 4000

/-- Number of occurrences of the pattern `p` in `l` (occurrences may overlap;
we only use it with patterns whose occurrences cannot overlap). -/
def countOcc (p : List Char) : List Char → Nat
  | [] => 0
  | c :: rest => (if p.isPrefixOf (c :: rest) then 1 else 0) + countOcc p rest

theorem countOcc_nil (p : List Char) : countOcc p [] = 0 := rfl

theorem isPrefixOf_append_of_le (p : List Char) :
    ∀ (s b : List Char), p.length ≤ s.length →
      p.isPrefixOf (s ++ b) = p.isPrefixOf s := by
  induction p with
  | nil => intro s b _; simp [List.isPrefixOf]
  | cons x p' ih =>
    intro s b h
    cases s with
    | nil => simp at h
    | cons y s' =>
      simp only [List.cons_append, List.isPrefixOf, List.append_eq]
      rw [ih s' b (by simpa using h)]

theorem length_le_of_isPrefix {p l : List Char} (h : p <+: l) :
    p.length ≤ l.length := h.length_le

/-- Generic splitting lemma: if no occurrence of `p` straddles the border
between `a` and `b`, occurrences in `a ++ b` are exactly those of `a` plus
those of `b`.  The no-straddling hypothesis quantifies over the nonempty
suffixes of `a` that are shorter than `p`. -/
theorem countOcc_append (p a b : List Char)
    (H : ∀ s, s <:+ a → s ≠ [] → s.length < p.length → ¬ p <+: (s ++ b)) :
    countOcc p (a ++ b) = countOcc p a + countOcc p b := by
  induction a with
  | nil => simp [countOcc]
  | cons c a' ih =>
    have hsub : ∀ s, s <:+ a' → s ≠ [] → s.length < p.length → ¬ p <+: (s ++ b) := by
      intro s hs hne hlen
      exact H s (hs.trans (List.suffix_cons c a')) hne hlen
    simp only [List.cons_append, countOcc, List.append_eq]
    rw [ih hsub]
    have hhead : (if p.isPrefixOf (c :: (a' ++ b)) then 1 else 0)
        = (if p.isPrefixOf (c :: a') then 1 else 0) := by
      by_cases hl : p.length ≤ (c :: a').length
      · have := isPrefixOf_append_of_le p (c :: a') b hl
        simp only [List.cons_append] at this
        rw [this]
      · push_neg at hl
        have h1 : ¬ p <+: ((c :: a') ++ b) := by
          refine H (c :: a') ?_ (by simp) hl
          exact List.suffix_refl _
        have h2 : ¬ p <+: (c :: a') := by
          intro h
          exact absurd h.length_le (by omega)
        simp only [List.cons_append] at h1
        rw [if_neg (by simpa [List.isPrefixOf_iff_prefix] using h1),
          if_neg (by simpa [List.isPrefixOf_iff_prefix] using h2)]
    omega

/-- If a short nonempty suffix `s` of `a` starts an occurrence of `p` that
continues into `b`, then `s` is a prefix of `p`. -/
theorem prefix_of_straddle {p s b : List Char} (hlen : s.length < p.length)
    (hpre : p <+: (s ++ b)) : s <+: p := by
  obtain ⟨t, ht⟩ := hpre
  have h1 : (p ++ t).take s.length = p.take s.length :=
    List.take_append_of_le_length (by omega)
  have h2 : (s ++ b).take s.length = s := List.take_left s b
  rw [ht] at h1
  rw [h2] at h1
  rw [h1]
  exact List.take_prefix _ _

/-- Splitting across a border whose right side starts with a character that
does not occur in the pattern. -/
theorem countOcc_append_headSafe (p a b : List Char)
    (hb : ∀ x, b.head? = some x → x ∉ p) :
    countOcc p (a ++ b) = countOcc p a + countOcc p b := by
  cases b with
  | nil => simp [countOcc]
  | cons x bs =>
    apply countOcc_append
    intro s _ _ hlen hpre
    obtain ⟨t, ht⟩ := hpre
    have hx : (s ++ x :: bs).get? s.length = some x := by
      rw [List.get?_append_right (le_refl _)]
      simp
    have hp : (p ++ t).get? s.length = p.get? s.length :=
      List.get?_append (by omega)
    rw [ht] at hp
    rw [hx] at hp
    exact hb x rfl (List.get?_mem hp.symm)

/-- Splitting across a border whose left side ends with a character that does
not occur in the pattern. -/
theorem countOcc_append_lastSafe (p a b : List Char)
    (ha : ∀ x, a.getLast? = some x → x ∉ p) :
    countOcc p (a ++ b) = countOcc p a + countOcc p b := by
  apply countOcc_append
  intro s hs hne hlen hpre
  have hsp : s <+: p := prefix_of_straddle hlen hpre
  obtain ⟨g, hg⟩ : ∃ g, s.getLast? = some g := by
    cases hsl : s.getLast? with
    | none => exact absurd (List.getLast?_eq_none_iff.mp hsl) hne
    | some g => exact ⟨g, rfl⟩
  have hga : a.getLast? = some g := by
    obtain ⟨t, rfl⟩ := hs
    rw [List.getLast?_append, hg]
    rfl
  have hmem : g ∈ s := List.mem_of_mem_getLast? hg
  exact ha g hga (hsp.subset hmem)

/-- Decidable check that no nonempty proper suffix of `a` (shorter than `p`)
is a prefix of `p`; rules out straddling occurrences for a concrete left
constant `a`. -/
def tailSafe (p a : List Char) : Bool :=
  (List.range p.length).all fun k =>
    k == 0 || decide (a.length < k) || !((a.drop (a.length - k)).isPrefixOf p)

theorem countOcc_append_tailSafe (p a b : List Char)
    (h : tailSafe p a = true) :
    countOcc p (a ++ b) = countOcc p a + countOcc p b := by
  apply countOcc_append
  intro s hs hne hlen hpre
  have hsp : s <+: p := prefix_of_straddle hlen hpre
  obtain ⟨t, rfl⟩ := hs
  have hdrop : (t ++ s).drop ((t ++ s).length - s.length) = s := by
    have : (t ++ s).length - s.length = t.length := by
      simp [List.length_append]
    rw [this]
    exact List.drop_left t s
  have hyes : s.isPrefixOf p = true := List.isPrefixOf_iff_prefix.mpr hsp
  have hk := (List.all_eq_true.mp h) s.length
    (by simp [List.mem_range]; omega)
  beta_reduce at hk
  rw [hdrop, hyes] at hk
  simp only [Bool.or_eq_true, beq_iff_eq, decide_eq_true_eq, Bool.not_true] at hk
  rcases hk with (hk | hk) | hk
  · exact hne (List.eq_nil_of_length_eq_zero hk)
  · have : s.length ≤ (t ++ s).length := by simp [List.length_append]
    omega
  · exact absurd hk (by simp)

/-- Decidable check that no proper suffix of the pattern `p` is a prefix of
`b`; rules out straddling occurrences for a concrete right constant `b`,
with the left side arbitrary. -/
def dropSafe (p b : List Char) : Bool :=
  (List.range p.length).all fun k =>
    k == 0 || !((p.drop k).isPrefixOf b)

theorem countOcc_append_dropSafe (p a b : List Char)
    (h : dropSafe p b = true) :
    countOcc p (a ++ b) = countOcc p a + countOcc p b := by
  apply countOcc_append
  intro s _ hne hlen hpre
  obtain ⟨t, ht⟩ := hpre
  have hb : b = p.drop s.length ++ t := by
    have h1 : (p ++ t).drop s.length = p.drop s.length ++ t :=
      List.drop_append_of_le_length (by omega)
    have h2 : (s ++ b).drop s.length = b := List.drop_left s b
    rw [ht] at h1
    rw [h2] at h1
    exact h1
  have hyes : (p.drop s.length).isPrefixOf b = true := by
    rw [hb]
    exact List.isPrefixOf_iff_prefix.mpr ⟨t, rfl⟩
  have hk := (List.all_eq_true.mp h) s.length
    (by simp [List.mem_range]; omega)
  beta_reduce at hk
  rw [hyes] at hk
  simp only [Bool.or_eq_true, beq_iff_eq, Bool.not_true] at hk
  rcases hk with hk | hk
  · exact hne (List.eq_nil_of_length_eq_zero hk)
  · exact absurd hk (by simp)

/-- A nonempty pattern none of whose characters occurs in `l` has no
occurrence in `l`. -/
theorem countOcc_zero_of_disjoint (p l : List Char) (hp : p ≠ [])
    (h : ∀ c ∈ l, c ∉ p) : countOcc p l = 0 := by
  induction l with
  | nil => rfl
  | cons c rest ih =>
    simp only [countOcc]
    have hind : ¬ p.isPrefixOf (c :: rest) = true := by
      intro hpre
      have hpp := List.isPrefixOf_iff_prefix.mp hpre
      cases p with
      | nil => exact hp rfl
      | cons x p' =>
        obtain ⟨t, ht⟩ := hpp
        have hx : x = c := by
          have := congrArg List.head? ht
          simpa using this
        exact h c (by simp) (by rw [← hx]; simp)
    rw [if_neg hind, ih (fun d hd => h d (by simp [hd]))]

/-- A nonempty pattern cannot start at a character that does not occur in it. -/
theorem countOcc_cons_notMem (p : List Char) (hp : p ≠ []) (c : Char)
    (hc : c ∉ p) (l : List Char) : countOcc p (c :: l) = countOcc p l := by
  simp only [countOcc]
  rw [if_neg, Nat.zero_add]
  intro hpre
  have hpp := List.isPrefixOf_iff_prefix.mp hpre
  cases p with
  | nil => exact hp rfl
  | cons x p' =>
    obtain ⟨t, ht⟩ := hpp
    have hx : x = c := by
      have := congrArg List.head? ht
      simpa using this
    exact hc (by rw [← hx]; simp)

/-! ### Splitting into lines and `textwrap.dedent`

`textwrap.dedent` (used at line 134 of `email.py` to normalize the HTML
skeleton's indentation) blanks whitespace-only lines, computes the longest
common leading whitespace of all remaining lines, and strips it from the
start of every line.  It only ever deletes space/tab characters that sit
between a newline (or the start of the text) and the first non-blank
character of a line, so the number of occurrences of any pattern free of
spaces, tabs and newlines is preserved — the fact the `cid:` counting
theorems rely on. -/

/-- `str.split(sep)` over character lists (Python semantics: the result is
never empty and keeps empty segments). -/
def splitSep (sep : Char) : List Char → List (List Char)
  | [] => [[]]
  | c :: rest =>
    if c = sep then [] :: splitSep sep rest
    else
      match splitSep sep rest with
      | [] => [[c]]
      | l :: ls => (c :: l) :: ls

/-- `sep.join(...)`: inverse of `splitSep`. -/
def joinSep (sep : Char) : List (List Char) → List Char
  | [] => []
  | [l] => l
  | l :: ls => l ++ sep :: joinSep sep ls

theorem splitSep_ne_nil (sep : Char) (l : List Char) : splitSep sep l ≠ [] := by
  cases l with
  | nil => simp [splitSep]
  | cons c rest =>
    simp only [splitSep]
    by_cases h : c = sep
    · simp [h]
    · rw [if_neg h]
      cases splitSep sep rest <;> simp

theorem joinSep_splitSep (sep : Char) (l : List Char) :
    joinSep sep (splitSep sep l) = l := by
  induction l with
  | nil => rfl
  | cons c rest ih =>
    by_cases h : c = sep
    · subst h
      simp only [splitSep, if_pos rfl]
      cases hL : splitSep c rest with
      | nil => exact absurd hL (splitSep_ne_nil _ _)
      | cons a as =>
        rw [hL] at ih
        simp [joinSep, ih]
    · simp only [splitSep, if_neg h]
      cases hL : splitSep sep rest with
      | nil => exact absurd hL (splitSep_ne_nil _ _)
      | cons a as =>
        rw [hL] at ih
        cases as with
        | nil => simp [joinSep] at ih ⊢; exact ih
        | cons a' as' =>
          simp only [joinSep] at ih ⊢
          rw [List.cons_append, ih]

theorem countOcc_joinSep (p : List Char) (hp : p ≠ []) (sep : Char)
    (hsep : sep ∉ p) (L : List (List Char)) :
    countOcc p (joinSep sep L) = (L.map (countOcc p)).sum := by
  induction L with
  | nil => rfl
  | cons l ls ih =>
    cases ls with
    | nil => simp [joinSep]
    | cons l' ls' =>
      have hjoin : joinSep sep (l :: l' :: ls') = l ++ sep :: joinSep sep (l' :: ls') :=
        rfl
      rw [hjoin,
        countOcc_append_headSafe p l (sep :: joinSep sep (l' :: ls'))
          (by intro x hx; simp at hx; rw [← hx]; exact hsep),
        countOcc_cons_notMem p hp sep hsep, ih]
      simp

/-- Characters `textwrap.dedent` treats as indentation whitespace. -/
def isWsChar (c : Char) : Bool := c = ' ' || c = '\t'

/-- Longest common prefix of two character lists. -/
def commonPfx : List Char → List Char → List Char
  | a :: as, b :: bs => if a = b then a :: commonPfx as bs else []
  | _, _ => []

theorem mem_commonPfx_left {c : Char} :
    ∀ {a b : List Char}, c ∈ commonPfx a b → c ∈ a := by
  intro a
  induction a with
  | nil => intro b h; simp [commonPfx] at h
  | cons x as ih =>
    intro b h
    cases b with
    | nil => simp [commonPfx] at h
    | cons y bs =>
      simp only [commonPfx] at h
      by_cases hxy : x = y
      · rw [if_pos hxy] at h
        rcases List.mem_cons.mp h with h | h
        · simp [h]
        · exact List.mem_cons_of_mem _ (ih h)
      · rw [if_neg hxy] at h
        simp at h

/-- Leading whitespace of a line. -/
def lineIndent (l : List Char) : List Char := l.takeWhile isWsChar

theorem mem_lineIndent_ws {c : Char} {l : List Char} (h : c ∈ lineIndent l) :
    isWsChar c = true := by
  induction l with
  | nil => simp [lineIndent] at h
  | cons x rest ih =>
    simp only [lineIndent, List.takeWhile] at h
    cases hx : isWsChar x with
    | false => rw [hx] at h; simp at h
    | true =>
      rw [hx] at h
      rcases List.mem_cons.mp h with h | h
      · rw [h]; exact hx
      · exact ih h

/-- The common indentation margin computed by `textwrap.dedent`: fold the
longest-common-prefix over the leading whitespace of every line that
contains a non-whitespace character (`None` when there is no such line,
in which case nothing is stripped). -/
def marginOf (lines : List (List Char)) : Option (List Char) :=
  lines.foldl
    (fun acc l =>
      if l.all isWsChar then acc
      else
        match acc with
        | none => some (lineIndent l)
        | some m => some (commonPfx m (lineIndent l)))
    none

theorem marginOf_ws_aux (lines : List (List Char)) :
    ∀ (acc : Option (List Char)),
      (∀ m, acc = some m → ∀ c ∈ m, isWsChar c = true) →
      ∀ m, lines.foldl
          (fun acc l =>
            if l.all isWsChar then acc
            else
              match acc with
              | none => some (lineIndent l)
              | some m => some (commonPfx m (lineIndent l)))
          acc = some m →
        ∀ c ∈ m, isWsChar c = true := by
  induction lines with
  | nil => intro acc hacc m hm; exact hacc m hm
  | cons l ls ih =>
    intro acc hacc m hm
    refine ih _ ?_ m hm
    intro m' hm' c hc
    beta_reduce at hm'
    by_cases hall : l.all isWsChar
    · rw [if_pos hall] at hm'
      exact hacc m' hm' c hc
    · rw [if_neg hall] at hm'
      cases acc with
      | none =>
        simp only at hm'
        cases hm'
        exact mem_lineIndent_ws hc
      | some m0 =>
        simp only at hm'
        cases hm'
        exact hacc m0 rfl c (mem_commonPfx_left hc)

theorem marginOf_ws (lines : List (List Char)) (m : List Char)
    (h : marginOf lines = some m) : ∀ c ∈ m, isWsChar c = true :=
  marginOf_ws_aux lines none (by intro m hm; cases hm) m h

/-- One line of `textwrap.dedent`: whitespace-only lines are blanked, other
lines lose the margin prefix when they carry it. -/
def dedentLine (margin : Option (List Char)) (l : List Char) : List Char :=
  if l.all isWsChar then []
  else
    match margin with
    | none => l
    | some m => if m.isPrefixOf l then l.drop m.length else l

/-- `textwrap.dedent` on character lists. -/
def dedentL (s : List Char) : List Char :=
  let lines := splitSep '\n' s
  joinSep '\n' (lines.map (dedentLine (marginOf lines)))

/-- `textwrap.dedent` on strings, as used for the email body. -/
def dedentS (s : String) : String := String.mk (dedentL s.data)

theorem countOcc_dedentLine (p : List Char) (hp : p ≠ [])
    (hws : ∀ c, isWsChar c = true → c ∉ p)
    (margin : Option (List Char))
    (hm : ∀ m, margin = some m → ∀ c ∈ m, isWsChar c = true)
    (l : List Char) :
    countOcc p (dedentLine margin l) = countOcc p l := by
  unfold dedentLine
  by_cases hall : l.all isWsChar
  · rw [if_pos hall, countOcc_nil,
      countOcc_zero_of_disjoint p l hp
        (fun c hc => hws c (List.all_eq_true.mp hall c hc))]
  · rw [if_neg hall]
    cases margin with
    | none => rfl
    | some m =>
      by_cases hpre : m.isPrefixOf l
      · simp only [if_pos hpre]
        have hl : l = m ++ l.drop m.length := by
          obtain ⟨t, ht⟩ := List.isPrefixOf_iff_prefix.mp hpre
          rw [← ht, List.drop_append_of_le_length (le_refl _)]
          simp
        conv_rhs => rw [hl]
        rw [countOcc_append_lastSafe p m _
            (fun x hx => hws x (hm m rfl x (List.mem_of_mem_getLast? hx))),
          countOcc_zero_of_disjoint p m hp (fun c hc => hws c (hm m rfl c hc))]
        omega
      · simp only [if_neg hpre]

/-- `textwrap.dedent` preserves the number of occurrences of any pattern
that contains no space, tab or newline. -/
theorem countOcc_dedentL (p : List Char) (hp : p ≠ []) (hnl : '\n' ∉ p)
    (hws : ∀ c, isWsChar c = true → c ∉ p) (s : List Char) :
    countOcc p (dedentL s) = countOcc p s := by
  unfold dedentL
  rw [countOcc_joinSep p hp '\n' hnl]
  conv_rhs => rw [← joinSep_splitSep '\n' s]
  rw [countOcc_joinSep p hp '\n' hnl, List.map_map]
  congr 1
  refine List.map_congr_left ?_
  intro l _
  exact countOcc_dedentLine p hp hws (marginOf (splitSep '\n' s))
    (fun m hm => marginOf_ws _ m hm) l

/-! ### Model of the `bleach.clean` HTML sanitizer

`bleach.clean(text, tags=..., attributes=...)` parses its input as HTML and
re-serializes it, keeping only tags from the tag allow-list (with their
attributes filtered by the attribute allow-list) and HTML-escaping
everything else, including every disallowed tag.  Modelled from the spec:
the sanitizer "strips non-whitelisted markup from free-text and from a
rendered data table, given an explicit tag/attribute allow-list"; bleach
itself is a third-party library, not part of the repository.  The theorem
proved below — serialized output never contains `<` immediately followed by
`s`, hence never contains `<script>` — depends only on the filter and
serializer stages, not on the details of the tokenizer. -/

theorem length_dropWhile_le_self (p : Char → Bool) (l : List Char) :
    (l.dropWhile p).length ≤ l.length := by
  induction l with
  | nil => simp
  | cons c rest ih =>
    rw [List.dropWhile]
    cases p c <;> simp <;> omega

/-- HTML token: raw text, or a tag (closing flag, lowercased name,
attribute key/value pairs). -/
inductive HTok where
  | text : List Char → HTok
  | tag : Bool → List Char → List (List Char × List Char) → HTok

/-- HTML escaping of one character (the serializer escapes all text). -/
def escChar (c : Char) : List Char :=
  if c = '<' then "&lt;".data
  else if c = '>' then "&gt;".data
  else if c = '&' then "&amp;".data
  else if c = '"' then "&quot;".data
  else [c]

def escapeHtml : List Char → List Char
  | [] => []
  | c :: rest => escChar c ++ escapeHtml rest

theorem not_mem_escChar_lt (c : Char) : '<' ∉ escChar c := by
  unfold escChar
  split_ifs with h1 h2 h3 h4
  · decide
  · decide
  · decide
  · decide
  · intro h
    simp at h
    exact h1 h.symm

theorem not_mem_escapeHtml_lt (l : List Char) : '<' ∉ escapeHtml l := by
  induction l with
  | nil => simp [escapeHtml]
  | cons c rest ih =>
    simp only [escapeHtml]
    intro h
    rcases List.mem_append.mp h with h | h
    · exact not_mem_escChar_lt c h
    · exact ih h

/-- Characters accepted as part of a tag name by the tokenizer. -/
def isNameChar (c : Char) : Bool := c.isAlpha || c.isDigit

/-- Strip one level of surrounding double quotes from an attribute value. -/
def stripQuotes (l : List Char) : List Char :=
  let l1 := if l.head? = some '"' then l.tail else l
  if l1.getLast? = some '"' then l1.dropLast else l1

/-- Parse one `key=value` (or bare `key`) attribute word. -/
def parseAttr (w : List Char) : Option (List Char × List Char) :=
  if w = [] then none
  else
    some ((w.takeWhile (fun c => !(c = '='))).map Char.toLower,
      stripQuotes (w.dropWhile (fun c => !(c = '='))).tail)

/-- Build a tag token from the characters between `<` and `>`. -/
def mkTag (inner : List Char) : HTok :=
  let closing := inner.head? = some '/'
  let inner1 := if closing then inner.tail else inner
  HTok.tag closing ((inner1.takeWhile isNameChar).map Char.toLower)
    ((splitSep ' ' (inner1.dropWhile isNameChar)).filterMap parseAttr)

/-- HTML tokenizer, fuel-indexed so that it is structurally recursive and
computes by reduction: a `<` opens a tag that runs to the next `>` (an
unterminated tag degrades to text, as html5lib error recovery does);
everything else is text.  One unit of fuel is spent per token, so the
input length is always enough fuel. -/
def tokenizeF : Nat → List Char → List HTok
  | 0, _ => []
  | _, [] => []
  | fuel + 1, '<' :: rest =>
    match rest.dropWhile (fun c => !(c = '>')) with
    | [] => [HTok.text ('<' :: rest)]
    | _ :: rest' =>
      mkTag (rest.takeWhile (fun c => !(c = '>'))) :: tokenizeF fuel rest'
  | fuel + 1, c :: rest =>
    HTok.text (c :: rest.takeWhile (fun c => !(c = '<')))
      :: tokenizeF fuel (rest.dropWhile (fun c => !(c = '<')))

def tokenize (l : List Char) : List HTok := tokenizeF l.length l

/-- Raw textual form of a tag, used when the sanitizer demotes a
disallowed tag to text (bleach escapes the whole tag). -/
def rawTagText (closing : Bool) (name : List Char)
    (attrs : List (List Char × List Char)) : List Char :=
  '<' :: ((if closing then ['/'] else []) ++ name
    ++ (attrs.map (fun kv => ' ' :: (kv.1 ++ '=' :: '"' :: kv.2 ++ ['"']))).join
    ++ ['>'])

/-- The sanitizer's filtering stage: allowed tags keep only allow-listed
attributes; every other tag becomes text (and is then escaped by the
serializer). -/
def filterTok (tagsAllow attrsAllow : List (List Char)) : HTok → HTok
  | HTok.text s => HTok.text s
  | HTok.tag closing name attrs =>
    if name ∈ tagsAllow then
      HTok.tag closing name (attrs.filter (fun kv => kv.1 ∈ attrsAllow))
    else HTok.text (rawTagText closing name attrs)

def filterToks (tagsAllow attrsAllow : List (List Char)) (ts : List HTok) :
    List HTok :=
  ts.map (filterTok tagsAllow attrsAllow)

/-- Serialization of attribute pairs (values re-escaped). -/
def renderAttrs : List (List Char × List Char) → List Char
  | [] => []
  | (k, v) :: rest =>
    [' '] ++ k ++ ['=', '"'] ++ escapeHtml v ++ ['"'] ++ renderAttrs rest

/-- Serialization of one token. -/
def renderTok : HTok → List Char
  | HTok.text s => escapeHtml s
  | HTok.tag true name _ => '<' :: '/' :: (name ++ ['>'])
  | HTok.tag false name attrs => '<' :: (name ++ renderAttrs attrs ++ ['>'])

def serializeToks (ts : List HTok) : List Char := (ts.map renderTok).join

/-- The full sanitizer: tokenize, filter against the allow-lists,
serialize. -/
def bleach_clean (tagsAllow attrsAllow : List String) (s : String) : String :=
  String.mk (serializeToks (filterToks (tagsAllow.map String.data)
    (attrsAllow.map String.data) (tokenize s.data)))

/-- No `<` is immediately followed by `s` anywhere in the list.  Since every
tag name on the table allow-list starts with `t` (and a closing tag puts
`/` after `<`), this invariant holds of all sanitizer output and rules out
any `<script>` occurrence. -/
def noLtS : List Char → Bool
  | [] => true
  | [_] => true
  | a :: b :: rest => !(a = '<' && b = 's') && noLtS (b :: rest)

theorem noLtS_tail {c : Char} {l : List Char} (h : noLtS (c :: l) = true) :
    noLtS l = true := by
  cases l with
  | nil => rfl
  | cons b rest =>
    simp only [noLtS, Bool.and_eq_true] at h
    exact h.2

theorem countOcc_zero_of_noLtS (q l : List Char) (h : noLtS l = true) :
    countOcc ('<' :: 's' :: q) l = 0 := by
  induction l with
  | nil => rfl
  | cons c rest ih =>
    simp only [countOcc]
    rw [if_neg, ih (noLtS_tail h), Nat.add_zero]
    intro hpre
    have hpp := List.isPrefixOf_iff_prefix.mp hpre
    obtain ⟨t, ht⟩ := hpp
    cases rest with
    | nil =>
      have hlen := congrArg List.length ht
      simp only [List.length_cons, List.length_append, List.length_nil] at hlen
      omega
    | cons b rest' =>
      have hc : c = '<' ∧ b = 's' := by
        have h0 := congrArg List.head? ht
        simp at h0
        have h1 := congrArg (fun x => x.tail.head?) ht
        simp at h1
        exact ⟨h0.symm, h1.symm⟩
      rw [hc.1, hc.2] at h
      simp [noLtS] at h

theorem noLtS_of_not_mem_lt {l : List Char} (h : '<' ∉ l) : noLtS l = true := by
  induction l with
  | nil => rfl
  | cons a rest ih =>
    cases rest with
    | nil => rfl
    | cons b rest' =>
      simp only [noLtS, Bool.and_eq_true, Bool.not_eq_true']
      constructor
      · have : a ≠ '<' := fun hh => h (by simp [hh])
        simp [this]
      · exact ih (fun hh => h (List.mem_cons_of_mem _ hh))

theorem getLast?_ne_lt_of_not_mem {l : List Char} (h : '<' ∉ l) :
    l.getLast? ≠ some '<' := by
  intro hg
  exact h (List.mem_of_mem_getLast? hg)

theorem noLtS_append {a b : List Char} (h1 : noLtS a = true) (h2 : noLtS b = true)
    (hj : a.getLast? ≠ some '<' ∨ b.head? ≠ some 's') :
    noLtS (a ++ b) = true := by
  induction a with
  | nil => simpa using h2
  | cons x a' ih =>
    cases a' with
    | nil =>
      cases b with
      | nil => rfl
      | cons y bs =>
        simp only [List.cons_append, List.nil_append, noLtS, Bool.and_eq_true,
          Bool.not_eq_true']
        refine ⟨?_, h2⟩
        rcases hj with hj | hj
        · simp at hj
          simp [hj]
        · simp at hj
          by_cases hx : x = '<'
          · simp [hx, hj]
          · simp [hx]
    | cons x' a'' =>
      have hpair : ¬(x = '<' ∧ x' = 's') := by
        simp only [noLtS, Bool.and_eq_true, Bool.not_eq_true'] at h1
        intro ⟨ha, hb⟩
        rw [ha, hb] at h1
        simp at h1
      have h1' : noLtS (x' :: a'') = true := noLtS_tail h1
      have hj' : (x' :: a'').getLast? ≠ some '<' ∨ b.head? ≠ some 's' := by
        rcases hj with hj | hj
        · left
          intro hg
          apply hj
          rw [List.getLast?_cons_cons]
          exact hg
        · right; exact hj
      have := ih h1' hj'
      simp only [List.cons_append] at this ⊢
      simp only [noLtS, Bool.and_eq_true, Bool.not_eq_true']
      constructor
      · by_cases hx : x = '<'
        · subst hx
          have : x' ≠ 's' := fun hh => hpair ⟨rfl, hh⟩
          simp [this]
        · simp [hx]
      · simpa using this

/-- Conditions under which serializing one token keeps the `noLtS`
invariant: tag names contain no `<` and do not start with `s`, attribute
keys contain no `<`.  Text needs nothing (it is escaped). -/
def tokSafe : HTok → Prop
  | HTok.text _ => True
  | HTok.tag _ name attrs => '<' ∉ name ∧ name.head? ≠ some 's' ∧ ∀ kv ∈ attrs, '<' ∉ kv.1

theorem noLtS_lt_cons (rest : List Char) (hh : rest.head? ≠ some 's')
    (hm : '<' ∉ rest) : noLtS ('<' :: rest) = true := by
  cases rest with
  | nil => rfl
  | cons y ys =>
    simp only [noLtS, Bool.and_eq_true, Bool.not_eq_true']
    constructor
    · have hy : y ≠ 's' := by intro hy; exact hh (by simp [hy])
      simp [hy]
    · exact noLtS_of_not_mem_lt hm

theorem not_mem_renderAttrs_lt (attrs : List (List Char × List Char))
    (h : ∀ kv ∈ attrs, '<' ∉ kv.1) : '<' ∉ renderAttrs attrs := by
  induction attrs with
  | nil => simp [renderAttrs]
  | cons kv rest ih =>
    obtain ⟨k, v⟩ := kv
    intro hmem
    simp only [renderAttrs, List.append_assoc, List.mem_append] at hmem
    rcases hmem with hx | hx | hx | hx | hx | hx
    · simp at hx
    · exact h (k, v) (by simp) hx
    · simp at hx
    · exact not_mem_escapeHtml_lt v hx
    · simp at hx
    · exact ih (fun kv hkv => h kv (List.mem_cons_of_mem _ hkv)) hx

theorem renderTok_invariant (t : HTok) (h : tokSafe t) :
    noLtS (renderTok t) = true ∧ (renderTok t).getLast? ≠ some '<' := by
  cases t with
  | text s =>
    exact ⟨noLtS_of_not_mem_lt (not_mem_escapeHtml_lt s),
      getLast?_ne_lt_of_not_mem (not_mem_escapeHtml_lt s)⟩
  | tag closing name attrs =>
    obtain ⟨hname, hhead, hattrs⟩ := h
    cases closing with
    | true =>
      constructor
      · apply noLtS_lt_cons
        · simp
        · intro hmem
          rcases List.mem_cons.mp hmem with hx | hx
          · exact absurd hx.symm (by decide)
          · rcases List.mem_append.mp hx with hx | hx
            · exact hname hx
            · simp at hx
      · have : ('<' : Char) :: '/' :: (name ++ ['>'])
            = (('<' : Char) :: '/' :: name) ++ ['>'] := by simp
        rw [renderTok, this, List.getLast?_concat]
        decide
    | false =>
      constructor
      · apply noLtS_lt_cons
        · cases name with
          | nil =>
            cases attrs with
            | nil => simp [renderAttrs]
            | cons kv rest =>
              obtain ⟨k, v⟩ := kv
              simp [renderAttrs]
          | cons n ns =>
            simp only [List.cons_append, List.head?_cons]
            intro hs
            exact hhead (by rw [← hs]; rfl)
        · intro hmem
          rcases List.mem_append.mp hmem with hx | hx
          · rcases List.mem_append.mp hx with hx | hx
            · exact hname hx
            · exact not_mem_renderAttrs_lt attrs hattrs hx
          · simp at hx
      · have : ('<' : Char) :: (name ++ renderAttrs attrs ++ ['>'])
            = (('<' : Char) :: (name ++ renderAttrs attrs)) ++ ['>'] := by simp
        rw [renderTok, this, List.getLast?_concat]
        decide

theorem noLtS_serializeToks (ts : List HTok) (h : ∀ t ∈ ts, tokSafe t) :
    noLtS (serializeToks ts) = true := by
  induction ts with
  | nil => rfl
  | cons t ts' ih =>
    have hjoin : serializeToks (t :: ts') = renderTok t ++ serializeToks ts' := by
      simp [serializeToks]
    obtain ⟨h1, h2⟩ := renderTok_invariant t (h t (by simp))
    rw [hjoin]
    exact noLtS_append h1 (ih (fun t' ht' => h t' (List.mem_cons_of_mem _ ht')))
      (Or.inl h2)

theorem tokSafe_filterTok (tagsAllow attrsAllow : List (List Char))
    (htags : ∀ n ∈ tagsAllow, '<' ∉ n ∧ n.head? ≠ some 's')
    (hattrs : ∀ a ∈ attrsAllow, '<' ∉ a) (t : HTok) :
    tokSafe (filterTok tagsAllow attrsAllow t) := by
  cases t with
  | text s => trivial
  | tag closing name attrs =>
    simp only [filterTok]
    by_cases hmem : name ∈ tagsAllow
    · rw [if_pos hmem]
      refine ⟨(htags name hmem).1, (htags name hmem).2, ?_⟩
      intro kv hkv
      have := List.of_mem_filter hkv
      exact hattrs kv.1 (by simpa using this)
    · rw [if_neg hmem]
      trivial

/-- Output of the modelled `bleach.clean` never contains a `<` immediately
followed by `s`, provided no allow-listed tag name starts with `s`. -/
theorem noLtS_bleach_clean (tagsAllow attrsAllow : List String) (s : String)
    (htags : ∀ n ∈ tagsAllow, '<' ∉ n.data ∧ n.data.head? ≠ some 's')
    (hattrs : ∀ a ∈ attrsAllow, '<' ∉ a.data) :
    noLtS (bleach_clean tagsAllow attrsAllow s).data = true := by
  unfold bleach_clean
  apply noLtS_serializeToks
  intro t ht
  unfold filterToks at ht
  obtain ⟨t0, _, rfl⟩ := List.mem_map.mp ht
  apply tokSafe_filterTok
  · intro n hn
    obtain ⟨n0, hn0, rfl⟩ := List.mem_map.mp hn
    exact htags n0 hn0
  · intro a ha
    obtain ⟨a0, ha0, rfl⟩ := List.mem_map.mp ha
    exact hattrs a0 ha0

/-- The modelled `bleach.clean` output contains no occurrence of the
literal `<script>` — for any input whatsoever. -/
theorem countOcc_script_bleach_clean (tagsAllow attrsAllow : List String)
    (s : String)
    (htags : ∀ n ∈ tagsAllow, '<' ∉ n.data ∧ n.data.head? ≠ some 's')
    (hattrs : ∀ a ∈ attrsAllow, '<' ∉ a.data) :
    countOcc "<script>".data (bleach_clean tagsAllow attrsAllow s).data = 0 := by
  have h := noLtS_bleach_clean tagsAllow attrsAllow s htags hattrs
  have hpat : "<script>".data = '<' :: 's' :: "cript>".data := by decide
  rw [hpat]
  exact countOcc_zero_of_noLtS _ _ h

/-! ### The embedded source: `superset/reports/notifications/email.py`

The HTML skeleton of the email body (the f-string at lines 134-363 of the
source, with doubled braces denoting literal braces, here written as
hexadecimal escapes) is reproduced verbatim, as the two constant parts
around its single interpolation point `{img_tag}`.  Each part is stored as
a list of chunks so that decidable facts about it (occurrence counts) can
be established chunk by chunk; `SKEL_A`/`SKEL_B` are the joined strings
actually used by `_get_content`. -/

/-- First constant part of the body f-string: everything before the
`{img_tag}` interpolation point (line 304 of the source). -/
def SKEL_A_CHUNKS : List String :=
  ["\n                <!DOCTYPE html PUBLIC \"-//W3C//DTD XHTML 1.0 Transitional//EN\" \"http://www.w3.org/TR/xhtml1/DTD/xhtml1-transitional.dtd\">\n                <html xmlns=\"http://www.w3.org/1999/xhtml\" xmlns:o=\"urn:schemas-microsoft-com:office:office\" style=\"font-family:\x27Poppins\x27, \x27helvetica neue\x27, helvetica, arial, sans-serif\"> \n                <head> \n                <meta charset=\"UTF-8\"> \n",
   "                <meta content=\"width=device-width, initial-scale=1\" name=\"viewport\"> \n                <meta name=\"x-apple-disable-message-reformatting\"> \n                <meta http-equiv=\"X-UA-Compatible\" content=\"IE=edge\"> \n                <meta content=\"telephone=no\" name=\"format-detection\"> \n                <title>experienz</title>\n",
   "                <link href=\"https://fonts.googleapis.com/css?family=Poppins:400,400i,700,700i\" rel=\"stylesheet\">\n                <style type=\"text/css\">\n                        #outlook a \x7b\n                            padding:0;\n                        \x7d\n                        .es-button \x7b\n                            mso-style-priority:100!important;\n",
   "                            text-decoration:none!important;\n                        \x7d\n                        a[x-apple-data-detectors] \x7b\n                            color:inherit!important;\n                            text-decoration:none!important;\n                            font-size:inherit!important;\n                            font-family:inherit!important;\n",
   "                            font-weight:inherit!important;\n                            line-height:inherit!important;\n                        \x7d\n                        .es-desk-hidden \x7b\n                            display:none;\n                            float:left;\n                            overflow:hidden;\n                            width:0;\n                            max-height:0;\n",
   "                            line-height:0;\n                            mso-hide:all;\n                        \x7d\n                        [data-ogsb] .es-button \x7b\n                            border-width:0!important;\n                            padding:10px 30px 10px 30px!important;\n                        \x7d\n                        [data-ogsb] .es-button.es-button-1 \x7b\n",
   "                            padding:15px 30px!important;\n                        \x7d\n                        @media only screen and (max-width:600px) \x7b\n                            p, ul li, ol li, a \x7b line-height:150%!important \x7d \n                            h1, h2, h3, h1 a, h2 a, h3 a \x7b line-height:120% \x7d \n                            h1 \x7b font-size:30px!important; text-align:left \x7d \n",
   "                            h2 \x7b font-size:26px!important; text-align:left \x7d \n                            h3 \x7b font-size:20px!important; text-align:left \x7d \n                            .es-header-body h1 a, .es-content-body h1 a, .es-footer-body h1 a \x7b font-size:36px!important; text-align:left \x7d \n",
   "                            .es-header-body h2 a, .es-content-body h2 a, .es-footer-body h2 a \x7b font-size:26px!important; text-align:left \x7d \n                            .es-header-body h3 a, .es-content-body h3 a, .es-footer-body h3 a \x7b font-size:20px!important; text-align:left \x7d \n                            .es-menu td a \x7b font-size:12px!important \x7d \n",
   "                            .es-header-body p, .es-header-body ul li, .es-header-body ol li, .es-header-body a \x7b font-size:14px!important \x7d \n                            .es-content-body p, .es-content-body ul li, .es-content-body ol li, .es-content-body a \x7b font-size:16px!important \x7d \n",
   "                            .es-footer-body p, .es-footer-body ul li, .es-footer-body ol li, .es-footer-body a \x7b font-size:14px!important \x7d \n                            .es-infoblock p, .es-infoblock ul li, .es-infoblock ol li, .es-infoblock a \x7b font-size:12px!important \x7d \n                            *[class=\"gmail-fix\"] \x7b display:none!important \x7d \n",
   "                            .es-m-txt-c, .es-m-txt-c h1, .es-m-txt-c h2, .es-m-txt-c h3 \x7b text-align:center!important \x7d \n                            .es-m-txt-r, .es-m-txt-r h1, .es-m-txt-r h2, .es-m-txt-r h3 \x7b text-align:right!important \x7d\n                            .es-m-txt-l, .es-m-txt-l h1, .es-m-txt-l h2, .es-m-txt-l h3 \x7b text-align:left!important \x7d \n",
   "                            .es-m-txt-r img, .es-m-txt-c img, .es-m-txt-l img \x7b display:inline!important \x7d \n                            .es-button-border \x7b display:inline-block!important \x7d \n                            a.es-button, button.es-button \x7b font-size:20px!important; display:inline-block!important \x7d \n",
   "                            .es-adaptive table, .es-left, .es-right \x7b width:100%!important \x7d \n                            .es-content table, .es-header table, .es-footer table, .es-content, .es-footer, .es-header \x7b width:100%!important; max-width:600px!important \x7d \n                            .es-adapt-td \x7b display:block!important; width:100%!important \x7d \n",
   "                            .adapt-img \x7b width:100%!important; height:auto!important \x7d \n                            .es-m-p0 \x7b padding:0!important \x7d \n                            .es-m-p0r \x7b padding-right:0!important \x7d \n                            .es-m-p0l \x7b padding-left:0!important \x7d \n                            .es-m-p0t \x7b padding-top:0!important \x7d \n",
   "                            .es-m-p0b \x7b padding-bottom:0!important \x7d \n                            .es-m-p20b \x7b padding-bottom:20px!important \x7d \n                            .es-mobile-hidden, .es-hidden \x7b display:none!important \x7d \n",
   "                            tr.es-desk-hidden, td.es-desk-hidden, table.es-desk-hidden \x7b width:auto!important; overflow:visible!important; float:none!important; max-height:inherit!important; line-height:inherit!important \x7d \n                            tr.es-desk-hidden \x7b display:table-row!important \x7d \n                            table.es-desk-hidden \x7b display:table!important \x7d \n",
   "                            td.es-desk-menu-hidden \x7b display:table-cell!important \x7d \n                            .es-menu td \x7b width:1%!important \x7d \n                            table.es-table-not-adapt, .esd-block-html table \x7b width:auto!important \x7d \n                            table.es-social \x7b display:inline-block!important \x7d \n",
   "                            table.es-social td \x7b display:inline-block!important \x7d \n                            .es-m-p5 \x7b padding:5px!important \x7d \n                            .es-m-p5t \x7b padding-top:5px!important \x7d \n                            .es-m-p5b \x7b padding-bottom:5px!important \x7d \n                            .es-m-p5r \x7b padding-right:5px!important \x7d \n",
   "                            .es-m-p5l \x7b padding-left:5px!important \x7d \n                            .es-m-p10 \x7b padding:10px!important \x7d \n                            .es-m-p10t \x7b padding-top:10px!important \x7d \n                            .es-m-p10b \x7b padding-bottom:10px!important \x7d \n                            .es-m-p10r \x7b padding-right:10px!important \x7d \n",
   "                            .es-m-p10l \x7b padding-left:10px!important \x7d \n                            .es-m-p15 \x7b padding:15px!important \x7d \n                            .es-m-p15t \x7b padding-top:15px!important \x7d \n                            .es-m-p15b \x7b padding-bottom:15px!important \x7d \n                            .es-m-p15r \x7b padding-right:15px!important \x7d \n",
   "                            .es-m-p15l \x7b padding-left:15px!important \x7d \n                            .es-m-p20 \x7b padding:20px!important \x7d \n                            .es-m-p20t \x7b padding-top:20px!important \x7d \n                            .es-m-p20r \x7b padding-right:20px!important \x7d \n                            .es-m-p20l \x7b padding-left:20px!important \x7d \n",
   "                            .es-m-p25 \x7b padding:25px!important \x7d \n                            .es-m-p25t \x7b padding-top:25px!important \x7d \n                            .es-m-p25b \x7b padding-bottom:25px!important \x7d \n                            .es-m-p25r \x7b padding-right:25px!important \x7d \n                            .es-m-p25l \x7b padding-left:25px!important \x7d \n",
   "                            .es-m-p30 \x7b padding:30px!important \x7d \n                            .es-m-p30t \x7b padding-top:30px!important \x7d \n                            .es-m-p30b \x7b padding-bottom:30px!important \x7d \n                            .es-m-p30r \x7b padding-right:30px!important \x7d \n                            .es-m-p30l \x7b padding-left:30px!important \x7d \n",
   "                            .es-m-p35 \x7b padding:35px!important \x7d \n                            .es-m-p35t \x7b padding-top:35px!important \x7d \n                            .es-m-p35b \x7b padding-bottom:35px!important \x7d \n                            .es-m-p35r \x7b padding-right:35px!important \x7d \n                            .es-m-p35l \x7b padding-left:35px!important \x7d \n",
   "                            .es-m-p40 \x7b padding:40px!important \x7d \n                            .es-m-p40t \x7b padding-top:40px!important \x7d \n                            .es-m-p40b \x7b padding-bottom:40px!important \x7d \n                            .es-m-p40r \x7b padding-right:40px!important \x7d \n                            .es-m-p40l \x7b padding-left:40px!important \x7d \n",
   "                            .es-desk-hidden \x7b display:table-row!important; width:auto!important; overflow:visible!important; max-height:inherit!important \x7d \x7d\n                </style> \n                </head> \n                <body style=\"width:100%;font-family:\x27Poppins\x27, \x27helvetica neue\x27, helvetica, arial, sans-serif;-webkit-text-size-adjust:100%;-ms-text-size-adjust:100%;padding:0;Margin:0\"> \n",
   "                <div class=\"es-wrapper-color\" style=\"background-color:#FAFAFA\"><!--[if gte mso 9]>\n                            <v:background xmlns:v=\"urn:schemas-microsoft-com:vml\" fill=\"t\">\n                                <v:fill type=\"tile\" color=\"#fafafa\"></v:fill>\n                            </v:background>\n                        <![endif]--> \n",
   "                <table class=\"es-wrapper\" width=\"100%\" cellspacing=\"0\" cellpadding=\"0\" style=\"mso-table-lspace:0pt;mso-table-rspace:0pt;border-collapse:collapse;border-spacing:0px;padding:0;Margin:0;width:100%;height:100%;background-repeat:repeat;background-position:center top;background-color:#FAFAFA\"> \n                    <tr> \n                    <td valign=\"top\" style=\"padding:0;Margin:0\"> \n",
   "                    <table cellpadding=\"0\" cellspacing=\"0\" class=\"es-content\" align=\"center\" style=\"mso-table-lspace:0pt;mso-table-rspace:0pt;border-collapse:collapse;border-spacing:0px;table-layout:fixed !important;width:100%\"> \n                        <tr> \n                        <td align=\"center\" style=\"padding:0;Margin:0\"> \n",
   "                        <table bgcolor=\"#ffffff\" class=\"es-content-body\" align=\"center\" cellpadding=\"0\" cellspacing=\"0\" style=\"mso-table-lspace:0pt;mso-table-rspace:0pt;border-collapse:collapse;border-spacing:0px;background-color:#FFFFFF;width:600px\"> \n                            <tr> \n                            <td align=\"left\" style=\"padding:0;Margin:0;padding-right:40px\"> \n",
   "                            <table cellspacing=\"0\" cellpadding=\"0\" width=\"100%\" style=\"mso-table-lspace:0pt;mso-table-rspace:0pt;border-collapse:collapse;border-spacing:0px\"> \n                                <tr> \n                                <td align=\"left\" style=\"padding:0;Margin:0;width:560px\"> \n",
   "                                <table width=\"100%\" cellspacing=\"0\" cellpadding=\"0\" role=\"presentation\" style=\"mso-table-lspace:0pt;mso-table-rspace:0pt;border-collapse:collapse;border-spacing:0px\"> \n                                    <tr> \n                                    <td class=\"es-m-txt-c\" align=\"left\" style=\"padding:0;Margin:0;padding-top:10px;padding-left:15px;font-size:0px\">\n",
   "                                        <a href=\"https://experienz.co.uk\" target=\"_blank\" style=\"-webkit-text-size-adjust:none;-ms-text-size-adjust:none;mso-line-height-rule:exactly;text-decoration:underline;color:#5C68E2;font-size:12px\">\n",
   "                                            <img src=\"data:image/png;base64,iVBORw0KGgoAAAANSUhEUgAAAXYAAAB1CAYAAABavcp/AAAACXBIWXMAAAsTAAALEwEAmpwYAAAAGXRFWHRTb2Z0d2FyZQBBZG9iZSBJbWFnZVJlYWR5ccllPAAAHzhJREFUeNrsXQ1wXNV1vlacYDcFibST0AZbouVvUgYp04BTE6yFNFBghNcUQ0gwWk8waRhTyy2eTmtar1vcTmpmIhcmaQ2pV9hJwBAs4QEKDbBrF7d2aVh5aIKBFsk0LclkihSS2GYM9H5371Wf1u+9+/Pue7tanW/mzern7fu5777vnPvdc86d89577zECgUAgtA7m",
   "tDqxz9+8qYd/dAT/dmTd+jI9egKBQMTenKTdxT+w5eRnlyTxbovDjPNtLLBVsXHyH6PuQSAQiNiz8b5zga09xdNNSpKHdz/Mib5K3YVAIBCx+yHzPP/ISyLvbOClgOiHJckPU9chEAhE7HZk3sU/BvhWSNkrT0ryJdLrCQQCEXs8oRckmffOoDaERl/kBF+i7kQgEIjYpxN6kTVWavHhxQ9i4yQ/QV2LQCDMSmJvEUIPJXhO7kXqXgQCYdYQOyf0nPRuu1u4bSHRDNBEK4FAaGli54TeIQm9fxa1cYVvBYqLJxAILUfsMmyxxJozyiVtQJ7BBOsgdTkCgTDjiX2Weulx3nueJlcJBMKMJXaZKQovvZuaepr3nqf4dwKBMOOIfZZLLyZYS9IMgUCY",
   "McTOSR1Zo1+h5tViiJN7gZqBQCA0NbFzUoeXTnq6OUZYLWqGdHcCgdB8xE6k7oxRvuWI3AkEQlMRO5E6kTuBQGghYidSJ3InEAjNgzYi9aYCwkKpBAGBQGicx07RL6mBomUIBEL2xC4rM26jJkwNG6lCJIFAyIzYZUZpmVHyUdpYRtUhCQRC6sQua7+A1KlMQPpA+YEeqgxJIBBs4DJ52up11JsJGBGRx04gENLz2GX9l13UbJmD9HYCgeCf2KUEM8YarKu3nzSPdX/4I6yzvZ1vHWz0Rz9kew6Ps8ljR2P3B/a8Pt7Qxl6yoDPJdXyck3uVuiyBQNBhrsW+g40i9fM5Ma8473xBjOdLkg5i8tgxdtkD29lBTvL1pP7UZ2+c+s7hn0yy5bseOmG/",
   "LLD50s+w1b95ofj53K33sPHJSdtDlPjWQ12WQCB48djlGqXPZu2Zg8xv+8SFbOEpNXsCQoa3u+f1w5wYJwQ5LlnYye69ok/8/TpO2kHccdEStn7xxWzdM/8oPPrNl14m/h5mBNIECB3EjnPCyFz+wA5Xr51K/RIIBG8ee2ZkAonljsVLWN9Z53ByP0l42SDm3a8eCvVyd79yiB3kxNnBDUE9YBhApvf82wHxO2Sbpz67gj20bDm7sHRfpHzjExhlKFLHfTzJRxAJUESmL5UcIBAIcdBGxchEpNSjYEDo8LxfumU1u5ETMjxaeLbn/N09gpjjpAt4wfDg6wFPf/erL0/9DnJd9cRu8fc7Lro4k1HHTm5EalLRDi+HBLlTtyUQCImIPW0iAfkFCX3H",
   "iweFBg1ZxUSugMwBz347/169pwzUEz48/L2vHxbfgzFJExgZ4NpwLx5HB2u4se2irksgEJyIXXrrnWmdHOR66Is1QodnDUKHR206sQijAB0dRB1lBMKOteqJR8UnJJ+0gOu6eMFCtmnf3qlrw3wAMJpc3yevnUAgREKnsadCIJBO4KXjU2nPLpOJyiO+87k9Vt8D2WNkAINy5749LhEqscBoAZO2MDjBa+s8pV3IMh68935udIuUkUpoBvT29iJaCwUB1UgSYbnFSqVCc0HN5rGn5a3Dk93ff7OIQQehLxq6z4nU4e3DI4b+7vJ9EHoaXruQlq7sEwS+vC5KRxkyTyhQ9yU0AakjafEFVivd3Su3NXwb4//rohZqMmKXFtgboGeD0JUnu2jo3qlo",
   "FRePOBhp4oKg1+5TawepY3IWklK9Zw5iH/3RG75ONUDdl9AEKEX5ODH/IzSC2GX1Rm+RMCDi/f2rBLGBiBFH7ip/4Bgq0uS64YcSXZfy2lec5+dWEV7Zd+bZwmBhkra+DQDE4PsaHMhRFYHQKG89x+KTFvkuvR3UUs3jsXvzBkF2KnYbsourlz4lc1zRJ3T1JMYh6LWrCJmkgMFBAhRGEXc+t/eE//eddXaN2A97LWtAxE5odnRREzQPsed9kfpWTsQgO0gvSfVlVR7glid2e9Oqt784KgwFrjUJYHCAMAlGeey4Zs9JUb0U+khoILSTo5VKheobNQOxywqOiUVnZI4qUkdyTlLvWkXRwOOvj1lPRuwHRXZrEq8dej+uDREwYQYHGj7+n1IRsjx1",
   "Y0IjIEl7NGaXLdRKzeOxJyYKJZmojMukXiqIUyUvmU6WTshzhhUNq8fdzx8Q+5nsG2bAYBQQhx8lMyl9ffcrL6fxDAvUjQkNBPpfmMdSYZRv0VrEjnR9XxmXkEhAnNDCIXOYQnnOHfPmGXntMEK3WXrtqgwCPP5Vj++OJX8cPyWPvZvkGEKDvXYEW6zl25D00lfyv+cojr1xmJagJKNhEsswiDKBB5uUyIIafX1MuPno4STtPjA+iGKxTVjamV8+NZEbVw8ekTI7PMpHIcixDEPLZHxy0JiM8Zd4rFVfEpmA09GI+w1p62qzEaa8nsFWbAsZ1dNTd7/lGUXszJNeC7JLOrkJWSSo0bt4/vDyuz98mtG+IHQQOxKWTEYGSvOHNBR3r1fLaJjtM5jY",
   "ZefOy21pxD6whljGr2TS8fn+BRYeMVGyJU2ZJNNTR7ylBPebkxIDPjt93K9lWxdkW/dG7AOPqezr3NJw5eX9Mvlc1DNQ95i5MTFsC+/PQfanfNTz5//Hx7g876CLkQ+8U0lH2+Ww+55Wj5177OWoBrTBkXXrhcd+naOXDcJEeV0A0TSuE684BowMwixN90c2q24hDFVfHV64zgggKQtyEKpUpohx3uZdKb1cRVYLf7UZyUFfHYiLiJDH3RDx75U2xMyPhfPUJyMM8WMUHF7oQWafcY37LSTx4uWLPuDY1gVHcgFxFQ3e+Ul5juGQYwQ5Y1IanMEkJJuwLQZcI3ESPP8Red4xi/OUmL+Fi0b4uac55fUae6+Ps7z9zjtTE4a2gG6tSD1prDqkIJsJ",
   "UVXXJa7MAOQhkDpw7bkfE0bstVvXsD9fckmogcKWsrcums23zg4vThLmBocOiH70gvTKoxC3SPc2zXfrh+dhGWb9NintfF+8aLuYWxkN3G/V9JojPOYkbV2VZGFzTlzrs4bvvMgiNWjPdjmiezZhW5QTtEXZ5dwJn/9S+QxyhkbLJ6mL80tH6URil/q6F/zgrZ8IT3nx6QssJZx5QrdWpJ5Uzpk4ah4ZowwB5Jsb5TJ89fiTxZ8S8pDCMW7A/nPiTfaRD/4iW7dosSB4tdoToCZjESufAbw9v8DLlTQlN5KgpVdV8UDucft0Gd4vrqU/4b222xikkLbuTHjuXabkLq9xm8M5bO5t0Dbr1FO/s34OktR9PP9nDcg9x9JZYjQX5bF7I4at1e+Kz29",
   "cfY0VqasEpHXPPOUlAUkdAwXHTIGSvohgQc2XdrkqE8j64M1fYn96US+DcAXyh7Ry2t/cxX7j3q+yc/nPIPjTOMEfKKyauh9Ew0CS8l09Mk1il15Z2WPn2yZf2DAMGJBDj+Za444xZvhS+1xIZpsFwfZ4bmutVy3/v80HeRgQXb6B/S627wTOW/RA6tNGoppnkMm6xW223o0Jdr38ffEJovv3VbcafecumeSDrFJf0oWqe95tIceAhGFYQOYHCjezf+DGBjXjzzr1Q+zHR37Ofvtb94vRBEIcFfAzCB6Ej5HKv/R/QazVip/vef4Aywg5X+SQgkcxGOO1bzGQADocrrWi0zwlAfen8CxKhjKQ77Y2KbxVZNnBhlOGU2iLQQPDusHzPTeq+Nm0ye2",
   "5aVgSkCM8VYT5/VrHqUKi+Pyjj7B9//V66P6IMIH84TurFJE0IF3bxCNcA+7hkd+9XhA8vPShg1X2pScfi/0eCB/3ikicsz/0y1OLb2eExMWW5PA1TnOdlC/LtMgVSZDFGM8XxaByERNqRenZRUkR3XKfgRBPqzchgZmE6A1JT3JMtnFOc71BUslrPMVug7YeVBEpgUiKAU1bd4UZNWlsTAwZzl2t44bUlhuT/c6qLSz6XU/MZKpJHxmRRif4/AtMX/wsqr+XHZtJN5FcjiJ2r1XY4KmC2DGRCs/9OzfcxF6beJNt2FtmD7/0van9MBlpm1Vq67W7TOTe8LHz2Aff/35B6jft3jXtmmM76Y4Se4l7+PPnzk1U8MwBPuSEoublyoW9JDJaAkNQfC6",
   "N+H4+rFPjRQ1M5EVhDaIvVFSGfKHjPK2KLipDHqPT4X5xDQMGuuxSDanESUjwBvL135WkVpLtXI555oWIZ2kijazl5xmMaK+0KjUm7XflGCNfCGtraeSWaq4rLDprWBrlsuadK0T097Itucv3Q2dYh6OkmF6fTwqeKrzlI8ePC0/3hz/7qfDet/ctY2/94R8LueLb11w/Fatuk1VqAxwbkohNzfWvXX4VK5zfw47ya4d+bkrqCsEQ0pkCA6LLG4SRDbhIRbKz6+qKCElGDp9LGiIoGNyybp9c3P3KUMohl/YweFHzmnNPaK4/qq11o/JQUlckmiQ3IOV+F9cWPbb9UWJj1P3K9s/JvsYcj2/aPj0GI8st9SO0tjTJAmn2INXTTz6FnfHVLezT37q",
   "fPfrKIXb83XeFXHHlr58p9jujo0OEOEKSwQpLK2RUimvI5DQDI8vkmh4rSOrdX//baVq6Ce678mrWNmeO+Bn3kiXmb96UpDPFeXMjJnHJsnONu4wo+HdBgqMaeaPE9BNspvHEcd7akGEs9IDm5c47tLXRuTX7RJFZV5xBjCL1lKFrC9N+F/Uceh2Id1JHpgbZtp1JV5CS0ptu7mEybMQzN80npsIHsWoSQv6gsWODbv29VbeytrY29uD3X2TH33lXRK4giiSqBECt5O0xsQIRfobEYhI5M7WQNCd2nX6PuPT+BKSO+/rUgoXiOhETj3h3nDdDnT0JcqbDvBQBz+sFRzJWRFAyeGF0BrBocrFSRhqOkWTaI+SYtNvaRQ8vN6jf5RvU7+JIt2yYaYv",
   "r26A5x5jLxUlSLzN9GGw+7FrnevD04r32Jx5lL92ymnvjV4vJRQAhge/jpL55/z72Z3tOlFYx2dlx0jzWPm/eVEQLCBKkHyyvCwKFjo3qjHElB2Bclizs1JLy/X3L5DXvtiZ14InrP8/gq4PUYUTgsa/+xIVNT+yyE8U10JjhcVyy9qZ5ofwYG5lbpMKoRaZpnCQxbpnFGUfsisSrdUNr40mwmOfl4l3Hya3VBvS7Lk1bVC3awufkbtWiv6bVPMNMP2+2MmpEMzfth4fokk379gqvHaR8tfTKQbZhpK68c4X6JeYU8YPocSwcF9JNXJYq5B94z9DZo/aBsQEpYwLXVlMHcG+YQ0A8u5o0VYXFENPueYGNKLhObum015zGy80xfeTEpOHLUpTnsnl",
   "jJpmdptmR1IhZ7N9h+YwGYshCFaTStU0mGXEpe81iBKchTpN+N85mGOTEvO4Zb4kbnc7N4kLhwSJCBmn3iBap1Wnf7ny8g1KGAYFCvtmZvza2eJfymPvOPCc0UkXVlIGxcYlkgbf/V7lPiwiaKx78xtTf7+bHArGvkKGcGaDHcfiqIxsfsb4211WQXpOJF6aiJiYs28mLJOHgteUyaOsymxnoorYIJXVdSOqQnJOKRFtWF/wHTz8pSB24sHSvt+PCKwYhx2WXwghAWglb/g66+sVSF3c1NjuXXcvmtrWxu/bvmybhqPNiZNHkSDsbLnSCx9PIo+BQ9KmVF1jWTvzNIGLPut81mtSLhqRe0B0rM2Jfc8EnpxGhT5iEMkKOgYRTvy8iceBpX/PIg07",
   "nhgSDCJ83fvbTUGkJ54XhUOUJZiGURz1m2Llt0uwnU/DIOmZLW1O/aypSLxiMUEZM55EyIXbIJZBiIEeAAEGEYdUQXYkVUoiu0JaKiIEcE5Rg5vFRBLz+qKzYOKDI2V9f+hlhGJCYFIY9fDQBqLrsKWMs4+/pXizEpneZetQO9ULSSN/uYTMP0Bo32rR1k2CC2sK4KBsIrmB6zNQ1drX+KSSJO5/bKyJYUD/m9kWLhVThMlGpAA8ckSc4ji6UUckiqOECAwNSVqGJ1w8/bH1uGJPHln9OTLiu2L0rMopGTf6ahFs2MbGPGr6EZblf2falMozZDQMyPPNhtcKzIHaDCoZVze/1qBgSYlU+t+oMI3ObtjDpdzO6LWSClgmpW80jzTVsYGfUr3+KbeV",
   "jIyK0EIR/4L9/4BRaGFyMwzRrFUZFxZZ/7XeuEqS8+qnHne6rcmNBePulg1WtcULdHF24ZYOhI/aiR+KMMwquZRFKsj6KDw+wXVMKoB45y7bVtfVgBm1N/a45SF2XRe1E6lNSzJF161NZ9gp6NqSS+vVPQYQoqgViVGVuXUgdBgOkblriVy1a/c2l10yFJrqMGDDiQP0bJEvpCoMJOebwuPDwbcoaZAlNxigwkHIHLzF9EShdVqpPArC537gEm8mQei9V5pat2nJodL9rMKmbZpUWXByWVDV2JCUBKINbDxCiKnNrWtoXgF6vPPXrhh8OjXOPbCU+WoAM80vzf0Ho4i71aXCtyih8cujrRt9RhsdHiYSUpBimIcZe1xVxAp5J3FBUFwmQN3jJcY2",
   "+iKDfcDWcHs21Dzu0tdG5Xdq6Aejy0O/yLdIWJ4zMmFsROmti95rUAO8U0SA7ZAncMCC8EAQJonwwr4+UgZ6+U+6H79qQusJ33/gf8fnue+9ZTZjC40ZJXkXqqL9uCjVasS0fbAs+8hpL2NHisM1xybEiiygTEFgmLA4oTFU2LBRW9PgyD2sMksm1Dzu29bAtucsCaZFt3SDkPPS7kgu5N2FbBK8tZ+DMDCSZLwhOnnqVY9S6oXfu2xO7HwjyzbV/JGK9UYArTNqAkYD3D0MBL3+51Oudxtgy7PJ9c+YIY2IycYpYd8wHQDp66+1jbPH9f299Xlw3ooFSRKIMOwyLeYcb0nQ4tTpQUbNQdVfAy+7UDLXb4y9rWmGqIouvha4W5sh50NtxLKzbCmN",
   "SCt6vNHC6NPbxKH1YJjWhzvfSmHM/K59HMS5kTxoftEmBJVtezxUwuFEZWp1SZhuIeh4G/U4t+4d9Bj31u0ajqPk/nOwxh5FbVbVzkNirzFPpXttl4VBwa/QLvycKcD09/to03RsaPTx1SDZI90+SwRkcRYCsYUzwGaezf+eGFWzxRxewObJi48kfOEks4XfZAzusjAv0+GCdmyaTYYJEm9cQFsgIkSjj8pzlwLAbm82iDAXNUDRfRwImtduh1Zc9kTuwhtXqwft+eQeYfv3LfinNjMv3U5Ea2riDpbwAhqd+p+4hGOFS742a9LuotnDpd4301rsMeLZb08ejcIl6H9s8E4MAYrZBxKbhfYiKUXo3omVAttCj9/ffLKJYoFGfu/WexGn5wVHEVQ9",
   "9U+jsOF8Y4eJvb/z+7eyi0xeKRav/4rkKiqUJXb82eXujnTstDVyKckziyCZJhKbD3k7ZQTfIrV/+3m4ympCeZpxXVQwjZkNJRpF7V4Pe31FdlUnphRcs2nppoK2XxrR1Ja1RnaXcFPZMeuXWEdLvXNsirt81Y82cTPpkm09iUFCThDYaOLxmrFQEYDGOJzlxokwA1kCNK/DlOoqAvq7OB+OBSVEkTUGegZaOv8E4waic+pUvs7/c909T94SRg4qhN4XLwtpZE3uAOFemMFyvR1xDxNYGN6jdrojkNUgBSSYjHTBpahylVJNFW3t33upIecjDcbJuC1/Sc4U1IaaI/ci69WVfBwXp7ZUZl6ZAwtDGi3Nsjvz9rbffFjVlfCX1rBBVFqcvLg1jghW",
   "S1ATuukWLhTyDUEbhirz8Els0dN8Jx8LIAUQNr960VIDLwtqNIHb5ksHbXMYMKzIaEF2YLBE3yVkyOG7e8Pr6mV3SUSWBp2edxi7beqXHth50JLokGLAZDUSVms2o39mONHQoWe4/xtJDNcxj9zZ0AbFDUzaBkjyevuGmqYgTeMcnf+AD7KFly73VWAGxQ/Kpr42Ov2EC9xxO8DUN/1/F36HD3zDy7cjjYV8YCmSyGvUykZx1jHWeko4MyA2z1yQz6UH1JPRI4oiunOSlk8fMGRDKpMNLnHN4F9BOPS6RDJLQkrb1ONMnsgymIU8EJLxRw3ZKu99p20K2uY+RhtVxZL/dkgIFbAzeb1tGFv0E7xySB9Y+heRxCidIEDqWzgPJQs+GBAMDcRf/vw9",
   "Dgy3O+wfB17zwC8Tn7ZqFtdXqUDZeO46bkhSTynAQnZBvILlLLF8Cbb0O+fcoT9V4oQNJAkMx15G3LQSFF4RvPfIedN4jyAwLHiQqOFXX1iMOba01KoH7Wuu7z+Dc8tgrYwi+YiJTZdEW8jwFeb2VhPdudRwpJa709AzGZf+bNjqZE1x4ef7mTWj0XUnP9PN169mx48fFBKVaCg8SB7YLfuVXRdgggLVPH/+PV4T3G1ZWACGGqGcO7znJYtcwHiBgTMBGafUg50NfXC1+hvduEvGCuQTMBZhG6+zkIxBIMTi+Z6zlHnvqpVpl7HYPi45PFjU7GlGvo+7aRP2QqCG/ZlX7iiSV4HHxXnSFDKnLaVUPNGzrajNXL6yb2xhzvdZWaIusUU/saMA3kx7",
   "0mc/dxH7rowtC/4f1RA/974/ZXfv/2SidX5E7VmHCgh0uAGFPHD0aqpcrIJsVoZCXP7DDaik7RO50zJtnRNaYbMWKT4iu8YyP+5ZiWhk2xE4gzERMq+6ImjGcdOISJ4yAIl9Y5xRQk6ioS47NtuAXPHWsfQpCHJ+csJ5MhQSDEcPdzx+IJVyQOoyH7fqk8NS3cuMjIm4cMmF9DMWI1AkEQhBhtWISzxardU5rP0+IcEUQoEsVR0Huj9cKfSkCtcFU6OWrhyL/D6MBA+QyIlCFxW4zSD4aTadmzDB1YwKBkDqxAyBJaOOQUSCnJAH0bmR6wjDgWDZJPtD18b0wbV3Uir+yTxAzyhS4AkYLHr+ueuPk0VQWtC5RNyYQCLHELkv4jvg4OGQURe7QopO",
   "ELoLcFfnWSvbqj4V9QLiPRkgkIHXINLhO19ozNa+9FgSgMlszBMkwbihTExBmm8fudXgP0oQsAy/7QOHmRCn1kGOwYAfix5HSryN3tbjFnpBkKcS1q+X6kmrjGA3AgEEmynhtU/LW3dttkpqBMKuInXuB6Pje6kpAlkGNFZAePHebVPx6YHJTpfTrYtxVlicWuggC39186WXCUGC5Ph+A1g6DA4NBxN7ckGFxA9QShNnmsXsnDXjFi4buFZOUmKwEwbt67/CylcQTR6SYpIS+Xi+zKM0/qQRTb3BgKEwzUT1gKGH99dlO7ujfZ7BactM4tQhhthD7oO/hKiQLRMjA40YGpqre6CJf3C6TmuB5R01a1kobTF82D+fD3zGKMF1Sz8bgQLPPyGsnb92",
   "D546sQb4hQ3aO3HLUMoSWJXY5iZpKKB0IEN47Ki0iIxQJRLa1yuFpIwwS8kfYpCWMharOqAANXK3BmrQEcBggx8DY1OrHp6q1V3wWbSMQCLPHYweKaZ0Y3jsmQi+XC1bAkwbB23i7kD+UJFMv6yh9fXSqXG67kGBE7ffHd6fWoBgJwGsPk2Q8LmZdpK5LIBCciF1quBvTvACQM9Lxb5G1YJCEpDx4E69XLb0XZRBU7PjO/HLhwSdZVs/Ua1fFweqJXBUAs81uJW+dQCD49NgB71p7FCEGCV558LqEJHj+uvVE1TGg7fvW1cNw+zNPCSNSMyb/b5zUZG5CUDQHgUBIRuxSa89s6K8IXhXjUslNIHmQfX2sOH6OkzjgyasKkWno6mGA8VBlh1W8PX5",
   "GslR96KUltlBCEoFA0GFadcc4zN+8CYTSnfUFgrT7zjxHEHTQc0cZAEgqC+XCFYiTDyYaqZK6imhtF5/2AVzzVhlaiesFMGnsuMwfvtQlDS2BQCB4IXbUQ36hkRcLzxfZpJgYxUpE0Kzh1cMLDtOt4eGDUFHZMWtSDxom6O0d/NrvlkvqOWIZJ3Uq+EUgEPwRuyT3IqutDE7IFiOc1PPUDAQCwQRtNjtzcgGxj1KzZQpIMAVqBgKBkAqxSxQYFVDKEnnS1QkEgg2spBiF+Zs3gdy3UfOljo1ylEQgEAjpErskd8S3r6EmTA1IRMpRMxAIBFu0uX6Rkw4SZSrUhKkA8xg0WUogELIldok8o8lU38D8BenqBALBGc5SjML8zZtQAKXMGpC81KKknqP",
   "sUgKB0FBiJ3InUicQCC1I7ETuROoEAqEFiZ3InUidQCC0ILEHyB01TXqpebUQ0S+0dimBQGhqYg8QfIl/9FMTR6LCKPqFQCDMJGKX5F5glKEahi0yD4BAIBBmFrFLcke5X0gzndTctYJeVH6XQCDMaGKX5A7dvchmdwkCkl4IBELrEHuA4HP8ozTLvHd46QOc0EvU3QgEQssRe8B7h748GxbsGJKkTl46gUBoXWIPEHwXq8kzrRg5A9mlyAm9TF2MQCDMGmIPEHyPJPilROgEAoHQAsTeIh78CN8GidAJBAIRezjBQ4MvsJoO38yTrOOsFsY5SJmjBAKBiN2c5HskyeebhOQnJZkPUyw6gUAgYvdD8jlJ8lnWoYFuXsZGUguBQCBiz4bou/jWI7",
   "d2DyQ+xjdUWqwSkRMIBCL25iH8Dvlr8Od6TJE2ETiBQCBiJxAIBELT4v8EGAB1G8QfncuWqgAAAABJRU5ErkJggg==\" alt=\"experienz\" style=\"display:block;border:0;outline:none;text-decoration:none;-ms-interpolation-mode:bicubic\" title=\"experienz\" width=\"300\">\n                                        </a>\n                                    </td> \n                                    </tr> \n",
   "                                </table></td> \n                                </tr> \n                            </table></td> \n                            </tr> \n                            <tr> \n                            <td align=\"left\" style=\"Margin:0;padding-bottom:20px;padding-left:20px;padding-right:20px;padding-top:30px\"> \n",
   "                            <table cellpadding=\"0\" cellspacing=\"0\" width=\"100%\" style=\"mso-table-lspace:0pt;mso-table-rspace:0pt;border-collapse:collapse;border-spacing:0px\"> \n                                <tr> \n                                <td align=\"center\" valign=\"top\" style=\"padding:0;Margin:0;width:560px\"> \n",
   "                                <table cellpadding=\"0\" cellspacing=\"0\" width=\"100%\" role=\"presentation\" style=\"mso-table-lspace:0pt;mso-table-rspace:0pt;border-collapse:collapse;border-spacing:0px\"> \n                                    <tr> \n",
   "                                    <td align=\"left\" class=\"es-m-txt-l\" style=\"padding:0;Margin:0;padding-bottom:10px\"><h1 style=\"Margin:0;line-height:46px;mso-line-height-rule:exactly;font-family:\x27Poppins\x27, \x27helvetica neue\x27, helvetica, arial, sans-serif;font-size:36px;font-style:normal;font-weight:bold;color:#333333\"><b>Summary From Last Week</b></h1></td> \n",
   "                                    </tr> \n                                    <tr> \n",
   "                                    <td align=\"left\" style=\"padding:0;Margin:0;padding-top:5px;padding-bottom:5px\"><p style=\"Margin:0;-webkit-text-size-adjust:none;-ms-text-size-adjust:none;mso-line-height-rule:exactly;font-family:\x27Poppins\x27, \x27helvetica neue\x27, helvetica, arial, sans-serif;line-height:18px;Margin-bottom:15px;color:#333333;font-size:12px\"><br></p></td> \n",
   "                                    </tr> \n                                    <tr> \n                                    <td align=\"center\" style=\"padding:0;Margin:0;padding-top:10px;padding-bottom:10px;font-size:0px\">\n                                        "]

/-- Second constant part of the body f-string: everything after the
`{img_tag}` interpolation point. -/
def SKEL_B_CHUNKS : List String :=
  ["\n                                    </td> \n                                    </tr> \n                                    <tr> \n",
   "                                    <td align=\"center\" class=\"es-m-txt-c\" style=\"padding:0;Margin:0;padding-top:10px;padding-bottom:10px\"><span class=\"es-button-border\" style=\"border-style:solid;border-color:transparent;background:transparent;border-width:2px;display:inline-block;border-radius:0px;width:auto\"><a href=\"https://portal.experienz.co.uk/insights/organisational-health\" class=\"es-button ",
   "es-button-1\" target=\"_blank\" style=\"mso-style-priority:100 !important;text-decoration:none;-webkit-text-size-adjust:none;-ms-text-size-adjust:none;mso-line-height-rule:exactly;color:#FFFFFF;font-size:18px;border-style:solid;border-color:#088A84;border-width:15px 30px;display:inline-block;background:#088A84;border-radius:0px;font-family:\x27Poppins\x27, \x27helvetica neue\x27, helvetica, arial, sans-serif;font",
   "-weight:normal;font-style:normal;line-height:22px;width:auto;text-align:center\">Explore More</a></span></td> \n                                    </tr> \n                                </table></td> \n                                </tr> \n                            </table></td> \n                            </tr> \n                        </table></td> \n                        </tr> \n",
   "                    </table> \n                    <table cellpadding=\"0\" cellspacing=\"0\" class=\"es-footer\" align=\"center\" style=\"mso-table-lspace:0pt;mso-table-rspace:0pt;border-collapse:collapse;border-spacing:0px;table-layout:fixed !important;width:100%;background-color:transparent;background-repeat:repeat;background-position:center top\"> \n                        <tr> \n",
   "                        <td align=\"center\" style=\"padding:0;Margin:0\"> \n                        <table class=\"es-footer-body\" align=\"center\" cellpadding=\"0\" cellspacing=\"0\" style=\"mso-table-lspace:0pt;mso-table-rspace:0pt;border-collapse:collapse;border-spacing:0px;background-color:transparent;width:640px\"> \n                            <tr> \n",
   "                            <td align=\"left\" style=\"Margin:0;padding-top:20px;padding-bottom:20px;padding-left:20px;padding-right:20px\"> \n                            <table cellpadding=\"0\" cellspacing=\"0\" width=\"100%\" style=\"mso-table-lspace:0pt;mso-table-rspace:0pt;border-collapse:collapse;border-spacing:0px\"> \n                                <tr> \n",
   "                                <td align=\"left\" style=\"padding:0;Margin:0;width:600px\"> \n                                <table cellpadding=\"0\" cellspacing=\"0\" width=\"100%\" role=\"presentation\" style=\"mso-table-lspace:0pt;mso-table-rspace:0pt;border-collapse:collapse;border-spacing:0px\"> \n                                    <tr> \n",
   "                                    <td align=\"center\" style=\"padding:0;Margin:0;padding-top:15px;padding-bottom:15px;font-size:0\"> \n                                    <table cellpadding=\"0\" cellspacing=\"0\" class=\"es-table-not-adapt es-social\" role=\"presentation\" style=\"mso-table-lspace:0pt;mso-table-rspace:0pt;border-collapse:collapse;border-spacing:0px\"> \n",
   "                                        <tr> \n",
   "                                        <td align=\"center\" valign=\"top\" style=\"padding:0;Margin:0;padding-right:40px\"><a target=\"_blank\" href=\"https://www.facebook.com/experienzcouk\" style=\"-webkit-text-size-adjust:none;-ms-text-size-adjust:none;mso-line-height-rule:exactly;text-decoration:underline;color:#333333;font-size:12px\"><img title=\"Facebook\" src=\"https://prmyfz.stripocdn.email/content/a",
   "ssets/img/social-icons/logo-black/facebook-logo-black.png\" alt=\"Fb\" width=\"32\" style=\"display:block;border:0;outline:none;text-decoration:none;-ms-interpolation-mode:bicubic\"></a></td> \n",
   "                                        <td align=\"center\" valign=\"top\" style=\"padding:0;Margin:0;padding-right:40px\"><a target=\"_blank\" href=\"https://https://www.instagram.com/experienz.co.uk\" style=\"-webkit-text-size-adjust:none;-ms-text-size-adjust:none;mso-line-height-rule:exactly;text-decoration:underline;color:#333333;font-size:12px\"><img title=\"Instagram\" src=\"https://prmyfz.stripocdn.email",
   "/content/assets/img/social-icons/logo-black/instagram-logo-black.png\" alt=\"Inst\" width=\"32\" style=\"display:block;border:0;outline:none;text-decoration:none;-ms-interpolation-mode:bicubic\"></a></td> \n",
   "                                        <td align=\"center\" valign=\"top\" style=\"padding:0;Margin:0\"><a target=\"_blank\" href=\"https://www.linkedin.com/company/experienz-co-uk/about/\" style=\"-webkit-text-size-adjust:none;-ms-text-size-adjust:none;mso-line-height-rule:exactly;text-decoration:underline;color:#333333;font-size:12px\"><img title=\"Linkedin\" src=\"https://prmyfz.stripocdn.email/content/asset",
   "s/img/social-icons/logo-black/linkedin-logo-black.png\" alt=\"In\" width=\"32\" style=\"display:block;border:0;outline:none;text-decoration:none;-ms-interpolation-mode:bicubic\"></a></td> \n                                        </tr> \n                                    </table></td> \n                                    </tr> \n                                    <tr> \n",
   "                                    <td align=\"center\" style=\"padding:0;Margin:0;padding-bottom:35px\"><p style=\"Margin:0;-webkit-text-size-adjust:none;-ms-text-size-adjust:none;mso-line-height-rule:exactly;font-family:\x27Poppins\x27, \x27helvetica neue\x27, helvetica, arial, sans-serif;line-height:18px;Margin-bottom:15px;color:#333333;font-size:12px\"><a target=\"_blank\" href=\"https://www.facebook.com/experien",
   "zcouk\" style=\"-webkit-text-size-adjust:none;-ms-text-size-adjust:none;mso-line-height-rule:exactly;text-decoration:underline;color:#333333;font-size:12px\"></a>Copyright @ 2022 experienz Limited. All rights reserved.</p><p style=\"Margin:0;-webkit-text-size-adjust:none;-ms-text-size-adjust:none;mso-line-height-rule:exactly;font-family:\x27Poppins\x27, \x27helvetica neue\x27, helvetica, arial, sans-serif;line-he",
   "ight:18px;Margin-bottom:15px;color:#333333;font-size:12px\">New Broad Street House,<br>35 New Broad Street,<br>London,<br>England,<br>EC2M 1NH<br></p><p style=\"Margin:0;-webkit-text-size-adjust:none;-ms-text-size-adjust:none;mso-line-height-rule:exactly;font-family:\x27Poppins\x27, \x27helvetica neue\x27, helvetica, arial, sans-serif;line-height:18px;Margin-bottom:15px;color:#333333;font-size:12px\"><a href=\"ma",
   "ilto:info@experienz.co.uk\" style=\"-webkit-text-size-adjust:none;-ms-text-size-adjust:none;mso-line-height-rule:exactly;text-decoration:underline;color:#333333;font-size:12px\">info@experienz.co.uk</a><br>44 (0) 203 908 1977</p></td> \n                                    </tr> \n                                    <tr> \n                                    <td style=\"padding:0;Margin:0\"> \n",
   "                                    <table cellpadding=\"0\" cellspacing=\"0\" width=\"100%\" class=\"es-menu\" role=\"presentation\" style=\"mso-table-lspace:0pt;mso-table-rspace:0pt;border-collapse:collapse;border-spacing:0px\"> \n                                        <tr class=\"links\"> \n",
   "                                        <td align=\"center\" valign=\"top\" width=\"33.33%\" style=\"Margin:0;padding-left:5px;padding-right:5px;padding-top:5px;padding-bottom:5px;border:0\"><a target=\"_blank\" href=\"https://experienz.co.uk/\" style=\"-webkit-text-size-adjust:none;-ms-text-size-adjust:none;mso-line-height-rule:exactly;text-decoration:none;display:block;font-family:\x27Poppins\x27, \x27helvetica neue\x27",
   ", helvetica, arial, sans-serif;color:#999999;font-size:12px\">Visit Us </a></td> \n",
   "                                        <td align=\"center\" valign=\"top\" width=\"33.33%\" style=\"Margin:0;padding-left:5px;padding-right:5px;padding-top:5px;padding-bottom:5px;border:0;border-left:1px solid #cccccc\"><a target=\"_blank\" href=\"https://experienz.co.uk/privacy\" style=\"-webkit-text-size-adjust:none;-ms-text-size-adjust:none;mso-line-height-rule:exactly;text-decoration:none;display:block;fo",
   "nt-family:\x27Poppins\x27, \x27helvetica neue\x27, helvetica, arial, sans-serif;color:#999999;font-size:12px\">Privacy Policy</a></td> \n",
   "                                        <td align=\"center\" valign=\"top\" width=\"33.33%\" style=\"Margin:0;padding-left:5px;padding-right:5px;padding-top:5px;padding-bottom:5px;border:0;border-left:1px solid #cccccc\"><a target=\"_blank\" href=\"https://experienz.co.uk/terms-conditions\" style=\"-webkit-text-size-adjust:none;-ms-text-size-adjust:none;mso-line-height-rule:exactly;text-decoration:none;display",
   ":block;font-family:\x27Poppins\x27, \x27helvetica neue\x27, helvetica, arial, sans-serif;color:#999999;font-size:12px\">Terms of Use</a></td> \n                                        </tr> \n                                    </table></td> \n                                    </tr> \n                                </table></td> \n                                </tr> \n                            </table></td> \n",
   "                            </tr> \n                        </table></td> \n                        </tr> \n                    </table></td> \n                    </tr> \n                </table> \n                </div>  \n                </body>\n                </html>\n            "]

def SKEL_A : String := String.join SKEL_A_CHUNKS

def SKEL_B : String := String.join SKEL_B_CHUNKS

theorem data_foldl_append (L : List String) (acc : String) :
    (L.foldl (fun a b => a ++ b) acc).data
      = acc.data ++ (L.map String.data).join := by
  induction L generalizing acc with
  | nil => simp
  | cons s rest ih =>
    simp only [List.foldl_cons, List.map_cons, List.join]
    rw [ih (acc ++ s), String.data_append]
    simp

theorem string_data_join (L : List String) :
    (String.join L).data = (L.map String.data).join := by
  have h := data_foldl_append L ""
  simpa [String.join] using h

/-- Per-chunk decidable certificate: the chunk contains no occurrence of
`p` and no straddling occurrence can start inside it. -/
def chunkZeroOk (p : List Char) (s : String) : Bool :=
  decide (countOcc p s.data = 0) && tailSafe p s.data

theorem countOcc_join_zero (p : List Char) (L : List String)
    (h : ∀ s ∈ L, chunkZeroOk p s = true) :
    countOcc p ((L.map String.data).join) = 0 := by
  induction L with
  | nil => rfl
  | cons s rest ih =>
    have hs := h s (by simp)
    simp only [chunkZeroOk, Bool.and_eq_true, decide_eq_true_eq] at hs
    simp only [List.map_cons, List.join, List.flatten_cons]
    rw [countOcc_append_tailSafe p s.data _ hs.2, hs.1,
      ih (fun x hx => h x (by simp [hx]))]

/-- The image fragments reference their content-ID with this
`src="cid:` attribute prefix (line 108 of the source); occurrences of it
are what the image-count theorems count. -/
def CID_PAT : String := "src=\"cid:"

set_option maxHeartbeats 1600000 in
theorem skelA_chunk_00 :
    chunkZeroOk CID_PAT.data "\n                <!DOCTYPE html PUBLIC \"-//W3C//DTD XHTML 1.0 Transitional//EN\" \"http://www.w3.org/TR/xhtml1/DTD/xhtml1-transitional.dtd\">\n                <html xmlns=\"http://www.w3.org/1999/xhtml\" xmlns:o=\"urn:schemas-microsoft-com:office:office\" style=\"font-family:\x27Poppins\x27, \x27helvetica neue\x27, helvetica, arial, sans-serif\"> \n                <head> \n                <meta charset=\"UTF-8\"> \n" = true := by decide

set_option maxHeartbeats 1600000 in
theorem skelA_chunk_01 :
    chunkZeroOk CID_PAT.data "                <meta content=\"width=device-width, initial-scale=1\" name=\"viewport\"> \n                <meta name=\"x-apple-disable-message-reformatting\"> \n                <meta http-equiv=\"X-UA-Compatible\" content=\"IE=edge\"> \n                <meta content=\"telephone=no\" name=\"format-detection\"> \n                <title>experienz</title>\n" = true := by decide

set_option maxHeartbeats 1600000 in
theorem skelA_chunk_02 :
    chunkZeroOk CID_PAT.data "                <link href=\"https://fonts.googleapis.com/css?family=Poppins:400,400i,700,700i\" rel=\"stylesheet\">\n                <style type=\"text/css\">\n                        #outlook a \x7b\n                            padding:0;\n                        \x7d\n                        .es-button \x7b\n                            mso-style-priority:100!important;\n" = true := by decide

set_option maxHeartbeats 1600000 in
theorem skelA_chunk_03 :
    chunkZeroOk CID_PAT.data "                            text-decoration:none!important;\n                        \x7d\n                        a[x-apple-data-detectors] \x7b\n                            color:inherit!important;\n                            text-decoration:none!important;\n                            font-size:inherit!important;\n                            font-family:inherit!important;\n" = true := by decide

set_option maxHeartbeats 1600000 in
theorem skelA_chunk_04 :
    chunkZeroOk CID_PAT.data "                            font-weight:inherit!important;\n                            line-height:inherit!important;\n                        \x7d\n                        .es-desk-hidden \x7b\n                            display:none;\n                            float:left;\n                            overflow:hidden;\n                            width:0;\n                            max-height:0;\n" = true := by decide

set_option maxHeartbeats 1600000 in
theorem skelA_chunk_05 :
    chunkZeroOk CID_PAT.data "                            line-height:0;\n                            mso-hide:all;\n                        \x7d\n                        [data-ogsb] .es-button \x7b\n                            border-width:0!important;\n                            padding:10px 30px 10px 30px!important;\n                        \x7d\n                        [data-ogsb] .es-button.es-button-1 \x7b\n" = true := by decide

set_option maxHeartbeats 1600000 in
theorem skelA_chunk_06 :
    chunkZeroOk CID_PAT.data "                            padding:15px 30px!important;\n                        \x7d\n                        @media only screen and (max-width:600px) \x7b\n                            p, ul li, ol li, a \x7b line-height:150%!important \x7d \n                            h1, h2, h3, h1 a, h2 a, h3 a \x7b line-height:120% \x7d \n                            h1 \x7b font-size:30px!important; text-align:left \x7d \n" = true := by decide

set_option maxHeartbeats 1600000 in
theorem skelA_chunk_07 :
    chunkZeroOk CID_PAT.data "                            h2 \x7b font-size:26px!important; text-align:left \x7d \n                            h3 \x7b font-size:20px!important; text-align:left \x7d \n                            .es-header-body h1 a, .es-content-body h1 a, .es-footer-body h1 a \x7b font-size:36px!important; text-align:left \x7d \n" = true := by decide

set_option maxHeartbeats 1600000 in
theorem skelA_chunk_08 :
    chunkZeroOk CID_PAT.data "                            .es-header-body h2 a, .es-content-body h2 a, .es-footer-body h2 a \x7b font-size:26px!important; text-align:left \x7d \n                            .es-header-body h3 a, .es-content-body h3 a, .es-footer-body h3 a \x7b font-size:20px!important; text-align:left \x7d \n                            .es-menu td a \x7b font-size:12px!important \x7d \n" = true := by decide

set_option maxHeartbeats 1600000 in
theorem skelA_chunk_09 :
    chunkZeroOk CID_PAT.data "                            .es-header-body p, .es-header-body ul li, .es-header-body ol li, .es-header-body a \x7b font-size:14px!important \x7d \n                            .es-content-body p, .es-content-body ul li, .es-content-body ol li, .es-content-body a \x7b font-size:16px!important \x7d \n" = true := by decide

set_option maxHeartbeats 1600000 in
theorem skelA_chunk_10 :
    chunkZeroOk CID_PAT.data "                            .es-footer-body p, .es-footer-body ul li, .es-footer-body ol li, .es-footer-body a \x7b font-size:14px!important \x7d \n                            .es-infoblock p, .es-infoblock ul li, .es-infoblock ol li, .es-infoblock a \x7b font-size:12px!important \x7d \n                            *[class=\"gmail-fix\"] \x7b display:none!important \x7d \n" = true := by decide

set_option maxHeartbeats 1600000 in
theorem skelA_chunk_11 :
    chunkZeroOk CID_PAT.data "                            .es-m-txt-c, .es-m-txt-c h1, .es-m-txt-c h2, .es-m-txt-c h3 \x7b text-align:center!important \x7d \n                            .es-m-txt-r, .es-m-txt-r h1, .es-m-txt-r h2, .es-m-txt-r h3 \x7b text-align:right!important \x7d\n                            .es-m-txt-l, .es-m-txt-l h1, .es-m-txt-l h2, .es-m-txt-l h3 \x7b text-align:left!important \x7d \n" = true := by decide

set_option maxHeartbeats 1600000 in
theorem skelA_chunk_12 :
    chunkZeroOk CID_PAT.data "                            .es-m-txt-r img, .es-m-txt-c img, .es-m-txt-l img \x7b display:inline!important \x7d \n                            .es-button-border \x7b display:inline-block!important \x7d \n                            a.es-button, button.es-button \x7b font-size:20px!important; display:inline-block!important \x7d \n" = true := by decide

set_option maxHeartbeats 1600000 in
theorem skelA_chunk_13 :
    chunkZeroOk CID_PAT.data "                            .es-adaptive table, .es-left, .es-right \x7b width:100%!important \x7d \n                            .es-content table, .es-header table, .es-footer table, .es-content, .es-footer, .es-header \x7b width:100%!important; max-width:600px!important \x7d \n                            .es-adapt-td \x7b display:block!important; width:100%!important \x7d \n" = true := by decide

set_option maxHeartbeats 1600000 in
theorem skelA_chunk_14 :
    chunkZeroOk CID_PAT.data "                            .adapt-img \x7b width:100%!important; height:auto!important \x7d \n                            .es-m-p0 \x7b padding:0!important \x7d \n                            .es-m-p0r \x7b padding-right:0!important \x7d \n                            .es-m-p0l \x7b padding-left:0!important \x7d \n                            .es-m-p0t \x7b padding-top:0!important \x7d \n" = true := by decide

set_option maxHeartbeats 1600000 in
theorem skelA_chunk_15 :
    chunkZeroOk CID_PAT.data "                            .es-m-p0b \x7b padding-bottom:0!important \x7d \n                            .es-m-p20b \x7b padding-bottom:20px!important \x7d \n                            .es-mobile-hidden, .es-hidden \x7b display:none!important \x7d \n" = true := by decide

set_option maxHeartbeats 1600000 in
theorem skelA_chunk_16 :
    chunkZeroOk CID_PAT.data "                            tr.es-desk-hidden, td.es-desk-hidden, table.es-desk-hidden \x7b width:auto!important; overflow:visible!important; float:none!important; max-height:inherit!important; line-height:inherit!important \x7d \n                            tr.es-desk-hidden \x7b display:table-row!important \x7d \n                            table.es-desk-hidden \x7b display:table!important \x7d \n" = true := by decide

set_option maxHeartbeats 1600000 in
theorem skelA_chunk_17 :
    chunkZeroOk CID_PAT.data "                            td.es-desk-menu-hidden \x7b display:table-cell!important \x7d \n                            .es-menu td \x7b width:1%!important \x7d \n                            table.es-table-not-adapt, .esd-block-html table \x7b width:auto!important \x7d \n                            table.es-social \x7b display:inline-block!important \x7d \n" = true := by decide

set_option maxHeartbeats 1600000 in
theorem skelA_chunk_18 :
    chunkZeroOk CID_PAT.data "                            table.es-social td \x7b display:inline-block!important \x7d \n                            .es-m-p5 \x7b padding:5px!important \x7d \n                            .es-m-p5t \x7b padding-top:5px!important \x7d \n                            .es-m-p5b \x7b padding-bottom:5px!important \x7d \n                            .es-m-p5r \x7b padding-right:5px!important \x7d \n" = true := by decide

set_option maxHeartbeats 1600000 in
theorem skelA_chunk_19 :
    chunkZeroOk CID_PAT.data "                            .es-m-p5l \x7b padding-left:5px!important \x7d \n                            .es-m-p10 \x7b padding:10px!important \x7d \n                            .es-m-p10t \x7b padding-top:10px!important \x7d \n                            .es-m-p10b \x7b padding-bottom:10px!important \x7d \n                            .es-m-p10r \x7b padding-right:10px!important \x7d \n" = true := by decide

set_option maxHeartbeats 1600000 in
theorem skelA_chunk_20 :
    chunkZeroOk CID_PAT.data "                            .es-m-p10l \x7b padding-left:10px!important \x7d \n                            .es-m-p15 \x7b padding:15px!important \x7d \n                            .es-m-p15t \x7b padding-top:15px!important \x7d \n                            .es-m-p15b \x7b padding-bottom:15px!important \x7d \n                            .es-m-p15r \x7b padding-right:15px!important \x7d \n" = true := by decide

set_option maxHeartbeats 1600000 in
theorem skelA_chunk_21 :
    chunkZeroOk CID_PAT.data "                            .es-m-p15l \x7b padding-left:15px!important \x7d \n                            .es-m-p20 \x7b padding:20px!important \x7d \n                            .es-m-p20t \x7b padding-top:20px!important \x7d \n                            .es-m-p20r \x7b padding-right:20px!important \x7d \n                            .es-m-p20l \x7b padding-left:20px!important \x7d \n" = true := by decide

set_option maxHeartbeats 1600000 in
theorem skelA_chunk_22 :
    chunkZeroOk CID_PAT.data "                            .es-m-p25 \x7b padding:25px!important \x7d \n                            .es-m-p25t \x7b padding-top:25px!important \x7d \n                            .es-m-p25b \x7b padding-bottom:25px!important \x7d \n                            .es-m-p25r \x7b padding-right:25px!important \x7d \n                            .es-m-p25l \x7b padding-left:25px!important \x7d \n" = true := by decide

set_option maxHeartbeats 1600000 in
theorem skelA_chunk_23 :
    chunkZeroOk CID_PAT.data "                            .es-m-p30 \x7b padding:30px!important \x7d \n                            .es-m-p30t \x7b padding-top:30px!important \x7d \n                            .es-m-p30b \x7b padding-bottom:30px!important \x7d \n                            .es-m-p30r \x7b padding-right:30px!important \x7d \n                            .es-m-p30l \x7b padding-left:30px!important \x7d \n" = true := by decide

set_option maxHeartbeats 1600000 in
theorem skelA_chunk_24 :
    chunkZeroOk CID_PAT.data "                            .es-m-p35 \x7b padding:35px!important \x7d \n                            .es-m-p35t \x7b padding-top:35px!important \x7d \n                            .es-m-p35b \x7b padding-bottom:35px!important \x7d \n                            .es-m-p35r \x7b padding-right:35px!important \x7d \n                            .es-m-p35l \x7b padding-left:35px!important \x7d \n" = true := by decide

set_option maxHeartbeats 1600000 in
theorem skelA_chunk_25 :
    chunkZeroOk CID_PAT.data "                            .es-m-p40 \x7b padding:40px!important \x7d \n                            .es-m-p40t \x7b padding-top:40px!important \x7d \n                            .es-m-p40b \x7b padding-bottom:40px!important \x7d \n                            .es-m-p40r \x7b padding-right:40px!important \x7d \n                            .es-m-p40l \x7b padding-left:40px!important \x7d \n" = true := by decide

set_option maxHeartbeats 1600000 in
theorem skelA_chunk_26 :
    chunkZeroOk CID_PAT.data "                            .es-desk-hidden \x7b display:table-row!important; width:auto!important; overflow:visible!important; max-height:inherit!important \x7d \x7d\n                </style> \n                </head> \n                <body style=\"width:100%;font-family:\x27Poppins\x27, \x27helvetica neue\x27, helvetica, arial, sans-serif;-webkit-text-size-adjust:100%;-ms-text-size-adjust:100%;padding:0;Margin:0\"> \n" = true := by decide

set_option maxHeartbeats 1600000 in
theorem skelA_chunk_27 :
    chunkZeroOk CID_PAT.data "                <div class=\"es-wrapper-color\" style=\"background-color:#FAFAFA\"><!--[if gte mso 9]>\n                            <v:background xmlns:v=\"urn:schemas-microsoft-com:vml\" fill=\"t\">\n                                <v:fill type=\"tile\" color=\"#fafafa\"></v:fill>\n                            </v:background>\n                        <![endif]--> \n" = true := by decide

set_option maxHeartbeats 1600000 in
theorem skelA_chunk_28 :
    chunkZeroOk CID_PAT.data "                <table class=\"es-wrapper\" width=\"100%\" cellspacing=\"0\" cellpadding=\"0\" style=\"mso-table-lspace:0pt;mso-table-rspace:0pt;border-collapse:collapse;border-spacing:0px;padding:0;Margin:0;width:100%;height:100%;background-repeat:repeat;background-position:center top;background-color:#FAFAFA\"> \n                    <tr> \n                    <td valign=\"top\" style=\"padding:0;Margin:0\"> \n" = true := by decide

set_option maxHeartbeats 1600000 in
theorem skelA_chunk_29 :
    chunkZeroOk CID_PAT.data "                    <table cellpadding=\"0\" cellspacing=\"0\" class=\"es-content\" align=\"center\" style=\"mso-table-lspace:0pt;mso-table-rspace:0pt;border-collapse:collapse;border-spacing:0px;table-layout:fixed !important;width:100%\"> \n                        <tr> \n                        <td align=\"center\" style=\"padding:0;Margin:0\"> \n" = true := by decide

set_option maxHeartbeats 1600000 in
theorem skelA_chunk_30 :
    chunkZeroOk CID_PAT.data "                        <table bgcolor=\"#ffffff\" class=\"es-content-body\" align=\"center\" cellpadding=\"0\" cellspacing=\"0\" style=\"mso-table-lspace:0pt;mso-table-rspace:0pt;border-collapse:collapse;border-spacing:0px;background-color:#FFFFFF;width:600px\"> \n                            <tr> \n                            <td align=\"left\" style=\"padding:0;Margin:0;padding-right:40px\"> \n" = true := by decide

set_option maxHeartbeats 1600000 in
theorem skelA_chunk_31 :
    chunkZeroOk CID_PAT.data "                            <table cellspacing=\"0\" cellpadding=\"0\" width=\"100%\" style=\"mso-table-lspace:0pt;mso-table-rspace:0pt;border-collapse:collapse;border-spacing:0px\"> \n                                <tr> \n                                <td align=\"left\" style=\"padding:0;Margin:0;width:560px\"> \n" = true := by decide

set_option maxHeartbeats 1600000 in
theorem skelA_chunk_32 :
    chunkZeroOk CID_PAT.data "                                <table width=\"100%\" cellspacing=\"0\" cellpadding=\"0\" role=\"presentation\" style=\"mso-table-lspace:0pt;mso-table-rspace:0pt;border-collapse:collapse;border-spacing:0px\"> \n                                    <tr> \n                                    <td class=\"es-m-txt-c\" align=\"left\" style=\"padding:0;Margin:0;padding-top:10px;padding-left:15px;font-size:0px\">\n" = true := by decide

set_option maxHeartbeats 1600000 in
theorem skelA_chunk_33 :
    chunkZeroOk CID_PAT.data "                                        <a href=\"https://experienz.co.uk\" target=\"_blank\" style=\"-webkit-text-size-adjust:none;-ms-text-size-adjust:none;mso-line-height-rule:exactly;text-decoration:underline;color:#5C68E2;font-size:12px\">\n" = true := by decide

set_option maxHeartbeats 1600000 in
theorem skelA_chunk_34 :
    chunkZeroOk CID_PAT.data "                                            <img src=\"data:image/png;base64,iVBORw0KGgoAAAANSUhEUgAAAXYAAAB1CAYAAABavcp/AAAACXBIWXMAAAsTAAALEwEAmpwYAAAAGXRFWHRTb2Z0d2FyZQBBZG9iZSBJbWFnZVJlYWR5ccllPAAAHzhJREFUeNrsXQ1wXNV1vlacYDcFibST0AZbouVvUgYp04BTE6yFNFBghNcUQ0gwWk8waRhTyy2eTmtar1vcTmpmIhcmaQ2pV9hJwBAs4QEKDbBrF7d2aVh5aIKBFsk0LclkihSS2GYM9H5371Wf1u+9+/Pue7tanW/mzern7fu5777vnPvdc86d89577zECgUAgtA7m" = true := by decide

set_option maxHeartbeats 1600000 in
theorem skelA_chunk_35 :
    chunkZeroOk CID_PAT.data "tDqxz9+8qYd/dAT/dmTd+jI9egKBQMTenKTdxT+w5eRnlyTxbovDjPNtLLBVsXHyH6PuQSAQiNiz8b5zga09xdNNSpKHdz/Mib5K3YVAIBCx+yHzPP/ISyLvbOClgOiHJckPU9chEAhE7HZk3sU/BvhWSNkrT0ryJdLrCQQCEXs8oRckmffOoDaERl/kBF+i7kQgEIjYpxN6kTVWavHhxQ9i4yQ/QV2LQCDMSmJvEUIPJXhO7kXqXgQCYdYQOyf0nPRuu1u4bSHRDNBEK4FAaGli54TeIQm9fxa1cYVvBYqLJxAILUfsMmyxxJozyiVtQJ7BBOsgdTkCgTDjiX2Weulx3nueJlcJBMKMJXaZKQovvZuaepr3nqf4dwKBMOOIfZZLLyZYS9IMgUCY" = true := by decide

set_option maxHeartbeats 1600000 in
theorem skelA_chunk_36 :
    chunkZeroOk CID_PAT.data "McTOSR1Zo1+h5tViiJN7gZqBQCA0NbFzUoeXTnq6OUZYLWqGdHcCgdB8xE6k7oxRvuWI3AkEQlMRO5E6kTuBQGghYidSJ3InEAjNgzYi9aYCwkKpBAGBQGicx07RL6mBomUIBEL2xC4rM26jJkwNG6lCJIFAyIzYZUZpmVHyUdpYRtUhCQRC6sQua7+A1KlMQPpA+YEeqgxJIBBs4DJ52up11JsJGBGRx04gENLz2GX9l13UbJmD9HYCgeCf2KUEM8YarKu3nzSPdX/4I6yzvZ1vHWz0Rz9kew6Ps8ljR2P3B/a8Pt7Qxl6yoDPJdXyck3uVuiyBQNBhrsW+g40i9fM5Ma8473xBjOdLkg5i8tgxdtkD29lBTvL1pP7UZ2+c+s7hn0yy5bseOmG/" = true := by decide

set_option maxHeartbeats 1600000 in
theorem skelA_chunk_37 :
    chunkZeroOk CID_PAT.data "LLD50s+w1b95ofj53K33sPHJSdtDlPjWQ12WQCB48djlGqXPZu2Zg8xv+8SFbOEpNXsCQoa3u+f1w5wYJwQ5LlnYye69ok/8/TpO2kHccdEStn7xxWzdM/8oPPrNl14m/h5mBNIECB3EjnPCyFz+wA5Xr51K/RIIBG8ee2ZkAonljsVLWN9Z53ByP0l42SDm3a8eCvVyd79yiB3kxNnBDUE9YBhApvf82wHxO2Sbpz67gj20bDm7sHRfpHzjExhlKFLHfTzJRxAJUESmL5UcIBAIcdBGxchEpNSjYEDo8LxfumU1u5ETMjxaeLbn/N09gpjjpAt4wfDg6wFPf/erL0/9DnJd9cRu8fc7Lro4k1HHTm5EalLRDi+HBLlTtyUQCImIPW0iAfkFCX3H" = true := by decide

set_option maxHeartbeats 1600000 in
theorem skelA_chunk_38 :
    chunkZeroOk CID_PAT.data "iweFBg1ZxUSugMwBz347/169pwzUEz48/L2vHxbfgzFJExgZ4NpwLx5HB2u4se2irksgEJyIXXrrnWmdHOR66Is1QodnDUKHR206sQijAB0dRB1lBMKOteqJR8UnJJ+0gOu6eMFCtmnf3qlrw3wAMJpc3yevnUAgREKnsadCIJBO4KXjU2nPLpOJyiO+87k9Vt8D2WNkAINy5749LhEqscBoAZO2MDjBa+s8pV3IMh68935udIuUkUpoBvT29iJaCwUB1UgSYbnFSqVCc0HN5rGn5a3Dk93ff7OIQQehLxq6z4nU4e3DI4b+7vJ9EHoaXruQlq7sEwS+vC5KRxkyTyhQ9yU0AakjafEFVivd3Su3NXwb4//rohZqMmKXFtgboGeD0JUnu2jo3qlo" = true := by decide

set_option maxHeartbeats 1600000 in
theorem skelA_chunk_39 :
    chunkZeroOk CID_PAT.data "FRePOBhp4oKg1+5TawepY3IWklK9Zw5iH/3RG75ONUDdl9AEKEX5ODH/IzSC2GX1Rm+RMCDi/f2rBLGBiBFH7ip/4Bgq0uS64YcSXZfy2lec5+dWEV7Zd+bZwmBhkra+DQDE4PsaHMhRFYHQKG89x+KTFvkuvR3UUs3jsXvzBkF2KnYbsourlz4lc1zRJ3T1JMYh6LWrCJmkgMFBAhRGEXc+t/eE//eddXaN2A97LWtAxE5odnRREzQPsed9kfpWTsQgO0gvSfVlVR7glid2e9Oqt784KgwFrjUJYHCAMAlGeey4Zs9JUb0U+khoILSTo5VKheobNQOxywqOiUVnZI4qUkdyTlLvWkXRwOOvj1lPRuwHRXZrEq8dej+uDREwYQYHGj7+n1IRsjx1" = true := by decide

set_option maxHeartbeats 1600000 in
theorem skelA_chunk_40 :
    chunkZeroOk CID_PAT.data "Y0IjIEl7NGaXLdRKzeOxJyYKJZmojMukXiqIUyUvmU6WTshzhhUNq8fdzx8Q+5nsG2bAYBQQhx8lMyl9ffcrL6fxDAvUjQkNBPpfmMdSYZRv0VrEjnR9XxmXkEhAnNDCIXOYQnnOHfPmGXntMEK3WXrtqgwCPP5Vj++OJX8cPyWPvZvkGEKDvXYEW6zl25D00lfyv+cojr1xmJagJKNhEsswiDKBB5uUyIIafX1MuPno4STtPjA+iGKxTVjamV8+NZEbVw8ekTI7PMpHIcixDEPLZHxy0JiM8Zd4rFVfEpmA09GI+w1p62qzEaa8nsFWbAsZ1dNTd7/lGUXszJNeC7JLOrkJWSSo0bt4/vDyuz98mtG+IHQQOxKWTEYGSvOHNBR3r1fLaJjtM5jY" = true := by decide

set_option maxHeartbeats 1600000 in
theorem skelA_chunk_41 :
    chunkZeroOk CID_PAT.data "ZefOy21pxD6whljGr2TS8fn+BRYeMVGyJU2ZJNNTR7ylBPebkxIDPjt93K9lWxdkW/dG7AOPqezr3NJw5eX9Mvlc1DNQ95i5MTFsC+/PQfanfNTz5//Hx7g876CLkQ+8U0lH2+Ww+55Wj5177OWoBrTBkXXrhcd+naOXDcJEeV0A0TSuE684BowMwixN90c2q24hDFVfHV64zgggKQtyEKpUpohx3uZdKb1cRVYLf7UZyUFfHYiLiJDH3RDx75U2xMyPhfPUJyMM8WMUHF7oQWafcY37LSTx4uWLPuDY1gVHcgFxFQ3e+Ul5juGQYwQ5Y1IanMEkJJuwLQZcI3ESPP8Red4xi/OUmL+Fi0b4uac55fUae6+Ps7z9zjtTE4a2gG6tSD1prDqkIJsJ" = true := by decide

set_option maxHeartbeats 1600000 in
theorem skelA_chunk_42 :
    chunkZeroOk CID_PAT.data "UVXXJa7MAOQhkDpw7bkfE0bstVvXsD9fckmogcKWsrcums23zg4vThLmBocOiH70gvTKoxC3SPc2zXfrh+dhGWb9NintfF+8aLuYWxkN3G/V9JojPOYkbV2VZGFzTlzrs4bvvMgiNWjPdjmiezZhW5QTtEXZ5dwJn/9S+QxyhkbLJ6mL80tH6URil/q6F/zgrZ8IT3nx6QssJZx5QrdWpJ5Uzpk4ah4ZowwB5Jsb5TJ89fiTxZ8S8pDCMW7A/nPiTfaRD/4iW7dosSB4tdoToCZjESufAbw9v8DLlTQlN5KgpVdV8UDucft0Gd4vrqU/4b222xikkLbuTHjuXabkLq9xm8M5bO5t0Dbr1FO/s34OktR9PP9nDcg9x9JZYjQX5bF7I4at1e+Kz29" = true := by decide

set_option maxHeartbeats 1600000 in
theorem skelA_chunk_43 :
    chunkZeroOk CID_PAT.data "cfY0VqasEpHXPPOUlAUkdAwXHTIGSvohgQc2XdrkqE8j64M1fYn96US+DcAXyh7Ry2t/cxX7j3q+yc/nPIPjTOMEfKKyauh9Ew0CS8l09Mk1il15Z2WPn2yZf2DAMGJBDj+Za444xZvhS+1xIZpsFwfZ4bmutVy3/v80HeRgQXb6B/S627wTOW/RA6tNGoppnkMm6xW223o0Jdr38ffEJovv3VbcafecumeSDrFJf0oWqe95tIceAhGFYQOYHCjezf+DGBjXjzzr1Q+zHR37Ofvtb94vRBEIcFfAzCB6Ej5HKv/R/QazVip/vef4Aywg5X+SQgkcxGOO1bzGQADocrrWi0zwlAfen8CxKhjKQ77Y2KbxVZNnBhlOGU2iLQQPDusHzPTeq+Nm0ye2" = true := by decide

set_option maxHeartbeats 1600000 in
theorem skelA_chunk_44 :
    chunkZeroOk CID_PAT.data "5aVgSkCM8VYT5/VrHqUKi+Pyjj7B9//V66P6IMIH84TurFJE0IF3bxCNcA+7hkd+9XhA8vPShg1X2pScfi/0eCB/3ikicsz/0y1OLb2eExMWW5PA1TnOdlC/LtMgVSZDFGM8XxaByERNqRenZRUkR3XKfgRBPqzchgZmE6A1JT3JMtnFOc71BUslrPMVug7YeVBEpgUiKAU1bd4UZNWlsTAwZzl2t44bUlhuT/c6qLSz6XU/MZKpJHxmRRif4/AtMX/wsqr+XHZtJN5FcjiJ2r1XY4KmC2DGRCs/9OzfcxF6beJNt2FtmD7/0van9MBlpm1Vq67W7TOTe8LHz2Aff/35B6jft3jXtmmM76Y4Se4l7+PPnzk1U8MwBPuSEoublyoW9JDJaAkNQfC6" = true := by decide

set_option maxHeartbeats 1600000 in
theorem skelA_chunk_45 :
    chunkZeroOk CID_PAT.data "N+H4+rFPjRQ1M5EVhDaIvVFSGfKHjPK2KLipDHqPT4X5xDQMGuuxSDanESUjwBvL135WkVpLtXI555oWIZ2kijazl5xmMaK+0KjUm7XflGCNfCGtraeSWaq4rLDprWBrlsuadK0T097Itucv3Q2dYh6OkmF6fTwqeKrzlI8ePC0/3hz/7qfDet/ctY2/94R8LueLb11w/Fatuk1VqAxwbkohNzfWvXX4VK5zfw47ya4d+bkrqCsEQ0pkCA6LLG4SRDbhIRbKz6+qKCElGDp9LGiIoGNyybp9c3P3KUMohl/YweFHzmnNPaK4/qq11o/JQUlckmiQ3IOV+F9cWPbb9UWJj1P3K9s/JvsYcj2/aPj0GI8st9SO0tjTJAmn2INXTTz6FnfHVLezT37q" = true := by decide

set_option maxHeartbeats 1600000 in
theorem skelA_chunk_46 :
    chunkZeroOk CID_PAT.data "fPfrKIXb83XeFXHHlr58p9jujo0OEOEKSwQpLK2RUimvI5DQDI8vkmh4rSOrdX//baVq6Ce678mrWNmeO+Bn3kiXmb96UpDPFeXMjJnHJsnONu4wo+HdBgqMaeaPE9BNspvHEcd7akGEs9IDm5c47tLXRuTX7RJFZV5xBjCL1lKFrC9N+F/Uceh2Id1JHpgbZtp1JV5CS0ptu7mEybMQzN80npsIHsWoSQv6gsWODbv29VbeytrY29uD3X2TH33lXRK4giiSqBECt5O0xsQIRfobEYhI5M7WQNCd2nX6PuPT+BKSO+/rUgoXiOhETj3h3nDdDnT0JcqbDvBQBz+sFRzJWRFAyeGF0BrBocrFSRhqOkWTaI+SYtNvaRQ8vN6jf5RvU7+JIt2yYaYv" = true := by decide

set_option maxHeartbeats 1600000 in
theorem skelA_chunk_47 :
    chunkZeroOk CID_PAT.data "r26A5x5jLxUlSLzN9GGw+7FrnevD04r32Jx5lL92ymnvjV4vJRQAhge/jpL55/z72Z3tOlFYx2dlx0jzWPm/eVEQLCBKkHyyvCwKFjo3qjHElB2Bclizs1JLy/X3L5DXvtiZ14InrP8/gq4PUYUTgsa/+xIVNT+yyE8U10JjhcVyy9qZ5ofwYG5lbpMKoRaZpnCQxbpnFGUfsisSrdUNr40mwmOfl4l3Hya3VBvS7Lk1bVC3awufkbtWiv6bVPMNMP2+2MmpEMzfth4fokk379gqvHaR8tfTKQbZhpK68c4X6JeYU8YPocSwcF9JNXJYq5B94z9DZo/aBsQEpYwLXVlMHcG+YQ0A8u5o0VYXFENPueYGNKLhObum015zGy80xfeTEpOHLUpTnsnl" = true := by decide

set_option maxHeartbeats 1600000 in
theorem skelA_chunk_48 :
    chunkZeroOk CID_PAT.data "jJpmdptmR1IhZ7N9h+YwGYshCFaTStU0mGXEpe81iBKchTpN+N85mGOTEvO4Zb4kbnc7N4kLhwSJCBmn3iBap1Wnf7ny8g1KGAYFCvtmZvza2eJfymPvOPCc0UkXVlIGxcYlkgbf/V7lPiwiaKx78xtTf7+bHArGvkKGcGaDHcfiqIxsfsb4211WQXpOJF6aiJiYs28mLJOHgteUyaOsymxnoorYIJXVdSOqQnJOKRFtWF/wHTz8pSB24sHSvt+PCKwYhx2WXwghAWglb/g66+sVSF3c1NjuXXcvmtrWxu/bvmybhqPNiZNHkSDsbLnSCx9PIo+BQ9KmVF1jWTvzNIGLPut81mtSLhqRe0B0rM2Jfc8EnpxGhT5iEMkKOgYRTvy8iceBpX/PIg07" = true := by decide

set_option maxHeartbeats 1600000 in
theorem skelA_chunk_49 :
    chunkZeroOk CID_PAT.data "nhgSDCJ83fvbTUGkJ54XhUOUJZiGURz1m2Llt0uwnU/DIOmZLW1O/aypSLxiMUEZM55EyIXbIJZBiIEeAAEGEYdUQXYkVUoiu0JaKiIEcE5Rg5vFRBLz+qKzYOKDI2V9f+hlhGJCYFIY9fDQBqLrsKWMs4+/pXizEpneZetQO9ULSSN/uYTMP0Bo32rR1k2CC2sK4KBsIrmB6zNQ1drX+KSSJO5/bKyJYUD/m9kWLhVThMlGpAA8ckSc4ji6UUckiqOECAwNSVqGJ1w8/bH1uGJPHln9OTLiu2L0rMopGTf6ahFs2MbGPGr6EZblf2falMozZDQMyPPNhtcKzIHaDCoZVze/1qBgSYlU+t+oMI3ObtjDpdzO6LWSClgmpW80jzTVsYGfUr3+KbeV" = true := by decide

set_option maxHeartbeats 1600000 in
theorem skelA_chunk_50 :
    chunkZeroOk CID_PAT.data "jIyK0EIR/4L9/4BRaGFyMwzRrFUZFxZZ/7XeuEqS8+qnHne6rcmNBePulg1WtcULdHF24ZYOhI/aiR+KMMwquZRFKsj6KDw+wXVMKoB45y7bVtfVgBm1N/a45SF2XRe1E6lNSzJF161NZ9gp6NqSS+vVPQYQoqgViVGVuXUgdBgOkblriVy1a/c2l10yFJrqMGDDiQP0bJEvpCoMJOebwuPDwbcoaZAlNxigwkHIHLzF9EShdVqpPArC537gEm8mQei9V5pat2nJodL9rMKmbZpUWXByWVDV2JCUBKINbDxCiKnNrWtoXgF6vPPXrhh8OjXOPbCU+WoAM80vzf0Ho4i71aXCtyih8cujrRt9RhsdHiYSUpBimIcZe1xVxAp5J3FBUFwmQN3jJcY2" = true := by decide

set_option maxHeartbeats 1600000 in
theorem skelA_chunk_51 :
    chunkZeroOk CID_PAT.data "+iKDfcDWcHs21Dzu0tdG5Xdq6Aejy0O/yLdIWJ4zMmFsROmti95rUAO8U0SA7ZAncMCC8EAQJonwwr4+UgZ6+U+6H79qQusJ33/gf8fnue+9ZTZjC40ZJXkXqqL9uCjVasS0fbAs+8hpL2NHisM1xybEiiygTEFgmLA4oTFU2LBRW9PgyD2sMksm1Dzu29bAtucsCaZFt3SDkPPS7kgu5N2FbBK8tZ+DMDCSZLwhOnnqVY9S6oXfu2xO7HwjyzbV/JGK9UYArTNqAkYD3D0MBL3+51Oudxtgy7PJ9c+YIY2IycYpYd8wHQDp66+1jbPH9f299Xlw3ooFSRKIMOwyLeYcb0nQ4tTpQUbNQdVfAy+7UDLXb4y9rWmGqIouvha4W5sh50NtxLKzbCmN" = true := by decide

set_option maxHeartbeats 1600000 in
theorem skelA_chunk_52 :
    chunkZeroOk CID_PAT.data "SCt6vNHC6NPbxKH1YJjWhzvfSmHM/K59HMS5kTxoftEmBJVtezxUwuFEZWp1SZhuIeh4G/U4t+4d9Bj31u0ajqPk/nOwxh5FbVbVzkNirzFPpXttl4VBwa/QLvycKcD09/to03RsaPTx1SDZI90+SwRkcRYCsYUzwGaezf+eGFWzxRxewObJi48kfOEks4XfZAzusjAv0+GCdmyaTYYJEm9cQFsgIkSjj8pzlwLAbm82iDAXNUDRfRwImtduh1Zc9kTuwhtXqwft+eQeYfv3LfinNjMv3U5Ea2riDpbwAhqd+p+4hGOFS742a9LuotnDpd4301rsMeLZb08ejcIl6H9s8E4MAYrZBxKbhfYiKUXo3omVAttCj9/ffLKJYoFGfu/WexGn5wVHEVQ9" = true := by decide

set_option maxHeartbeats 1600000 in
theorem skelA_chunk_53 :
    chunkZeroOk CID_PAT.data "9U+jsOF8Y4eJvb/z+7eyi0xeKRav/4rkKiqUJXb82eXujnTstDVyKckziyCZJhKbD3k7ZQTfIrV/+3m4ympCeZpxXVQwjZkNJRpF7V4Pe31FdlUnphRcs2nppoK2XxrR1Ja1RnaXcFPZMeuXWEdLvXNsirt81Y82cTPpkm09iUFCThDYaOLxmrFQEYDGOJzlxokwA1kCNK/DlOoqAvq7OB+OBSVEkTUGegZaOv8E4waic+pUvs7/c909T94SRg4qhN4XLwtpZE3uAOFemMFyvR1xDxNYGN6jdrojkNUgBSSYjHTBpahylVJNFW3t33upIecjDcbJuC1/Sc4U1IaaI/ci69WVfBwXp7ZUZl6ZAwtDGi3Nsjvz9rbffFjVlfCX1rBBVFqcvLg1jghW" = true := by decide

set_option maxHeartbeats 1600000 in
theorem skelA_chunk_54 :
    chunkZeroOk CID_PAT.data "S1ATuukWLhTyDUEbhirz8Els0dN8Jx8LIAUQNr960VIDLwtqNIHb5ksHbXMYMKzIaEF2YLBE3yVkyOG7e8Pr6mV3SUSWBp2edxi7beqXHth50JLokGLAZDUSVms2o39mONHQoWe4/xtJDNcxj9zZ0AbFDUzaBkjyevuGmqYgTeMcnf+AD7KFly73VWAGxQ/Kpr42Ov2EC9xxO8DUN/1/F36HD3zDy7cjjYV8YCmSyGvUykZx1jHWeko4MyA2z1yQz6UH1JPRI4oiunOSlk8fMGRDKpMNLnHN4F9BOPS6RDJLQkrb1ONMnsgymIU8EJLxRw3ZKu99p20K2uY+RhtVxZL/dkgIFbAzeb1tGFv0E7xySB9Y+heRxCidIEDqWzgPJQs+GBAMDcRf/vw9" = true := by decide

set_option maxHeartbeats 1600000 in
theorem skelA_chunk_55 :
    chunkZeroOk CID_PAT.data "Dgy3O+wfB17zwC8Tn7ZqFtdXqUDZeO46bkhSTynAQnZBvILlLLF8Cbb0O+fcoT9V4oQNJAkMx15G3LQSFF4RvPfIedN4jyAwLHiQqOFXX1iMOba01KoH7Wuu7z+Dc8tgrYwi+YiJTZdEW8jwFeb2VhPdudRwpJa709AzGZf+bNjqZE1x4ef7mTWj0XUnP9PN169mx48fFBKVaCg8SB7YLfuVXRdgggLVPH/+PV4T3G1ZWACGGqGcO7znJYtcwHiBgTMBGafUg50NfXC1+hvduEvGCuQTMBZhG6+zkIxBIMTi+Z6zlHnvqpVpl7HYPi45PFjU7GlGvo+7aRP2QqCG/ZlX7iiSV4HHxXnSFDKnLaVUPNGzrajNXL6yb2xhzvdZWaIusUU/saMA3kx7" = true := by decide

set_option maxHeartbeats 1600000 in
theorem skelA_chunk_56 :
    chunkZeroOk CID_PAT.data "0mc/dxH7rowtC/4f1RA/974/ZXfv/2SidX5E7VmHCgh0uAGFPHD0aqpcrIJsVoZCXP7DDaik7RO50zJtnRNaYbMWKT4iu8YyP+5ZiWhk2xE4gzERMq+6ImjGcdOISJ4yAIl9Y5xRQk6ioS47NtuAXPHWsfQpCHJ+csJ5MhQSDEcPdzx+IJVyQOoyH7fqk8NS3cuMjIm4cMmF9DMWI1AkEQhBhtWISzxardU5rP0+IcEUQoEsVR0Huj9cKfSkCtcFU6OWrhyL/D6MBA+QyIlCFxW4zSD4aTadmzDB1YwKBkDqxAyBJaOOQUSCnJAH0bmR6wjDgWDZJPtD18b0wbV3Uir+yTxAzyhS4AkYLHr+ueuPk0VQWtC5RNyYQCLHELkv4jvg4OGQURe7QopO" = true := by decide

set_option maxHeartbeats 1600000 in
theorem skelA_chunk_57 :
    chunkZeroOk CID_PAT.data "ELoLcFfnWSvbqj4V9QLiPRkgkIHXINLhO19ozNa+9FgSgMlszBMkwbihTExBmm8fudXgP0oQsAy/7QOHmRCn1kGOwYAfix5HSryN3tbjFnpBkKcS1q+X6kmrjGA3AgEEmynhtU/LW3dttkpqBMKuInXuB6Pje6kpAlkGNFZAePHebVPx6YHJTpfTrYtxVlicWuggC39186WXCUGC5Ph+A1g6DA4NBxN7ckGFxA9QShNnmsXsnDXjFi4buFZOUmKwEwbt67/CylcQTR6SYpIS+Xi+zKM0/qQRTb3BgKEwzUT1gKGH99dlO7ujfZ7BactM4tQhhthD7oO/hKiQLRMjA40YGpqre6CJf3C6TmuB5R01a1kobTF82D+fD3zGKMF1Sz8bgQLPPyGsnb92" = true := by decide

set_option maxHeartbeats 1600000 in
theorem skelA_chunk_58 :
    chunkZeroOk CID_PAT.data "D546sQb4hQ3aO3HLUMoSWJXY5iZpKKB0IEN47Ki0iIxQJRLa1yuFpIwwS8kfYpCWMharOqAANXK3BmrQEcBggx8DY1OrHp6q1V3wWbSMQCLPHYweKaZ0Y3jsmQi+XC1bAkwbB23i7kD+UJFMv6yh9fXSqXG67kGBE7ffHd6fWoBgJwGsPk2Q8LmZdpK5LIBCciF1quBvTvACQM9Lxb5G1YJCEpDx4E69XLb0XZRBU7PjO/HLhwSdZVs/Ua1fFweqJXBUAs81uJW+dQCD49NgB71p7FCEGCV558LqEJHj+uvVE1TGg7fvW1cNw+zNPCSNSMyb/b5zUZG5CUDQHgUBIRuxSa89s6K8IXhXjUslNIHmQfX2sOH6OkzjgyasKkWno6mGA8VBlh1W8PX5" = true := by decide

set_option maxHeartbeats 1600000 in
theorem skelA_chunk_59 :
    chunkZeroOk CID_PAT.data "GslR96KUltlBCEoFA0GFadcc4zN+8CYTSnfUFgrT7zjxHEHTQc0cZAEgqC+XCFYiTDyYaqZK6imhtF5/2AVzzVhlaiesFMGnsuMwfvtQlDS2BQCB4IXbUQ36hkRcLzxfZpJgYxUpE0Kzh1cMLDtOt4eGDUFHZMWtSDxom6O0d/NrvlkvqOWIZJ3Uq+EUgEPwRuyT3IqutDE7IFiOc1PPUDAQCwQRtNjtzcgGxj1KzZQpIMAVqBgKBkAqxSxQYFVDKEnnS1QkEgg2spBiF+Zs3gdy3UfOljo1ylEQgEAjpErskd8S3r6EmTA1IRMpRMxAIBFu0uX6Rkw4SZSrUhKkA8xg0WUogELIldok8o8lU38D8BenqBALBGc5SjML8zZtQAKXMGpC81KKknqP" = true := by decide

set_option maxHeartbeats 1600000 in
theorem skelA_chunk_60 :
    chunkZeroOk CID_PAT.data "sUgKB0FBiJ3InUicQCC1I7ETuROoEAqEFiZ3InUidQCC0ILEHyB01TXqpebUQ0S+0dimBQGhqYg8QfIl/9FMTR6LCKPqFQCDMJGKX5F5glKEahi0yD4BAIBBmFrFLcke5X0gzndTctYJeVH6XQCDMaGKX5A7dvchmdwkCkl4IBELrEHuA4HP8ozTLvHd46QOc0EvU3QgEQssRe8B7h748GxbsGJKkTl46gUBoXWIPEHwXq8kzrRg5A9mlyAm9TF2MQCDMGmIPEHyPJPilROgEAoHQAsTeIh78CN8GidAJBAIRezjBQ4MvsJoO38yTrOOsFsY5SJmjBAKBiN2c5HskyeebhOQnJZkPUyw6gUAgYvdD8jlJ8lnWoYFuXsZGUguBQCBiz4bou/jWI7" = true := by decide

set_option maxHeartbeats 1600000 in
theorem skelA_chunk_61 :
    chunkZeroOk CID_PAT.data "d2DyQ+xjdUWqwSkRMIBCL25iH8Dvlr8Od6TJE2ETiBQCBiJxAIBELT4v8EGAB1G8QfncuWqgAAAABJRU5ErkJggg==\" alt=\"experienz\" style=\"display:block;border:0;outline:none;text-decoration:none;-ms-interpolation-mode:bicubic\" title=\"experienz\" width=\"300\">\n                                        </a>\n                                    </td> \n                                    </tr> \n" = true := by decide

set_option maxHeartbeats 1600000 in
theorem skelA_chunk_62 :
    chunkZeroOk CID_PAT.data "                                </table></td> \n                                </tr> \n                            </table></td> \n                            </tr> \n                            <tr> \n                            <td align=\"left\" style=\"Margin:0;padding-bottom:20px;padding-left:20px;padding-right:20px;padding-top:30px\"> \n" = true := by decide

set_option maxHeartbeats 1600000 in
theorem skelA_chunk_63 :
    chunkZeroOk CID_PAT.data "                            <table cellpadding=\"0\" cellspacing=\"0\" width=\"100%\" style=\"mso-table-lspace:0pt;mso-table-rspace:0pt;border-collapse:collapse;border-spacing:0px\"> \n                                <tr> \n                                <td align=\"center\" valign=\"top\" style=\"padding:0;Margin:0;width:560px\"> \n" = true := by decide

set_option maxHeartbeats 1600000 in
theorem skelA_chunk_64 :
    chunkZeroOk CID_PAT.data "                                <table cellpadding=\"0\" cellspacing=\"0\" width=\"100%\" role=\"presentation\" style=\"mso-table-lspace:0pt;mso-table-rspace:0pt;border-collapse:collapse;border-spacing:0px\"> \n                                    <tr> \n" = true := by decide

set_option maxHeartbeats 1600000 in
theorem skelA_chunk_65 :
    chunkZeroOk CID_PAT.data "                                    <td align=\"left\" class=\"es-m-txt-l\" style=\"padding:0;Margin:0;padding-bottom:10px\"><h1 style=\"Margin:0;line-height:46px;mso-line-height-rule:exactly;font-family:\x27Poppins\x27, \x27helvetica neue\x27, helvetica, arial, sans-serif;font-size:36px;font-style:normal;font-weight:bold;color:#333333\"><b>Summary From Last Week</b></h1></td> \n" = true := by decide

set_option maxHeartbeats 1600000 in
theorem skelA_chunk_66 :
    chunkZeroOk CID_PAT.data "                                    </tr> \n                                    <tr> \n" = true := by decide

set_option maxHeartbeats 1600000 in
theorem skelA_chunk_67 :
    chunkZeroOk CID_PAT.data "                                    <td align=\"left\" style=\"padding:0;Margin:0;padding-top:5px;padding-bottom:5px\"><p style=\"Margin:0;-webkit-text-size-adjust:none;-ms-text-size-adjust:none;mso-line-height-rule:exactly;font-family:\x27Poppins\x27, \x27helvetica neue\x27, helvetica, arial, sans-serif;line-height:18px;Margin-bottom:15px;color:#333333;font-size:12px\"><br></p></td> \n" = true := by decide

set_option maxHeartbeats 1600000 in
theorem skelA_chunk_68 :
    chunkZeroOk CID_PAT.data "                                    </tr> \n                                    <tr> \n                                    <td align=\"center\" style=\"padding:0;Margin:0;padding-top:10px;padding-bottom:10px;font-size:0px\">\n                                        " = true := by decide

theorem skelA_chunks_all : ∀ s ∈ SKEL_A_CHUNKS, chunkZeroOk CID_PAT.data s = true := by
  intro s hs
  simp only [SKEL_A_CHUNKS, List.mem_cons] at hs
  rcases hs with rfl | rfl | rfl | rfl | rfl | rfl | rfl | rfl | rfl | rfl | rfl | rfl | rfl | rfl | rfl | rfl | rfl | rfl | rfl | rfl | rfl | rfl | rfl | rfl | rfl | rfl | rfl | rfl | rfl | rfl | rfl | rfl | rfl | rfl | rfl | rfl | rfl | rfl | rfl | rfl | rfl | rfl | rfl | rfl | rfl | rfl | rfl | rfl | rfl | rfl | rfl | rfl | rfl | rfl | rfl | rfl | rfl | rfl | rfl | rfl | rfl | rfl | rfl | rfl | rfl | rfl | rfl | rfl | rfl | hs
  · exact skelA_chunk_00
  · exact skelA_chunk_01
  · exact skelA_chunk_02
  · exact skelA_chunk_03
  · exact skelA_chunk_04
  · exact skelA_chunk_05
  · exact skelA_chunk_06
  · exact skelA_chunk_07
  · exact skelA_chunk_08
  · exact skelA_chunk_09
  · exact skelA_chunk_10
  · exact skelA_chunk_11
  · exact skelA_chunk_12
  · exact skelA_chunk_13
  · exact skelA_chunk_14
  · exact skelA_chunk_15
  · exact skelA_chunk_16
  · exact skelA_chunk_17
  · exact skelA_chunk_18
  · exact skelA_chunk_19
  · exact skelA_chunk_20
  · exact skelA_chunk_21
  · exact skelA_chunk_22
  · exact skelA_chunk_23
  · exact skelA_chunk_24
  · exact skelA_chunk_25
  · exact skelA_chunk_26
  · exact skelA_chunk_27
  · exact skelA_chunk_28
  · exact skelA_chunk_29
  · exact skelA_chunk_30
  · exact skelA_chunk_31
  · exact skelA_chunk_32
  · exact skelA_chunk_33
  · exact skelA_chunk_34
  · exact skelA_chunk_35
  · exact skelA_chunk_36
  · exact skelA_chunk_37
  · exact skelA_chunk_38
  · exact skelA_chunk_39
  · exact skelA_chunk_40
  · exact skelA_chunk_41
  · exact skelA_chunk_42
  · exact skelA_chunk_43
  · exact skelA_chunk_44
  · exact skelA_chunk_45
  · exact skelA_chunk_46
  · exact skelA_chunk_47
  · exact skelA_chunk_48
  · exact skelA_chunk_49
  · exact skelA_chunk_50
  · exact skelA_chunk_51
  · exact skelA_chunk_52
  · exact skelA_chunk_53
  · exact skelA_chunk_54
  · exact skelA_chunk_55
  · exact skelA_chunk_56
  · exact skelA_chunk_57
  · exact skelA_chunk_58
  · exact skelA_chunk_59
  · exact skelA_chunk_60
  · exact skelA_chunk_61
  · exact skelA_chunk_62
  · exact skelA_chunk_63
  · exact skelA_chunk_64
  · exact skelA_chunk_65
  · exact skelA_chunk_66
  · exact skelA_chunk_67
  · exact skelA_chunk_68
  · exact absurd hs (List.not_mem_nil s)

set_option maxHeartbeats 1600000 in
theorem skelB_chunk_00 :
    chunkZeroOk CID_PAT.data "\n                                    </td> \n                                    </tr> \n                                    <tr> \n" = true := by decide

set_option maxHeartbeats 1600000 in
theorem skelB_chunk_01 :
    chunkZeroOk CID_PAT.data "                                    <td align=\"center\" class=\"es-m-txt-c\" style=\"padding:0;Margin:0;padding-top:10px;padding-bottom:10px\"><span class=\"es-button-border\" style=\"border-style:solid;border-color:transparent;background:transparent;border-width:2px;display:inline-block;border-radius:0px;width:auto\"><a href=\"https://portal.experienz.co.uk/insights/organisational-health\" class=\"es-button " = true := by decide

set_option maxHeartbeats 1600000 in
theorem skelB_chunk_02 :
    chunkZeroOk CID_PAT.data "es-button-1\" target=\"_blank\" style=\"mso-style-priority:100 !important;text-decoration:none;-webkit-text-size-adjust:none;-ms-text-size-adjust:none;mso-line-height-rule:exactly;color:#FFFFFF;font-size:18px;border-style:solid;border-color:#088A84;border-width:15px 30px;display:inline-block;background:#088A84;border-radius:0px;font-family:\x27Poppins\x27, \x27helvetica neue\x27, helvetica, arial, sans-serif;font" = true := by decide

set_option maxHeartbeats 1600000 in
theorem skelB_chunk_03 :
    chunkZeroOk CID_PAT.data "-weight:normal;font-style:normal;line-height:22px;width:auto;text-align:center\">Explore More</a></span></td> \n                                    </tr> \n                                </table></td> \n                                </tr> \n                            </table></td> \n                            </tr> \n                        </table></td> \n                        </tr> \n" = true := by decide

set_option maxHeartbeats 1600000 in
theorem skelB_chunk_04 :
    chunkZeroOk CID_PAT.data "                    </table> \n                    <table cellpadding=\"0\" cellspacing=\"0\" class=\"es-footer\" align=\"center\" style=\"mso-table-lspace:0pt;mso-table-rspace:0pt;border-collapse:collapse;border-spacing:0px;table-layout:fixed !important;width:100%;background-color:transparent;background-repeat:repeat;background-position:center top\"> \n                        <tr> \n" = true := by decide

set_option maxHeartbeats 1600000 in
theorem skelB_chunk_05 :
    chunkZeroOk CID_PAT.data "                        <td align=\"center\" style=\"padding:0;Margin:0\"> \n                        <table class=\"es-footer-body\" align=\"center\" cellpadding=\"0\" cellspacing=\"0\" style=\"mso-table-lspace:0pt;mso-table-rspace:0pt;border-collapse:collapse;border-spacing:0px;background-color:transparent;width:640px\"> \n                            <tr> \n" = true := by decide

set_option maxHeartbeats 1600000 in
theorem skelB_chunk_06 :
    chunkZeroOk CID_PAT.data "                            <td align=\"left\" style=\"Margin:0;padding-top:20px;padding-bottom:20px;padding-left:20px;padding-right:20px\"> \n                            <table cellpadding=\"0\" cellspacing=\"0\" width=\"100%\" style=\"mso-table-lspace:0pt;mso-table-rspace:0pt;border-collapse:collapse;border-spacing:0px\"> \n                                <tr> \n" = true := by decide

set_option maxHeartbeats 1600000 in
theorem skelB_chunk_07 :
    chunkZeroOk CID_PAT.data "                                <td align=\"left\" style=\"padding:0;Margin:0;width:600px\"> \n                                <table cellpadding=\"0\" cellspacing=\"0\" width=\"100%\" role=\"presentation\" style=\"mso-table-lspace:0pt;mso-table-rspace:0pt;border-collapse:collapse;border-spacing:0px\"> \n                                    <tr> \n" = true := by decide

set_option maxHeartbeats 1600000 in
theorem skelB_chunk_08 :
    chunkZeroOk CID_PAT.data "                                    <td align=\"center\" style=\"padding:0;Margin:0;padding-top:15px;padding-bottom:15px;font-size:0\"> \n                                    <table cellpadding=\"0\" cellspacing=\"0\" class=\"es-table-not-adapt es-social\" role=\"presentation\" style=\"mso-table-lspace:0pt;mso-table-rspace:0pt;border-collapse:collapse;border-spacing:0px\"> \n" = true := by decide

set_option maxHeartbeats 1600000 in
theorem skelB_chunk_09 :
    chunkZeroOk CID_PAT.data "                                        <tr> \n" = true := by decide

set_option maxHeartbeats 1600000 in
theorem skelB_chunk_10 :
    chunkZeroOk CID_PAT.data "                                        <td align=\"center\" valign=\"top\" style=\"padding:0;Margin:0;padding-right:40px\"><a target=\"_blank\" href=\"https://www.facebook.com/experienzcouk\" style=\"-webkit-text-size-adjust:none;-ms-text-size-adjust:none;mso-line-height-rule:exactly;text-decoration:underline;color:#333333;font-size:12px\"><img title=\"Facebook\" src=\"https://prmyfz.stripocdn.email/content/a" = true := by decide

set_option maxHeartbeats 1600000 in
theorem skelB_chunk_11 :
    chunkZeroOk CID_PAT.data "ssets/img/social-icons/logo-black/facebook-logo-black.png\" alt=\"Fb\" width=\"32\" style=\"display:block;border:0;outline:none;text-decoration:none;-ms-interpolation-mode:bicubic\"></a></td> \n" = true := by decide

set_option maxHeartbeats 1600000 in
theorem skelB_chunk_12 :
    chunkZeroOk CID_PAT.data "                                        <td align=\"center\" valign=\"top\" style=\"padding:0;Margin:0;padding-right:40px\"><a target=\"_blank\" href=\"https://https://www.instagram.com/experienz.co.uk\" style=\"-webkit-text-size-adjust:none;-ms-text-size-adjust:none;mso-line-height-rule:exactly;text-decoration:underline;color:#333333;font-size:12px\"><img title=\"Instagram\" src=\"https://prmyfz.stripocdn.email" = true := by decide

set_option maxHeartbeats 1600000 in
theorem skelB_chunk_13 :
    chunkZeroOk CID_PAT.data "/content/assets/img/social-icons/logo-black/instagram-logo-black.png\" alt=\"Inst\" width=\"32\" style=\"display:block;border:0;outline:none;text-decoration:none;-ms-interpolation-mode:bicubic\"></a></td> \n" = true := by decide

set_option maxHeartbeats 1600000 in
theorem skelB_chunk_14 :
    chunkZeroOk CID_PAT.data "                                        <td align=\"center\" valign=\"top\" style=\"padding:0;Margin:0\"><a target=\"_blank\" href=\"https://www.linkedin.com/company/experienz-co-uk/about/\" style=\"-webkit-text-size-adjust:none;-ms-text-size-adjust:none;mso-line-height-rule:exactly;text-decoration:underline;color:#333333;font-size:12px\"><img title=\"Linkedin\" src=\"https://prmyfz.stripocdn.email/content/asset" = true := by decide

set_option maxHeartbeats 1600000 in
theorem skelB_chunk_15 :
    chunkZeroOk CID_PAT.data "s/img/social-icons/logo-black/linkedin-logo-black.png\" alt=\"In\" width=\"32\" style=\"display:block;border:0;outline:none;text-decoration:none;-ms-interpolation-mode:bicubic\"></a></td> \n                                        </tr> \n                                    </table></td> \n                                    </tr> \n                                    <tr> \n" = true := by decide

set_option maxHeartbeats 1600000 in
theorem skelB_chunk_16 :
    chunkZeroOk CID_PAT.data "                                    <td align=\"center\" style=\"padding:0;Margin:0;padding-bottom:35px\"><p style=\"Margin:0;-webkit-text-size-adjust:none;-ms-text-size-adjust:none;mso-line-height-rule:exactly;font-family:\x27Poppins\x27, \x27helvetica neue\x27, helvetica, arial, sans-serif;line-height:18px;Margin-bottom:15px;color:#333333;font-size:12px\"><a target=\"_blank\" href=\"https://www.facebook.com/experien" = true := by decide

set_option maxHeartbeats 1600000 in
theorem skelB_chunk_17 :
    chunkZeroOk CID_PAT.data "zcouk\" style=\"-webkit-text-size-adjust:none;-ms-text-size-adjust:none;mso-line-height-rule:exactly;text-decoration:underline;color:#333333;font-size:12px\"></a>Copyright @ 2022 experienz Limited. All rights reserved.</p><p style=\"Margin:0;-webkit-text-size-adjust:none;-ms-text-size-adjust:none;mso-line-height-rule:exactly;font-family:\x27Poppins\x27, \x27helvetica neue\x27, helvetica, arial, sans-serif;line-he" = true := by decide

set_option maxHeartbeats 1600000 in
theorem skelB_chunk_18 :
    chunkZeroOk CID_PAT.data "ight:18px;Margin-bottom:15px;color:#333333;font-size:12px\">New Broad Street House,<br>35 New Broad Street,<br>London,<br>England,<br>EC2M 1NH<br></p><p style=\"Margin:0;-webkit-text-size-adjust:none;-ms-text-size-adjust:none;mso-line-height-rule:exactly;font-family:\x27Poppins\x27, \x27helvetica neue\x27, helvetica, arial, sans-serif;line-height:18px;Margin-bottom:15px;color:#333333;font-size:12px\"><a href=\"ma" = true := by decide

set_option maxHeartbeats 1600000 in
theorem skelB_chunk_19 :
    chunkZeroOk CID_PAT.data "ilto:info@experienz.co.uk\" style=\"-webkit-text-size-adjust:none;-ms-text-size-adjust:none;mso-line-height-rule:exactly;text-decoration:underline;color:#333333;font-size:12px\">info@experienz.co.uk</a><br>44 (0) 203 908 1977</p></td> \n                                    </tr> \n                                    <tr> \n                                    <td style=\"padding:0;Margin:0\"> \n" = true := by decide

set_option maxHeartbeats 1600000 in
theorem skelB_chunk_20 :
    chunkZeroOk CID_PAT.data "                                    <table cellpadding=\"0\" cellspacing=\"0\" width=\"100%\" class=\"es-menu\" role=\"presentation\" style=\"mso-table-lspace:0pt;mso-table-rspace:0pt;border-collapse:collapse;border-spacing:0px\"> \n                                        <tr class=\"links\"> \n" = true := by decide

set_option maxHeartbeats 1600000 in
theorem skelB_chunk_21 :
    chunkZeroOk CID_PAT.data "                                        <td align=\"center\" valign=\"top\" width=\"33.33%\" style=\"Margin:0;padding-left:5px;padding-right:5px;padding-top:5px;padding-bottom:5px;border:0\"><a target=\"_blank\" href=\"https://experienz.co.uk/\" style=\"-webkit-text-size-adjust:none;-ms-text-size-adjust:none;mso-line-height-rule:exactly;text-decoration:none;display:block;font-family:\x27Poppins\x27, \x27helvetica neue\x27" = true := by decide

set_option maxHeartbeats 1600000 in
theorem skelB_chunk_22 :
    chunkZeroOk CID_PAT.data ", helvetica, arial, sans-serif;color:#999999;font-size:12px\">Visit Us </a></td> \n" = true := by decide

set_option maxHeartbeats 1600000 in
theorem skelB_chunk_23 :
    chunkZeroOk CID_PAT.data "                                        <td align=\"center\" valign=\"top\" width=\"33.33%\" style=\"Margin:0;padding-left:5px;padding-right:5px;padding-top:5px;padding-bottom:5px;border:0;border-left:1px solid #cccccc\"><a target=\"_blank\" href=\"https://experienz.co.uk/privacy\" style=\"-webkit-text-size-adjust:none;-ms-text-size-adjust:none;mso-line-height-rule:exactly;text-decoration:none;display:block;fo" = true := by decide

set_option maxHeartbeats 1600000 in
theorem skelB_chunk_24 :
    chunkZeroOk CID_PAT.data "nt-family:\x27Poppins\x27, \x27helvetica neue\x27, helvetica, arial, sans-serif;color:#999999;font-size:12px\">Privacy Policy</a></td> \n" = true := by decide

set_option maxHeartbeats 1600000 in
theorem skelB_chunk_25 :
    chunkZeroOk CID_PAT.data "                                        <td align=\"center\" valign=\"top\" width=\"33.33%\" style=\"Margin:0;padding-left:5px;padding-right:5px;padding-top:5px;padding-bottom:5px;border:0;border-left:1px solid #cccccc\"><a target=\"_blank\" href=\"https://experienz.co.uk/terms-conditions\" style=\"-webkit-text-size-adjust:none;-ms-text-size-adjust:none;mso-line-height-rule:exactly;text-decoration:none;display" = true := by decide

set_option maxHeartbeats 1600000 in
theorem skelB_chunk_26 :
    chunkZeroOk CID_PAT.data ":block;font-family:\x27Poppins\x27, \x27helvetica neue\x27, helvetica, arial, sans-serif;color:#999999;font-size:12px\">Terms of Use</a></td> \n                                        </tr> \n                                    </table></td> \n                                    </tr> \n                                </table></td> \n                                </tr> \n                            </table></td> \n" = true := by decide

set_option maxHeartbeats 1600000 in
theorem skelB_chunk_27 :
    chunkZeroOk CID_PAT.data "                            </tr> \n                        </table></td> \n                        </tr> \n                    </table></td> \n                    </tr> \n                </table> \n                </div>  \n                </body>\n                </html>\n            " = true := by decide

theorem skelB_chunks_all : ∀ s ∈ SKEL_B_CHUNKS, chunkZeroOk CID_PAT.data s = true := by
  intro s hs
  simp only [SKEL_B_CHUNKS, List.mem_cons] at hs
  rcases hs with rfl | rfl | rfl | rfl | rfl | rfl | rfl | rfl | rfl | rfl | rfl | rfl | rfl | rfl | rfl | rfl | rfl | rfl | rfl | rfl | rfl | rfl | rfl | rfl | rfl | rfl | rfl | rfl | hs
  · exact skelB_chunk_00
  · exact skelB_chunk_01
  · exact skelB_chunk_02
  · exact skelB_chunk_03
  · exact skelB_chunk_04
  · exact skelB_chunk_05
  · exact skelB_chunk_06
  · exact skelB_chunk_07
  · exact skelB_chunk_08
  · exact skelB_chunk_09
  · exact skelB_chunk_10
  · exact skelB_chunk_11
  · exact skelB_chunk_12
  · exact skelB_chunk_13
  · exact skelB_chunk_14
  · exact skelB_chunk_15
  · exact skelB_chunk_16
  · exact skelB_chunk_17
  · exact skelB_chunk_18
  · exact skelB_chunk_19
  · exact skelB_chunk_20
  · exact skelB_chunk_21
  · exact skelB_chunk_22
  · exact skelB_chunk_23
  · exact skelB_chunk_24
  · exact skelB_chunk_25
  · exact skelB_chunk_26
  · exact skelB_chunk_27
  · exact absurd hs (List.not_mem_nil s)

theorem countOcc_cid_SKEL_A : countOcc CID_PAT.data SKEL_A.data = 0 := by
  have h : SKEL_A.data = (SKEL_A_CHUNKS.map String.data).join :=
    string_data_join SKEL_A_CHUNKS
  rw [h]
  exact countOcc_join_zero _ _ skelA_chunks_all

theorem countOcc_cid_SKEL_B : countOcc CID_PAT.data SKEL_B.data = 0 := by
  have h : SKEL_B.data = (SKEL_B_CHUNKS.map String.data).join :=
    string_data_join SKEL_B_CHUNKS
  rw [h]
  exact countOcc_join_zero _ _ skelB_chunks_all

/-- Line 37 of the source: allow-listed table tags. -/
def TABLE_TAGS : List String := ["table", "th", "tr", "td", "thead", "tbody", "tfoot"]

/-- Line 38 of the source: allow-listed table attributes. -/
def TABLE_ATTRIBUTES : List String := ["colspan", "rowspan", "halign", "border", "class"]

/-- Default allow-lists of `bleach.clean`, used for the description at line
84.  Modelled from the spec: bleach is a third-party collaborator whose
defaults are the documented safe tag set; the per-tag attribute map is
flattened to one key list, which is sound for every theorem here. -/
def BLEACH_DEFAULT_TAGS : List String :=
  ["a", "abbr", "acronym", "b", "blockquote", "code", "em", "i", "li", "ol",
   "strong", "ul"]

def BLEACH_DEFAULT_ATTRIBUTES : List String := ["href", "title"]

/-- Modelled from the spec: the tabular dataset (`content.embedded_data`,
a pandas `DataFrame`): column names plus rows of cell strings. -/
structure DataFrame where
  columns : List String
  rows : List (List String)

/-- Modelled from the spec: `DataFrame.to_html(na_rep="", index=True)`
renders the dataset to an HTML table (bordered, `dataframe`-classed,
header row from the columns, an index cell per row, cell text HTML-escaped
as pandas does by default).  The sanitization theorem holds for every
possible string, so no claim depends on the details of this model. -/
def to_html (df : DataFrame) : String :=
  String.mk ("<table border=\"1\" class=\"dataframe\">\n<thead>\n<tr>".data
    ++ (df.columns.map (fun c => "<th>".data ++ escapeHtml c.data ++ "</th>".data)).join
    ++ "</tr>\n</thead>\n<tbody>\n".data
    ++ (df.rows.enum.map (fun p =>
          "<tr><th>".data ++ (Nat.repr p.1).data ++ "</th>".data
          ++ (p.2.map (fun cell =>
                "<td>".data ++ escapeHtml cell.data ++ "</td>".data)).join
          ++ "</tr>\n".data)).join
    ++ "</tbody>\n</table>".data)

/-- The report content consumed by `_get_content` (`self._content`; its
class lives in `superset/reports/notifications/base.py`, outside `src/`).
Modelled from the spec's data model: optional error text, free-text
description, tabular dataset, screenshot binaries, CSV bytes, source URL,
and a display name.  Binary payloads are byte lists. -/
structure NotificationContent where
  name : String
  text : Option String := none
  description : Option String := none
  url : Option String := none
  embedded_data : Option DataFrame := none
  screenshots : List (List Nat) := []
  csv : Option (List Nat) := none

/-- Lines 41-45 of the source: the `EmailContent` dataclass (`data` and
`images` default to `None`; dictionaries become ordered association
lists). -/
structure EmailContent where
  body : String
  data : Option (List (String × List Nat)) := none
  images : Option (List (String × List Nat)) := none

/-- Python truthiness of an optional string, as in `if self._content.text:`
(`None` and the empty string are falsy). -/
def truthyStr : Option String → Bool
  | none => false
  | some s => !s.isEmpty

/-- Python truthiness of optional bytes, as in `if self._content.csv:`
(`None` and empty bytes are falsy). -/
def truthyBytes : Option (List Nat) → Bool
  | none => false
  | some b => !b.isEmpty

/-- The slice of `app.config` the adapter reads. -/
structure AppConfig where
  SMTP_MAIL_FROM : String
  EMAIL_REPORTS_SUBJECT_PREFIX : String

/-- Modelled from the spec: the stdlib `email.utils.parseaddr` used at line
57 is not part of the repository; only its address component matters here,
modelled as the part between angle brackets when present and the whole
string otherwise. -/
def parseaddrAddr (s : String) : String :=
  match s.data.dropWhile (fun c => !(c = '<')) with
  | [] => s
  | _ :: rest => String.mk (rest.takeWhile (fun c => !(c = '>')))

/-- Lines 55-57 of the source:
`parseaddr(app.config["SMTP_MAIL_FROM"])[1].split("@")[1]`.
Indexing `[1]` raises `IndexError` when the address contains no `@`;
that exception is the `none` case. -/
def _get_smtp_domain (cfg : AppConfig) : Option String :=
  ((splitSep '@' (parseaddrAddr cfg.SMTP_MAIL_FROM).data).get? 1).map String.mk

/-- Lines 59-66 of the source.  `flask_babel.gettext` is modelled as
identity translation with `%(text)s` interpolation, so the template is the
literal triple-quoted string with the text substituted. -/
def _error_template (text : String) : String :=
  "\n            Error: " ++ text ++ "\n            "

/-- Everything before the `?` of a URL. -/
def urlBase (url : String) : List Char :=
  url.data.takeWhile (fun c => !(c = '?'))

/-- The query part of a URL (after the first `?`; empty when absent). -/
def urlQuery (url : String) : List Char :=
  (url.data.dropWhile (fun c => !(c = '?'))).tail

/-- Parse a query string into `key=value` pairs (split on `&`, then on the
first `=` of each word). -/
def parseQuery (q : List Char) : List (List Char × List Char) :=
  if q = [] then []
  else (splitSep '&' q).map (fun w =>
    (w.takeWhile (fun c => !(c = '=')), (w.dropWhile (fun c => !(c = '='))).tail))

/-- Render query pairs back to a query string. -/
def renderQuery (ps : List (List Char × List Char)) : List Char :=
  joinSep '&' (ps.map (fun p => p.1 ++ '=' :: p.2))

/-- Override the value of `key` when present, append the pair otherwise. -/
def overrideParam (key value : List Char)
    (ps : List (List Char × List Char)) : List (List Char × List Char) :=
  if ps.any (fun p => p.1 = key) then
    ps.map (fun p => if p.1 = key then (key, value) else p)
  else ps ++ [(key, value)]

/-- Modelled from the spec: `modify_url_query` lives in
`superset/utils/urls.py`, which is not under `src/`.  The spec says the
call-to-action link "equals that URL with a `standalone=0` query parameter
appended/overridden", which is what this model does: parse the query part,
replace the value of `key` if present, append the pair otherwise. -/
def modify_url_query (url : String) (key value : String) : String :=
  String.mk (urlBase url ++ '?' ::
    renderQuery (overrideParam key.data value.data (parseQuery (urlQuery url))))

/-- The value the query string of a URL assigns to `key`
(first occurrence). -/
def queryLookup (key : String) (url : String) : Option String :=
  ((parseQuery (urlQuery url)).lookup key.data).map String.mk

/-- Lines 103-112 of the source: the inline-image fragment, an f-string
with the message id interpolated into its `src="cid:..."` attribute.
First constant part (before `{msgid}`). -/
def IMG_FRAG_A : String :=
  "<div class=\"image\">\n                     <img class=\"adapt-img\" src=\"cid:"

/-- Second constant part of the image fragment (after `{msgid}`). -/
def IMG_FRAG_B : String :=
  "\" alt style=\"display:block;border:0;outline:none;text-decoration:none;-ms-interpolation-mode:bicubic\" width=\"100%\">\n                </div>\n                "

/-- Line 84 of the source: the sanitized description
(`bleach.clean(self._content.description or "")`). -/
def _content_description (c : NotificationContent) : String :=
  bleach_clean BLEACH_DEFAULT_TAGS BLEACH_DEFAULT_ATTRIBUTES (c.description.getD "")

/-- Lines 86-95 of the source: the sanitized table fragment
(`bleach.clean(df.to_html(na_rep="", index=True), tags=TABLE_TAGS,
attributes=TABLE_ATTRIBUTES)` when embedded data is present, `""`
otherwise). -/
def _content_html_table (c : NotificationContent) : String :=
  match c.embedded_data with
  | some df => bleach_clean TABLE_TAGS TABLE_ATTRIBUTES (to_html df)
  | none => ""

/-- Lines 97-102 of the source: the call-to-action URL
(`modify_url_query(self._content.url, standalone="0")` when a URL is
present, `""` otherwise). -/
def _content_url (c : NotificationContent) : String :=
  match c.url with
  | some u => modify_url_query u "standalone" "0"
  | none => ""

/-- `make_msgid(domain)[1:-1]` for the `i`-th screenshot: the generated
message-id with the surrounding angle brackets stripped.  `gen` models the
stdlib `email.utils.make_msgid`, whose successive return values are
globally unique; uniqueness appears as an injectivity hypothesis in the
theorems that need it. -/
def msgidStripped (gen : String → Nat → String) (domain : String) (i : Nat) :
    String :=
  String.mk (((gen domain i).data.drop 1).dropLast)

/-- Lines 68-367 of the source: `EmailNotification._get_content`.

* error path (lines 69-70): truthy `content.text` short-circuits to the
  error template with `data`/`images` left at their `None` defaults;
* the domain (line 74) can raise `IndexError` (modelled as `none`);
* `images` (lines 75-81): one stripped fresh message-id per screenshot, in
  input order (the dict comprehension keyed by `make_msgid(domain)[1:-1]`);
* `description` (line 84), `html_table` (lines 86-95), `call_to_action`
  and `url` (lines 97-102) are computed exactly as in the source; note the
  body template below uses none of them — its only interpolation point is
  `{img_tag}` (line 304);
* `img_tag` (lines 103-112): concatenated image fragments;
* `body` (lines 134-363): `textwrap.dedent` of the fixed skeleton with
  `img_tag` substituted;
* `csv_data` (lines 365-366): `{name + ".csv": csv}` when `csv` is truthy.
-/
def _get_content (cfg : AppConfig) (gen : String → Nat → String)
    (c : NotificationContent) : Option EmailContent :=
  if truthyStr c.text then
    some { body := _error_template (c.text.getD "") }
  else
    match _get_smtp_domain cfg with
    | none => none
    | some domain =>
      let images : List (String × List Nat) :=
        if c.screenshots.isEmpty then []
        else c.screenshots.enum.map (fun p => (msgidStripped gen domain p.1, p.2))
      let _description := _content_description c
      let _html_table := _content_html_table c
      let _call_to_action := "Explore in Superset"
      let _url := _content_url c
      let img_tag := String.join (images.map (fun kv => IMG_FRAG_A ++ kv.1 ++ IMG_FRAG_B))
      let body := dedentS (SKEL_A ++ img_tag ++ SKEL_B)
      let csv_data : Option (List (String × List Nat)) :=
        if truthyBytes c.csv then some [(c.name ++ ".csv", c.csv.getD [])] else none
      some { body := body, data := csv_data, images := some images }

/-- Lines 369-374 of the source: subject = localized
`"%(prefix)s %(title)s"` with the configured prefix and the report name. -/
def _get_subject (cfg : AppConfig) (c : NotificationContent) : String :=
  cfg.EMAIL_REPORTS_SUBJECT_PREFIX ++ " " ++ c.name

/-- Minimal JSON value model for the recipient configuration blob. -/
inductive JVal where
  | str : String → JVal
  | obj : List (String × JVal) → JVal
  | other : JVal

/-- The recipient record (`self._recipient`). -/
structure ReportRecipient where
  recipient_config_json : String

/-- The exceptions `_get_to` can raise: `json.JSONDecodeError` from
`json.loads`, `TypeError` when the decoded value is not a dict, `KeyError`
when the dict has no `"target"` entry. -/
inductive GetToErr where
  | decodeErr : String → GetToErr
  | typeErr : GetToErr
  | keyErr : GetToErr

/-- Lines 376-377 of the source:
`json.loads(self._recipient.recipient_config_json)["target"]`.
`jsonLoads` models the stdlib JSON parser. -/
def _get_to (jsonLoads : String → Except String JVal) (r : ReportRecipient) :
    Except GetToErr JVal :=
  match jsonLoads r.recipient_config_json with
  | Except.error m => Except.error (GetToErr.decodeErr m)
  | Except.ok (JVal.obj fields) =>
    match fields.lookup "target" with
    | some v => Except.ok v
    | none => Except.error GetToErr.keyErr
  | Except.ok _ => Except.error GetToErr.typeErr

/-- What `send` can raise: an error escaping `_get_content` (the
`IndexError` of the domain derivation), an error escaping `_get_to`
(propagated unwrapped, since both run before the `try` block), or a
`NotificationError` wrapping the exception of the transport call. -/
inductive SendError (ε : Type) where
  | contentErr : SendError ε
  | recipientErr : GetToErr → SendError ε
  | notifErr : ε → SendError ε

/-- Observable outcome of one `send` call: its result, how many times the
transport was invoked, and whether the success log line was emitted. -/
structure SendTrace (ε : Type) where
  result : Except (SendError ε) Unit
  transportCalls : Nat
  loggedSuccess : Bool

/-- Lines 379-398 of the source: `send`.  Subject, content and destination
are computed, in that order, before the `try` block; only the
`send_email_smtp` call (modelled by `transport`, applied to destination,
subject and built content) is guarded: its exception is wrapped in
`NotificationError` and re-raised, and the success log line is only
emitted when it returns. -/
def send {ε : Type} (cfg : AppConfig) (gen : String → Nat → String)
    (c : NotificationContent) (jsonLoads : String → Except String JVal)
    (r : ReportRecipient)
    (transport : JVal → String → EmailContent → Except ε Unit) :
    SendTrace ε :=
  let subject := _get_subject cfg c
  match _get_content cfg gen c with
  | none => { result := Except.error SendError.contentErr, transportCalls := 0,
              loggedSuccess := false }
  | some content =>
    match _get_to jsonLoads r with
    | Except.error e =>
      { result := Except.error (SendError.recipientErr e), transportCalls := 0,
        loggedSuccess := false }
    | Except.ok dest =>
      match transport dest subject content with
      | Except.ok _ =>
        { result := Except.ok (), transportCalls := 1, loggedSuccess := true }
      | Except.error ex =>
        { result := Except.error (SendError.notifErr ex), transportCalls := 1,
          loggedSuccess := false }

/-! ### Fixtures for witnesses and counterexamples -/

/-- A well-formed configuration: the from-address has a domain. -/
def cfgOk : AppConfig :=
  { SMTP_MAIL_FROM := "admin@example.com",
    EMAIL_REPORTS_SUBJECT_PREFIX := "[Report]" }

/-- A misconfigured from-address without `@`. -/
def cfgBad : AppConfig :=
  { SMTP_MAIL_FROM := "superset",
    EMAIL_REPORTS_SUBJECT_PREFIX := "[Report]" }

/-- A concrete message-id generator: angle-bracketed ids whose stripped
forms have pairwise different lengths, hence are pairwise distinct. -/
def genTest : String → Nat → String :=
  fun d i => "<" ++ String.mk (List.replicate i 'a') ++ "@" ++ d ++ ">"

/-! ### Claim C4 -/

/-- C4 counterexample: with error text present but empty (`text = some ""`,
which is falsy in Python), `_get_content` takes the normal path and returns
an images mapping that is the empty dict — not `None` as the claim
requires of "any text, including empty". -/
theorem c4_counterexample :
    ((_get_content cfgOk genTest { name := "r", text := some "" }).map
      EmailContent.images) = some (some []) := rfl

/-- C4 (amended: only non-empty error text takes the error path, because
the code tests Python truthiness, not `None`-ness): for every
configuration, generator and content whose error text is set and
non-empty, `_get_content` returns exactly the error template body with the
text interpolated verbatim, and `data` and `images` are both `None`. -/
theorem c4_amended (cfg : AppConfig) (gen : String → Nat → String)
    (c : NotificationContent) (t : String) (ht : c.text = some t)
    (hne : t ≠ "") :
    _get_content cfg gen c
      = some { body := _error_template t, data := none, images := none } := by
  have htr : truthyStr c.text = true := by
    rw [ht]
    have hemp : t.isEmpty = false := by
      rw [Bool.eq_false_iff]
      intro hh
      exact hne ((String.isEmpty_iff t).mp hh)
    simp [truthyStr, hemp]
  unfold _get_content
  rw [if_pos htr, ht]
  rfl

/-- C4 witness: the amended theorem at a concrete input. -/
theorem c4_witness :
    _get_content cfgOk genTest { name := "r", text := some "boom" }
      = some { body := _error_template "boom", data := none, images := none } :=
  c4_amended cfgOk genTest { name := "r", text := some "boom" } "boom" rfl
    (by decide)

/-! ### Claim C6 -/

/-- C6: for every content without error text carrying non-empty CSV bytes
and the display name `"Weekly"`, the data mapping of the produced
`EmailContent` is exactly the singleton `{"Weekly.csv": bytes}`. -/
theorem c6_theorem (cfg : AppConfig) (gen : String → Nat → String)
    (c : NotificationContent) (d : String) (bs : List Nat)
    (hd : _get_smtp_domain cfg = some d) (ht : truthyStr c.text = false)
    (hname : c.name = "Weekly") (hcsv : c.csv = some bs) (hne : bs ≠ []) :
    (_get_content cfg gen c).map EmailContent.data
      = some (some [("Weekly.csv", bs)]) := by
  have hb : truthyBytes c.csv = true := by
    rw [hcsv]
    simp [truthyBytes, List.isEmpty_iff, hne]
  unfold _get_content
  rw [if_neg (by simp [ht]), hd]
  show some (if truthyBytes c.csv then some [(c.name ++ ".csv", c.csv.getD [])]
      else none)
    = some (some [("Weekly.csv", bs)])
  rw [if_pos hb, hname, hcsv]
  rfl

/-- C6 witness: the theorem at a concrete input. -/
theorem c6_witness :
    (_get_content cfgOk genTest
        { name := "Weekly", csv := some [1, 2, 3] }).map EmailContent.data
      = some (some [("Weekly.csv", [1, 2, 3])]) :=
  c6_theorem cfgOk genTest { name := "Weekly", csv := some [1, 2, 3] }
    "example.com" [1, 2, 3] rfl rfl rfl rfl (by decide)

/-! ### Claim C10 -/

/-- C10: CSV presence is tested by Python truthiness, so zero-length CSV
bytes leave the data mapping absent (`None`), exactly as when no CSV was
supplied at all. -/
theorem c10_theorem (cfg : AppConfig) (gen : String → Nat → String)
    (c : NotificationContent) (d : String)
    (hd : _get_smtp_domain cfg = some d) (ht : truthyStr c.text = false)
    (h : c.csv = some [] ∨ c.csv = none) :
    (_get_content cfg gen c).map EmailContent.data = some none := by
  have hb : truthyBytes c.csv = false := by
    rcases h with h | h <;> simp [truthyBytes, h]
  unfold _get_content
  rw [if_neg (by simp [ht]), hd]
  show some (if truthyBytes c.csv then some [(c.name ++ ".csv", c.csv.getD [])]
      else none) = some none
  rw [if_neg (by simp [hb])]

/-- C10 witness: empty CSV bytes at a concrete input. -/
theorem c10_witness :
    (_get_content cfgOk genTest { name := "r", csv := some [] }).map
      EmailContent.data = some none :=
  c10_theorem cfgOk genTest { name := "r", csv := some [] } "example.com"
    rfl rfl (Or.inl rfl)

/-! ### Claim C7 -/

/-- C7: once content and destination are built, the transport call is made
exactly once; if it raises, `send` raises a `NotificationError` wrapping
the transport exception as its cause and does not log success; if it
returns, `send` logs success and returns nothing. -/
theorem c7_theorem {ε : Type} (cfg : AppConfig) (gen : String → Nat → String)
    (c : NotificationContent) (jsonLoads : String → Except String JVal)
    (r : ReportRecipient)
    (transport : JVal → String → EmailContent → Except ε Unit)
    (ec : EmailContent) (dest : JVal)
    (hc : _get_content cfg gen c = some ec)
    (hto : _get_to jsonLoads r = Except.ok dest) :
    (∀ ex : ε, transport dest (_get_subject cfg c) ec = Except.error ex →
      send cfg gen c jsonLoads r transport
        = { result := Except.error (SendError.notifErr ex), transportCalls := 1,
            loggedSuccess := false })
    ∧ (transport dest (_get_subject cfg c) ec = Except.ok () →
      send cfg gen c jsonLoads r transport
        = { result := Except.ok (), transportCalls := 1,
            loggedSuccess := true }) := by
  constructor
  · intro ex hex
    simp [send, hc, hto, hex]
  · intro hok
    simp [send, hc, hto, hok]

/-- A transport stub that always raises. -/
def transportFail : JVal → String → EmailContent → Except String Unit :=
  fun _ _ _ => Except.error "SMTPException"

/-- A transport stub that always succeeds. -/
def transportOkFn : JVal → String → EmailContent → Except String Unit :=
  fun _ _ _ => Except.ok ()

/-- The stdlib JSON parser restricted to the valid recipient blob used by
the witnesses. -/
def jsonLoadsOk : String → Except String JVal :=
  fun _ => Except.ok (JVal.obj [("target", JVal.str "a@b.c")])

def recipOk : ReportRecipient :=
  { recipient_config_json := "\x7b\"target\": \"a@b.c\"\x7d" }

/-- C7 witness: a failing transport at a concrete input. -/
theorem c7_witness :
    send cfgOk genTest { name := "r", text := some "boom" } jsonLoadsOk
        recipOk transportFail
      = { result := Except.error (SendError.notifErr "SMTPException"),
          transportCalls := 1, loggedSuccess := false } :=
  (c7_theorem cfgOk genTest { name := "r", text := some "boom" } jsonLoadsOk
    recipOk transportFail { body := _error_template "boom" }
    (JVal.str "a@b.c") rfl rfl).1 "SMTPException" rfl

/-! ### Claim C9 -/

/-- C9: a recipient blob that fails to decode, or decodes to an object
without a `"target"` field, makes `send` raise the underlying error
unwrapped (a `recipientErr`, not the `NotificationError` wrapper), and the
transport is never invoked: the trace has zero transport calls and is
independent of the transport function. -/
theorem c9_theorem {ε : Type} (cfg : AppConfig) (gen : String → Nat → String)
    (c : NotificationContent) (jsonLoads : String → Except String JVal)
    (r : ReportRecipient) (ec : EmailContent)
    (hc : _get_content cfg gen c = some ec) :
    (∀ m, jsonLoads r.recipient_config_json = Except.error m →
      ∀ t1 t2 : JVal → String → EmailContent → Except ε Unit,
        send cfg gen c jsonLoads r t1 = send cfg gen c jsonLoads r t2
        ∧ send cfg gen c jsonLoads r t1
          = { result := Except.error (SendError.recipientErr (GetToErr.decodeErr m)),
              transportCalls := 0, loggedSuccess := false })
    ∧ (∀ fields, jsonLoads r.recipient_config_json = Except.ok (JVal.obj fields) →
        fields.lookup "target" = none →
        ∀ t1 t2 : JVal → String → EmailContent → Except ε Unit,
          send cfg gen c jsonLoads r t1 = send cfg gen c jsonLoads r t2
          ∧ send cfg gen c jsonLoads r t1
            = { result := Except.error (SendError.recipientErr GetToErr.keyErr),
                transportCalls := 0, loggedSuccess := false }) := by
  constructor
  · intro m hm t1 t2
    have hto : _get_to jsonLoads r = Except.error (GetToErr.decodeErr m) := by
      unfold _get_to
      rw [hm]
    constructor <;> simp [send, hc, hto]
  · intro fields hf hlk t1 t2
    have hto : _get_to jsonLoads r = Except.error GetToErr.keyErr := by
      unfold _get_to
      rw [hf]
      show (match fields.lookup "target" with
          | some v => Except.ok v
          | none => Except.error GetToErr.keyErr)
        = (Except.error GetToErr.keyErr : Except GetToErr JVal)
      rw [hlk]
    constructor <;> simp [send, hc, hto]

/-- A JSON parser stub failing as on a malformed blob. -/
def jsonLoadsBad : String → Except String JVal :=
  fun _ => Except.error "Expecting value"

def recipBad : ReportRecipient := { recipient_config_json := "not json" }

/-- C9 witness: a malformed recipient blob at a concrete input; the send
trace is the unwrapped decode error with zero transport calls, identical
for a failing and a succeeding transport. -/
theorem c9_witness :
    send cfgOk genTest { name := "r", text := some "boom" } jsonLoadsBad
        recipBad transportFail
      = send cfgOk genTest { name := "r", text := some "boom" } jsonLoadsBad
        recipBad transportOkFn
    ∧ send cfgOk genTest { name := "r", text := some "boom" } jsonLoadsBad
        recipBad transportFail
      = { result := Except.error (SendError.recipientErr
            (GetToErr.decodeErr "Expecting value")),
          transportCalls := 0, loggedSuccess := false } :=
  (c9_theorem cfgOk genTest { name := "r", text := some "boom" } jsonLoadsBad
    recipBad { body := _error_template "boom" } rfl).1 "Expecting value" rfl
    transportFail transportOkFn

/-! ### Claim C8 -/

/-- C8 counterexample: `_get_content` is not total — with a configured
from-address that contains no `@` (and content that is not on the error
path), the SMTP-domain derivation `parseaddr(...)[1].split("@")[1]`
raises `IndexError` (the `none` outcome). -/
theorem c8_counterexample :
    _get_content cfgBad genTest { name := "r" } = none := rfl

/-- C8 (amended: content building never raises *except* in the SMTP-domain
derivation, which fails exactly when the parsed from-address has no `@`;
the dataset's own HTML rendering stays the caller's precondition): for
every content, `_get_content` returns a value whenever the error text is
truthy (the derivation is not reached) or the domain derivation succeeds;
sanitization never fails — it is total by construction, for arbitrary
malformed input. -/
theorem c8_amended (cfg : AppConfig) (gen : String → Nat → String)
    (c : NotificationContent)
    (h : truthyStr c.text = true ∨ (_get_smtp_domain cfg).isSome = true) :
    (_get_content cfg gen c).isSome = true := by
  unfold _get_content
  by_cases ht : truthyStr c.text = true
  · rw [if_pos ht]
    rfl
  · rw [if_neg ht]
    rcases h with h | h
    · exact absurd h ht
    · obtain ⟨d, hd⟩ := Option.isSome_iff_exists.mp h
      rw [hd]
      rfl

/-- C8 witness: the amended theorem at a concrete input with malformed
HTML in the description. -/
theorem c8_witness :
    (_get_content cfgOk genTest
      { name := "r", description := some "<b><script>x" }).isSome = true :=
  c8_amended cfgOk genTest { name := "r", description := some "<b><script>x" }
    (Or.inr rfl)

/-! ### Shape of the normal path of `_get_content` -/

/-- On the normal (non-error) path with a derivable domain, `_get_content`
returns the dedented skeleton with only the image fragments substituted,
the truthiness-guarded CSV mapping, and the images dict. -/
theorem _get_content_normal (cfg : AppConfig) (gen : String → Nat → String)
    (c : NotificationContent) (d : String)
    (hd : _get_smtp_domain cfg = some d) (ht : truthyStr c.text = false) :
    _get_content cfg gen c = some
      { body := dedentS (SKEL_A ++ String.join
          ((if c.screenshots.isEmpty then []
            else c.screenshots.enum.map
              (fun p => (msgidStripped gen d p.1, p.2))).map
            (fun kv => IMG_FRAG_A ++ kv.1 ++ IMG_FRAG_B)) ++ SKEL_B),
        data := if truthyBytes c.csv
          then some [(c.name ++ ".csv", c.csv.getD [])] else none,
        images := some (if c.screenshots.isEmpty then []
          else c.screenshots.enum.map
            (fun p => (msgidStripped gen d p.1, p.2))) } := by
  unfold _get_content
  rw [if_neg (by simp [ht]), hd]

/-- Body projection of the previous lemma. -/
theorem _get_content_body (cfg : AppConfig) (gen : String → Nat → String)
    (c : NotificationContent) (d : String)
    (hd : _get_smtp_domain cfg = some d) (ht : truthyStr c.text = false) :
    (_get_content cfg gen c).map EmailContent.body = some
      (dedentS (SKEL_A ++ String.join
        ((if c.screenshots.isEmpty then []
          else c.screenshots.enum.map
            (fun p => (msgidStripped gen d p.1, p.2))).map
          (fun kv => IMG_FRAG_A ++ kv.1 ++ IMG_FRAG_B)) ++ SKEL_B)) := by
  rw [_get_content_normal cfg gen c d hd ht]
  rfl

/-! ### Claim C1 -/

/-- The fixed skeleton body with no image fragment: what `_get_content`
produces for every content without screenshots. -/
def emptySkeletonBody : String := dedentS (SKEL_A ++ "" ++ SKEL_B)

/-- C1 counterexample: two contents that differ only in their description
(whose sanitized forms differ) produce literally identical bodies — so the
sanitized description is not substituted into the body, contrary to the
claim (had it been substituted at a fixed point, different sanitized
descriptions would force different bodies). -/
theorem c1_counterexample :
    ((_get_content cfgOk genTest
        { name := "r", description := some "REPORT DESCRIPTION" }).map
        EmailContent.body
      = (_get_content cfgOk genTest
        { name := "r", description := some "<b>other</b>" }).map
        EmailContent.body)
    ∧ _content_description { name := "r", description := some "REPORT DESCRIPTION" }
      ≠ _content_description { name := "r", description := some "<b>other</b>" } := by
  constructor
  · rfl
  · decide

/-- C1 (amended: the body is the fixed HTML skeleton with only the
concatenated image fragments substituted, at the single interpolation
point; the sanitized description, the sanitized table fragment and the
call-to-action link are computed but not substituted, so the body depends
only on the screenshots): two non-error contents with equal screenshot
lists get equal bodies, and a content without screenshots gets exactly the
constant skeleton body. -/
theorem c1_amended (cfg : AppConfig) (gen : String → Nat → String)
    (c c' : NotificationContent) (d : String)
    (hd : _get_smtp_domain cfg = some d)
    (h1 : truthyStr c.text = false) (h2 : truthyStr c'.text = false)
    (hs : c.screenshots = c'.screenshots) :
    (_get_content cfg gen c).map EmailContent.body
      = (_get_content cfg gen c').map EmailContent.body
    ∧ (c.screenshots = [] →
        (_get_content cfg gen c).map EmailContent.body
          = some emptySkeletonBody) := by
  constructor
  · rw [_get_content_body cfg gen c d hd h1,
      _get_content_body cfg gen c' d hd h2, hs]
  · intro hnil
    rw [_get_content_body cfg gen c d hd h1, hnil]
    rfl

/-- C1 witness: the amended theorem at concrete inputs differing in
description, table data and URL but not in screenshots. -/
theorem c1_witness :
    ((_get_content cfgOk genTest
        { name := "r", description := some "hello", url := some "http://a/b" }).map
        EmailContent.body
      = (_get_content cfgOk genTest { name := "r2" }).map EmailContent.body)
    ∧ (({ name := "r", description := some "hello",
          url := some "http://a/b" } : NotificationContent).screenshots = [] →
        (_get_content cfgOk genTest
          { name := "r", description := some "hello",
            url := some "http://a/b" }).map EmailContent.body
          = some emptySkeletonBody) :=
  c1_amended cfgOk genTest
    { name := "r", description := some "hello", url := some "http://a/b" }
    { name := "r2" } "example.com" rfl rfl rfl rfl

/-! ### Claim C2 -/

/-- A dataset with a `<script>` tag injected into a cell. -/
def dfScript : DataFrame :=
  { columns := ["col"], rows := [["<script>alert(1)</script>"]] }

def contentScript : NotificationContent :=
  { name := "r", embedded_data := some dfScript }

/-- C2 counterexample: with a script-injected dataset, the body is
literally identical to the body produced with no dataset at all, although
the sanitized table fragment is nonempty — the fragment is never rendered
into the output body (its computation at lines 86-95 is dead code with
respect to the body template, whose only interpolation point is
`{img_tag}`). -/
theorem c2_counterexample :
    ((_get_content cfgOk genTest contentScript).map EmailContent.body
      = (_get_content cfgOk genTest
        { contentScript with embedded_data := none }).map EmailContent.body)
    ∧ _content_html_table contentScript ≠ "" := by
  constructor
  · rfl
  · decide

/-- C2 (amended: the dataset is rendered to HTML and sanitized against the
table allow-list exactly as claimed, and the sanitized fragment can never
contain `<script>` — for any dataset and in fact any input string — but
the fragment is not rendered into the output body, which is independent of
the dataset): the table fragment contains no occurrence of `<script>`, and
the body equals the body computed with the dataset removed. -/
theorem c2_amended (c : NotificationContent) (df : DataFrame)
    (hdf : c.embedded_data = some df) (ht : truthyStr c.text = false) :
    countOcc "<script>".data (_content_html_table c).data = 0
    ∧ ∀ (cfg : AppConfig) (gen : String → Nat → String) (d : String),
        _get_smtp_domain cfg = some d →
        (_get_content cfg gen c).map EmailContent.body
          = (_get_content cfg gen { c with embedded_data := none }).map
            EmailContent.body := by
  constructor
  · unfold _content_html_table
    rw [hdf]
    exact countOcc_script_bleach_clean TABLE_TAGS TABLE_ATTRIBUTES
      (to_html df) (by decide) (by decide)
  · intro cfg gen d hd
    rw [_get_content_body cfg gen c d hd ht,
      _get_content_body cfg gen { c with embedded_data := none } d hd ht]

/-- C2 witness: the amended theorem at the script-injected dataset. -/
theorem c2_witness :
    countOcc "<script>".data (_content_html_table contentScript).data = 0
    ∧ ∀ (cfg : AppConfig) (gen : String → Nat → String) (d : String),
        _get_smtp_domain cfg = some d →
        (_get_content cfg gen contentScript).map EmailContent.body
          = (_get_content cfg gen
              { contentScript with embedded_data := none }).map
            EmailContent.body :=
  c2_amended contentScript dfScript rfl rfl


/-! ### Properties of the `modify_url_query` model (claim C3) -/

theorem takeWhile_prepend_stop (p : Char → Bool) (a : List Char) (x : Char)
    (b : List Char) (ha : ∀ c ∈ a, p c = true) (hx : p x = false) :
    (a ++ x :: b).takeWhile p = a := by
  induction a with
  | nil => simp [List.takeWhile, hx]
  | cons c a' ih =>
    simp only [List.cons_append, List.takeWhile, ha c (by simp), List.append_eq]
    rw [ih (fun c hc => ha c (by simp [hc]))]

theorem dropWhile_prepend_stop (p : Char → Bool) (a : List Char) (x : Char)
    (b : List Char) (ha : ∀ c ∈ a, p c = true) (hx : p x = false) :
    (a ++ x :: b).dropWhile p = x :: b := by
  induction a with
  | nil => simp [List.dropWhile, hx]
  | cons c a' ih =>
    simp only [List.cons_append, List.dropWhile, ha c (by simp), List.append_eq]
    exact ih (fun c hc => ha c (by simp [hc]))

theorem splitSep_no_sep (sep : Char) (w : List Char) (h : sep ∉ w) :
    splitSep sep w = [w] := by
  induction w with
  | nil => rfl
  | cons c w' ih =>
    have hc : ¬ c = sep := fun hh => h (by simp [hh])
    simp only [splitSep, if_neg hc]
    rw [ih (fun hh => h (List.mem_cons_of_mem _ hh))]

theorem splitSep_word (sep : Char) (w t : List Char) (h : sep ∉ w) :
    splitSep sep (w ++ sep :: t) = w :: splitSep sep t := by
  induction w with
  | nil => simp [splitSep]
  | cons c w' ih =>
    have hc : ¬ c = sep := fun hh => h (by simp [hh])
    simp only [List.cons_append, splitSep, if_neg hc, List.append_eq]
    rw [ih (fun hh => h (List.mem_cons_of_mem _ hh))]

theorem splitSep_joinSep (sep : Char) (ws : List (List Char))
    (h : ∀ w ∈ ws, sep ∉ w) (hne : ws ≠ []) :
    splitSep sep (joinSep sep ws) = ws := by
  induction ws with
  | nil => exact absurd rfl hne
  | cons w ws' ih =>
    cases ws' with
    | nil => exact splitSep_no_sep sep w (h w (by simp))
    | cons w' ws'' =>
      have hjoin : joinSep sep (w :: w' :: ws'')
          = w ++ sep :: joinSep sep (w' :: ws'') := rfl
      rw [hjoin, splitSep_word sep w _ (h w (by simp)),
        ih (fun x hx => h x (List.mem_cons_of_mem _ hx)) (by simp)]

/-- Every member of a `splitSep` result is separator-free. -/
theorem splitSep_mem_no_sep (sep : Char) (l : List Char) :
    ∀ w ∈ splitSep sep l, sep ∉ w := by
  induction l with
  | nil =>
    intro w hw
    simp [splitSep] at hw
    simp [hw]
  | cons c rest ih =>
    intro w hw
    by_cases hc : c = sep
    · simp only [splitSep, if_pos hc] at hw
      rcases List.mem_cons.mp hw with hw | hw
      · simp [hw]
      · exact ih w hw
    · simp only [splitSep, if_neg hc] at hw
      cases hL : splitSep sep rest with
      | nil => exact absurd hL (splitSep_ne_nil _ _)
      | cons a as =>
        rw [hL] at hw
        rcases List.mem_cons.mp hw with hw | hw
        · subst hw
          intro hmem
          rcases List.mem_cons.mp hmem with hh | hh
          · exact hc hh.symm
          · exact ih a (by rw [hL]; simp) hh
        · exact ih w (by rw [hL]; simp [hw])

/-- Re-parsing one rendered `key=value` word. -/
theorem parse_word (k v : List Char) (hk : '=' ∉ k) :
    ((k ++ '=' :: v).takeWhile (fun c => !(c = '=')),
      ((k ++ '=' :: v).dropWhile (fun c => !(c = '='))).tail) = (k, v) := by
  have hall : ∀ c ∈ k, (fun c => !decide (c = '=')) c = true := by
    intro c hc
    simp only [Bool.not_eq_true']
    exact decide_eq_false (fun hh => hk (hh ▸ hc))
  rw [takeWhile_prepend_stop _ k '=' v hall (by simp),
    dropWhile_prepend_stop _ k '=' v hall (by simp)]
  rfl

theorem lookup_map_replace (key value : List Char)
    (ps : List (List Char × List Char))
    (h : ps.any (fun p => p.1 = key) = true) :
    (ps.map (fun p => if p.1 = key then (key, value) else p)).lookup key
      = some value := by
  induction ps with
  | nil => simp at h
  | cons q rest ih =>
    obtain ⟨qk, qv⟩ := q
    simp only [List.map_cons]
    by_cases hq : qk = key
    · have hif : (if (qk, qv).1 = key then (key, value) else (qk, qv))
          = (key, value) := by simp [hq]
      rw [hif]
      simp [List.lookup]
    · have hif : (if (qk, qv).1 = key then (key, value) else (qk, qv))
          = (qk, qv) := by simp [hq]
      rw [hif]
      have hbeq : (key == qk) = false := by
        rw [beq_eq_false_iff_ne]
        exact fun hh => hq hh.symm
      simp only [List.lookup, hbeq]
      apply ih
      simp only [List.any_cons, Bool.or_eq_true, decide_eq_true_eq] at h
      rcases h with h | h
      · exact absurd h hq
      · exact h

theorem lookup_append_new (key value : List Char)
    (ps : List (List Char × List Char))
    (h : ps.any (fun p => p.1 = key) = false) :
    (ps ++ [(key, value)]).lookup key = some value := by
  induction ps with
  | nil => simp [List.lookup]
  | cons q rest ih =>
    obtain ⟨qk, qv⟩ := q
    simp only [List.any_cons, Bool.or_eq_false_iff, decide_eq_false_iff_not] at h
    simp only [List.cons_append, List.lookup]
    have hbeq : (key == qk) = false := by
      rw [beq_eq_false_iff_ne]
      exact fun hh => h.1 hh.symm
    rw [hbeq]
    exact ih h.2

/-- Looking up `key` after `overrideParam key value`. -/
theorem overrideParam_lookup (key value : List Char)
    (ps : List (List Char × List Char)) :
    (overrideParam key value ps).lookup key = some value := by
  unfold overrideParam
  by_cases hany : ps.any (fun p => p.1 = key) = true
  · rw [if_pos hany]
    exact lookup_map_replace key value ps hany
  · rw [if_neg hany]
    exact lookup_append_new key value ps (Bool.eq_false_iff.mpr hany)

/-- The query pairs produced by `parseQuery` have `&`-free components and
`=`-free keys. -/
theorem parseQuery_mem_safe (q : List Char) :
    ∀ p ∈ parseQuery q, '&' ∉ p.1 ∧ '=' ∉ p.1 ∧ '&' ∉ p.2 := by
  intro p hp
  unfold parseQuery at hp
  by_cases hq : q = []
  · simp [hq] at hp
  · rw [if_neg hq] at hp
    obtain ⟨w, hw, rfl⟩ := List.mem_map.mp hp
    have hwamp : '&' ∉ w := splitSep_mem_no_sep '&' q w hw
    refine ⟨?_, ?_, ?_⟩
    · intro hmem
      exact hwamp ((List.takeWhile_prefix _).subset hmem)
    · intro hmem
      have := List.mem_takeWhile_imp hmem
      simp at this
    · intro hmem
      exact hwamp ((List.dropWhile_sublist _).subset (List.mem_of_mem_tail hmem))

theorem overrideParam_mem_safe (key value : List Char)
    (hk1 : '&' ∉ key) (hk2 : '=' ∉ key) (hv : '&' ∉ value)
    (ps : List (List Char × List Char))
    (hs : ∀ p ∈ ps, '&' ∉ p.1 ∧ '=' ∉ p.1 ∧ '&' ∉ p.2) :
    ∀ p ∈ overrideParam key value ps, '&' ∉ p.1 ∧ '=' ∉ p.1 ∧ '&' ∉ p.2 := by
  intro p hp
  unfold overrideParam at hp
  by_cases hany : ps.any (fun q => q.1 = key) = true
  · rw [if_pos hany] at hp
    obtain ⟨p0, hp0, rfl⟩ := List.mem_map.mp hp
    by_cases hp0k : p0.1 = key
    · rw [if_pos hp0k]
      exact ⟨hk1, hk2, hv⟩
    · rw [if_neg hp0k]
      exact hs p0 hp0
  · rw [if_neg hany] at hp
    rcases List.mem_append.mp hp with hp | hp
    · exact hs p hp
    · simp only [List.mem_singleton] at hp
      rw [hp]
      exact ⟨hk1, hk2, hv⟩

theorem overrideParam_ne_nil (key value : List Char)
    (ps : List (List Char × List Char)) : overrideParam key value ps ≠ [] := by
  unfold overrideParam
  by_cases hany : ps.any (fun q => q.1 = key) = true
  · rw [if_pos hany]
    intro hh
    rw [List.map_eq_nil_iff] at hh
    rw [hh] at hany
    simp at hany
  · rw [if_neg hany]
    simp

theorem renderQuery_ne_nil (ps : List (List Char × List Char))
    (hne : ps ≠ []) : renderQuery ps ≠ [] := by
  unfold renderQuery
  cases hps : ps with
  | nil => exact absurd hps hne
  | cons p rest =>
    cases rest with
    | nil =>
      simp only [List.map_cons, List.map_nil, joinSep]
      intro hh
      have := congrArg List.length hh
      simp at this
    | cons p' rest' =>
      simp only [List.map_cons, joinSep]
      intro hh
      have := congrArg List.length hh
      simp at this

/-- Re-parsing a rendered query recovers the pairs, provided components
are `&`-free and keys `=`-free. -/
theorem parseQuery_renderQuery (ps : List (List Char × List Char))
    (hs : ∀ p ∈ ps, '&' ∉ p.1 ∧ '=' ∉ p.1 ∧ '&' ∉ p.2) (hne : ps ≠ []) :
    parseQuery (renderQuery ps) = ps := by
  have hwords_safe : ∀ w ∈ ps.map (fun p => p.1 ++ '=' :: p.2), '&' ∉ w := by
    intro w hw
    obtain ⟨p, hp, rfl⟩ := List.mem_map.mp hw
    obtain ⟨h1, _, h3⟩ := hs p hp
    intro hmem
    rcases List.mem_append.mp hmem with hm | hm
    · exact h1 hm
    · rcases List.mem_cons.mp hm with hm | hm
      · exact absurd hm.symm (by decide)
      · exact h3 hm
  unfold parseQuery
  rw [if_neg (renderQuery_ne_nil ps hne)]
  unfold renderQuery
  rw [splitSep_joinSep '&' _ hwords_safe (by simp [hne]), List.map_map]
  have hcongr : ∀ p ∈ ps,
      ((fun w => (w.takeWhile (fun c => !(c = '=')),
        (w.dropWhile (fun c => !(c = '='))).tail))
        ∘ (fun p => p.1 ++ '=' :: p.2)) p = p := by
    intro p hp
    have := parse_word p.1 p.2 (hs p hp).2.1
    simpa using this
  rw [List.map_congr_left hcongr]
  simp

/-- The query of `modify_url_query url key value` assigns `value` to
`key` — the append-or-override property of the spec, proved for every
URL. -/
theorem queryLookup_modify_url_query (url key value : String)
    (hk1 : '&' ∉ key.data) (hk2 : '=' ∉ key.data) (hv : '&' ∉ value.data) :
    queryLookup key (modify_url_query url key value)
      = some (String.mk value.data) := by
  have hbase_all : ∀ c ∈ urlBase url, (!decide (c = '?')) = true := by
    intro c hc
    have hc2 : c ∈ url.data.takeWhile (fun c => !(c = '?')) := hc
    have hp := List.mem_takeWhile_imp hc2
    simpa using hp
  have hquery : urlQuery (modify_url_query url key value)
      = renderQuery (overrideParam key.data value.data (parseQuery (urlQuery url))) := by
    unfold urlQuery modify_url_query
    show ((urlBase url ++ '?' :: _).dropWhile (fun c => !(c = '?'))).tail = _
    rw [dropWhile_prepend_stop _ (urlBase url) '?' _ hbase_all (by simp)]
    rfl
  unfold queryLookup
  rw [hquery,
    parseQuery_renderQuery _
      (overrideParam_mem_safe key.data value.data hk1 hk2 hv _
        (parseQuery_mem_safe (urlQuery url)))
      (overrideParam_ne_nil _ _ _),
    overrideParam_lookup]
  rfl

/-! ### Claim C3 -/

def contentUrl : NotificationContent :=
  { name := "r", url := some "http://example.com/dash" }

/-- C3 counterexample: with a URL present, the computed `url` value is
indeed the URL with `standalone=0` appended — but the body is literally
identical to the body computed with no URL at all, so the output's
call-to-action link target is neither empty nor the modified URL (it is a
fixed constant of the skeleton); the computed value never reaches the
output. -/
theorem c3_counterexample :
    _content_url contentUrl = "http://example.com/dash?standalone=0"
    ∧ ((_get_content cfgOk genTest contentUrl).map EmailContent.body
      = (_get_content cfgOk genTest { contentUrl with url := none }).map
        EmailContent.body) := by
  constructor
  · decide
  · rfl

/-- C3 (amended: the `url` local is computed exactly as claimed — empty
without a URL, the URL with a `standalone=0` query parameter appended or
overridden with one — but it is dead code: the body is independent of the
content URL and its call-to-action link is a fixed skeleton constant). -/
theorem c3_amended (c : NotificationContent) :
    (c.url = none → _content_url c = "")
    ∧ (∀ u, c.url = some u →
        _content_url c = modify_url_query u "standalone" "0"
        ∧ queryLookup "standalone" (_content_url c) = some "0")
    ∧ (∀ (cfg : AppConfig) (gen : String → Nat → String) (d : String),
        _get_smtp_domain cfg = some d → truthyStr c.text = false →
        (_get_content cfg gen c).map EmailContent.body
          = (_get_content cfg gen { c with url := none }).map
            EmailContent.body) := by
  refine ⟨?_, ?_, ?_⟩
  · intro h
    unfold _content_url
    rw [h]
  · intro u hu
    have hurl : _content_url c = modify_url_query u "standalone" "0" := by
      unfold _content_url
      rw [hu]
    refine ⟨hurl, ?_⟩
    rw [hurl]
    exact queryLookup_modify_url_query u "standalone" "0" (by decide)
      (by decide) (by decide)
  · intro cfg gen d hd ht
    rw [_get_content_body cfg gen c d hd ht,
      _get_content_body cfg gen { c with url := none } d hd ht]

/-- C3 witness: the amended theorem at a concrete URL. -/
theorem c3_witness :
    _content_url contentUrl
      = modify_url_query "http://example.com/dash" "standalone" "0"
    ∧ queryLookup "standalone" (_content_url contentUrl) = some "0" :=
  (c3_amended contentUrl).2.1 "http://example.com/dash" rfl

/-! ### Claim C5 -/

/-- Splitting across a concrete right constant that is at least as long as
the pattern: only its own prefix matters for straddling. -/
theorem countOcc_append_dropSafeLong (p a b x : List Char)
    (h : dropSafe p b = true) (hlen : p.length ≤ b.length) :
    countOcc p (a ++ (b ++ x)) = countOcc p a + countOcc p (b ++ x) := by
  apply countOcc_append
  intro s _ hne hlen' hpre
  obtain ⟨t, ht⟩ := hpre
  have hbx : b ++ x = p.drop s.length ++ t := by
    have h1 : (p ++ t).drop s.length = p.drop s.length ++ t :=
      List.drop_append_of_le_length (by omega)
    have h2 : (s ++ (b ++ x)).drop s.length = b ++ x := List.drop_left s (b ++ x)
    rw [ht] at h1
    rw [h2] at h1
    exact h1
  have hpre2 : (p.drop s.length).isPrefixOf (b ++ x) = true := by
    rw [hbx]
    exact List.isPrefixOf_iff_prefix.mpr ⟨t, rfl⟩
  have hpre3 : (p.drop s.length).isPrefixOf b = true := by
    rw [← isPrefixOf_append_of_le (p.drop s.length) b x
      (by rw [List.length_drop]; omega)]
    exact hpre2
  have hk := (List.all_eq_true.mp h) s.length (by simp [List.mem_range]; omega)
  beta_reduce at hk
  rw [hpre3] at hk
  simp at hk
  exact hne hk

theorem string_join_cons_data (w : String) (ws : List String) :
    (String.join (w :: ws)).data = w.data ++ (String.join ws).data := by
  rw [string_data_join, string_data_join, List.map_cons]
  rfl

/-- The first character after the image fragments is never part of a
`src="cid:` occurrence: it is `<` when a fragment follows and the
skeleton's leading newline otherwise. -/
theorem c5_head_safe (entries : List (String × List Nat)) :
    ∀ x, ((String.join (entries.map
        (fun kv => IMG_FRAG_A ++ kv.1 ++ IMG_FRAG_B))).data
      ++ SKEL_B.data).head? = some x → x ∉ CID_PAT.data := by
  intro x hx
  cases entries with
  | nil =>
    have h0 : ((String.join (List.map (fun kv => IMG_FRAG_A ++ kv.1 ++ IMG_FRAG_B)
        ([] : List (String × List Nat)))).data ++ SKEL_B.data).head?
        = (SKEL_B.data).head? := rfl
    have hB : SKEL_B.data.head? = some '\n' := rfl
    rw [h0, hB] at hx
    have hxe := Option.some.inj hx
    rw [← hxe]
    decide
  | cons e rest =>
    have hw : (IMG_FRAG_A ++ e.1 ++ IMG_FRAG_B).data.head? = some '<' := by
      rw [String.data_append, String.data_append, List.append_assoc,
        List.head?_append]
      rfl
    have h0 : ((String.join (List.map (fun kv => IMG_FRAG_A ++ kv.1 ++ IMG_FRAG_B)
        (e :: rest))).data ++ SKEL_B.data).head? = some '<' := by
      rw [List.map_cons, string_join_cons_data, List.append_assoc,
        List.head?_append, hw]
      rfl
    rw [h0] at hx
    have hxe := Option.some.inj hx
    rw [← hxe]
    decide

/-- The joined image fragments followed by the skeleton tail contain
exactly one `src="cid:` occurrence per entry, provided no message-id
contains one. -/
theorem c5_join_count (entries : List (String × List Nat))
    (hfree : ∀ e ∈ entries, countOcc CID_PAT.data e.1.data = 0) :
    countOcc CID_PAT.data
      ((String.join (entries.map
        (fun kv => IMG_FRAG_A ++ kv.1 ++ IMG_FRAG_B))).data ++ SKEL_B.data)
      = entries.length := by
  induction entries with
  | nil =>
    have h0 : (String.join (List.map (fun kv => IMG_FRAG_A ++ kv.1 ++ IMG_FRAG_B)
        ([] : List (String × List Nat)))).data = [] := rfl
    rw [List.map_nil] at h0
    rw [List.map_nil, h0, List.nil_append]
    exact countOcc_cid_SKEL_B
  | cons e rest ih =>
    rw [List.map_cons, string_join_cons_data]
    have hw : (IMG_FRAG_A ++ e.1 ++ IMG_FRAG_B).data
        = IMG_FRAG_A.data ++ (e.1.data ++ IMG_FRAG_B.data) := by
      rw [String.data_append, String.data_append, List.append_assoc]
    rw [hw]
    simp only [List.append_assoc]
    rw [countOcc_append_tailSafe CID_PAT.data IMG_FRAG_A.data _ (by decide),
      countOcc_append_dropSafeLong CID_PAT.data e.1.data IMG_FRAG_B.data _
        (by decide) (by decide),
      countOcc_append_tailSafe CID_PAT.data IMG_FRAG_B.data _ (by decide),
      hfree e (by simp), ih (fun y hy => hfree y (by simp [hy]))]
    have hA : countOcc CID_PAT.data IMG_FRAG_A.data = 1 := by decide
    have hB : countOcc CID_PAT.data IMG_FRAG_B.data = 0 := by decide
    rw [hA, hB, List.length_cons]
    omega

/-- The whole body contains exactly one `src="cid:` occurrence per image
entry: the skeleton contributes none, dedenting preserves the count, and
each fragment contributes exactly one. -/
theorem c5_body_count (entries : List (String × List Nat))
    (hfree : ∀ e ∈ entries, countOcc CID_PAT.data e.1.data = 0) :
    countOcc CID_PAT.data
      (dedentS (SKEL_A ++ String.join (entries.map
        (fun kv => IMG_FRAG_A ++ kv.1 ++ IMG_FRAG_B)) ++ SKEL_B)).data
      = entries.length := by
  have hws : ∀ x, isWsChar x = true → x ∉ CID_PAT.data := by
    intro y hy
    simp [isWsChar] at hy
    rcases hy with hy | hy <;> rw [hy] <;> decide
  show countOcc CID_PAT.data
      (dedentL (SKEL_A ++ String.join (entries.map
        (fun kv => IMG_FRAG_A ++ kv.1 ++ IMG_FRAG_B)) ++ SKEL_B).data)
      = entries.length
  rw [countOcc_dedentL CID_PAT.data (by decide) (by decide) hws,
    String.data_append, String.data_append, List.append_assoc,
    countOcc_append_headSafe CID_PAT.data SKEL_A.data _ (c5_head_safe entries),
    countOcc_cid_SKEL_A, c5_join_count entries hfree]
  omega

theorem enum_map_pair {α β : Type} (l : List α) (g : Nat → β) :
    l.enum.map (fun p => (g p.1, p.2)) = ((List.range l.length).map g).zip l := by
  rw [List.enum_eq_zip_range]
  have h1 : ((List.range l.length).map g).zip l
      = ((List.range l.length).map g).zip (l.map id) := by rw [List.map_id]
  rw [h1, List.zip_map]
  apply List.map_congr_left
  intro p _
  rfl

/-- C5: with `N` screenshots and no error text, `_get_content` produces
exactly `N` content-IDs (pairwise distinct, assuming `make_msgid`'s
global-uniqueness contract), the images mapping pairs them with the
screenshot bytes in input order, and the body contains exactly `N`
image fragments referencing them via `src="cid:` URLs (the technical
hypothesis that no generated id itself contains the `src="cid:` marker
holds for every RFC-2822 message-id, which contains no quote
character). -/
theorem c5_theorem (cfg : AppConfig) (gen : String → Nat → String)
    (c : NotificationContent) (d : String)
    (hd : _get_smtp_domain cfg = some d) (ht : truthyStr c.text = false)
    (hinj : ∀ i ∈ List.range c.screenshots.length,
      ∀ j ∈ List.range c.screenshots.length,
        msgidStripped gen d i = msgidStripped gen d j → i = j)
    (hfree : ∀ i ∈ List.range c.screenshots.length,
      countOcc CID_PAT.data (msgidStripped gen d i).data = 0) :
    ∃ ids : List String,
      ids.length = c.screenshots.length
      ∧ ids.Nodup
      ∧ (_get_content cfg gen c).map EmailContent.images
          = some (some (ids.zip c.screenshots))
      ∧ (_get_content cfg gen c).map
          (fun ec => countOcc CID_PAT.data ec.body.data)
          = some c.screenshots.length := by
  have himg : (if c.screenshots.isEmpty then []
      else c.screenshots.enum.map (fun p => (msgidStripped gen d p.1, p.2)))
      = ((List.range c.screenshots.length).map (msgidStripped gen d)).zip
          c.screenshots := by
    by_cases hsem : c.screenshots.isEmpty
    · rw [if_pos hsem]
      have hnil : c.screenshots = [] := by simpa using hsem
      rw [hnil]
      simp
    · rw [if_neg hsem]
      exact enum_map_pair c.screenshots (msgidStripped gen d)
  have hfreeEntries : ∀ e ∈ ((List.range c.screenshots.length).map
      (msgidStripped gen d)).zip c.screenshots,
      countOcc CID_PAT.data e.1.data = 0 := by
    intro e he
    obtain ⟨e1, e2⟩ := e
    have hm := (List.mem_zip he).1
    obtain ⟨i, hi, rfl⟩ := List.mem_map.mp hm
    exact hfree i hi
  refine ⟨(List.range c.screenshots.length).map (msgidStripped gen d),
    by simp, ?_, ?_, ?_⟩
  · exact (List.nodup_range _).map_on (fun i hi j hj hij => hinj i hi j hj hij)
  · rw [_get_content_normal cfg gen c d hd ht]
    show some (some (if c.screenshots.isEmpty then []
        else c.screenshots.enum.map (fun p => (msgidStripped gen d p.1, p.2))))
      = some (some (((List.range c.screenshots.length).map
          (msgidStripped gen d)).zip c.screenshots))
    rw [himg]
  · rw [_get_content_normal cfg gen c d hd ht]
    show some (countOcc CID_PAT.data
        (dedentS (SKEL_A ++ String.join ((if c.screenshots.isEmpty then []
          else c.screenshots.enum.map
            (fun p => (msgidStripped gen d p.1, p.2))).map
          (fun kv => IMG_FRAG_A ++ kv.1 ++ IMG_FRAG_B)) ++ SKEL_B)).data)
      = some c.screenshots.length
    have hcount := c5_body_count (((List.range c.screenshots.length).map
      (msgidStripped gen d)).zip c.screenshots) hfreeEntries
    have hlen : (((List.range c.screenshots.length).map
        (msgidStripped gen d)).zip c.screenshots).length
        = c.screenshots.length := by
      simp [List.length_zip]
    rw [himg, hcount, hlen]

/-- Content fixture with two screenshots. -/
def contentShots : NotificationContent :=
  { name := "r", screenshots := [[1], [2]] }

/-- C5 witness: the theorem at a concrete input with two screenshots and
the concrete id generator. -/
theorem c5_witness :
    ∃ ids : List String,
      ids.length = contentShots.screenshots.length
      ∧ ids.Nodup
      ∧ (_get_content cfgOk genTest contentShots).map EmailContent.images
          = some (some (ids.zip contentShots.screenshots))
      ∧ (_get_content cfgOk genTest contentShots).map
          (fun ec => countOcc CID_PAT.data ec.body.data)
          = some contentShots.screenshots.length :=
  c5_theorem cfgOk genTest contentShots "example.com" rfl rfl (by decide)
    (by decide)
